import Mathlib

/-!
# glimpse: typed views on device buffers, image resources, framebuffers, programs

A shallow embedding of the buffer / view layer of the glimpse library
(`include/glimpse/{types,gl,buffer,data}.hpp`, `src/{types,buffer}.cpp`), of
its image formats and image resources
(`image_format`, `texture`, `texture_3d`, `texture_array`, `texture_cube`,
`renderbuffer`), of its framebuffer (`framebuffer`), and of its programs with
their uniforms and attributes and its vertex arrays
(`member`, `attribute`, `uniform`, `program`, `vertex_array`).

Conventions of the embedding

* `size_t` is 64 bits wide (LP64); a `size_t` value is a `Nat`, and every
  `size_t` operation that can wrap is written with an explicit `% SIZE_MOD`.
  `int` is a 32-bit signed integer, embedded as an `Int`.
* A `std::shared_ptr<gl::Buffer>` is an address into a heap of `Buffer`
  objects; dereferencing an address that holds no object is undefined
  behaviour and is the `none` result.  Reference counts are not tracked.
* Undefined behaviour (null dereference, integer division by zero, signed
  overflow) is `none`, or the outcome `undefined_behaviour` of a function that
  can also throw.
* The OpenGL driver is a host-side fake device: a state holding the buffer
  objects with their data stores, the `GL_ARRAY_BUFFER` binding, the error
  flag, the scissor state, the completeness status it reports, the linked
  programs with their active uniforms and attributes, and the trace of every
  entry point called.  It keeps no image storage: the entry points on
  textures, renderbuffers, framebuffers, vertex arrays and uniforms are
  recorded in the trace only.
* A `float` is passed through unchanged and is embedded as its bit pattern.
* The `std::shared_ptr` of a framebuffer attachment owns an object; the
  attachment is embedded as that object.  So is the program of a vertex array.
* A `std::unordered_map<std::string, T>` is the list of its entries in the
  order of iteration; names are ASCII, so that the length of a name is its
  number of bytes.
-/

namespace gl

/-! ## Machine integers -/

/-- Width of `size_t` in bits. -/
def SIZE_BITS : Nat := 64

/-- Arithmetic on `size_t` is modulo this value. -/
def SIZE_MOD : Nat := 2 ^ SIZE_BITS

/-- Smallest value of `int`. -/
def INT_MIN : Int := -(2 ^ 31)

/-- Largest value of `int`. -/
def INT_MAX : Int := 2 ^ 31 - 1

/-- The difference `a - b` of two `int` values; signed overflow is undefined
behaviour. -/
def int_sub (a b : Int) : Option Int :=
  if INT_MIN ≤ a - b ∧ a - b ≤ INT_MAX then some (a - b) else none

/-- The value `1 << n` of type `int`; a negative shift count or one of 32 and
more is undefined behaviour, and `1 << 31` is the smallest `int`. -/
def int_shl_one (n : Int) : Option Int :=
  if n < 0 ∨ 32 ≤ n then none else if n = 31 then some INT_MIN else some (2 ^ n.toNat)

/-- Conversion of an `int` to `size_t` (the usual arithmetic conversion applied
to the `int` operand of `offset + size`). -/
def int_to_size_t (i : Int) : Nat := (i % (SIZE_MOD : Int)).toNat

/-! ## `types.hpp`, `types.cpp` -/

/-- OpenGL native handle type, `using Handle = unsigned`. -/
abbrev Handle := Nat

/-- OpenGL native type identifier, `using Type = unsigned` (the name `Type` is
reserved in Lean). -/
abbrev GLType := Nat

def GL_BYTE : GLType := 0x1400
def GL_UNSIGNED_BYTE : GLType := 0x1401
def GL_SHORT : GLType := 0x1402
def GL_UNSIGNED_SHORT : GLType := 0x1403
def GL_INT : GLType := 0x1404
def GL_UNSIGNED_INT : GLType := 0x1405
def GL_FLOAT : GLType := 0x1406
def GL_DOUBLE : GLType := 0x140A
def GL_BOOL : GLType := 0x8B56

/-- The host scalar types for which `gl::type<T>()` is specialised. -/
inductive Scalar where
  | bool
  | uint8_t
  | int8_t
  | uint16_t
  | int16_t
  | uint32_t
  | int32_t
  | float
  | double
  deriving DecidableEq, Repr

/-- The specialisations of `gl::type<T>()` in `types.cpp`. -/
def type : Scalar → GLType
  | .bool => GL_BOOL
  | .uint8_t => GL_UNSIGNED_BYTE
  | .int8_t => GL_BYTE
  | .uint16_t => GL_UNSIGNED_SHORT
  | .int16_t => GL_SHORT
  | .uint32_t => GL_UNSIGNED_INT
  | .int32_t => GL_INT
  | .float => GL_FLOAT
  | .double => GL_DOUBLE

/-- The value of `sizeof(T)` for the scalar host types. -/
def Scalar.sizeof : Scalar → Nat
  | .bool => 1
  | .uint8_t => 1
  | .int8_t => 1
  | .uint16_t => 2
  | .int16_t => 2
  | .uint32_t => 4
  | .int32_t => 4
  | .float => 4
  | .double => 8

/-- A host type `T` as the templates of `gl.hpp` and `data.hpp` see it: an
arithmetic type, a class with a nested `value_type` and a static `length()`
(the GLM vector types), or any other class.  The size of a class is a fact of
its layout and is carried along. -/
inductive HostType where
  | arithmetic (t : Scalar)
  | vector (value_type : Scalar) (length : Nat) (size : Nat)
  | record (size : Nat)
  deriving DecidableEq, Repr

/-- The value of `sizeof(T)`. -/
def HostType.sizeof : HostType → Nat
  | .arithmetic t => t.sizeof
  | .vector _ _ size => size
  | .record size => size

/-- The host type `unsigned`. -/
def HostType.unsigned : HostType := .arithmetic .uint32_t

/-! ## `gl.hpp`: element descriptors -/

/-- The class `ElementDescriptor`: native type, size of a component in bytes,
number of components. -/
structure ElementDescriptor where
  m_type : GLType
  m_size : Nat
  m_count : Nat
  deriving DecidableEq, Repr

/-- Modelled from the spec: the accessor `ElementDescriptor::type()` is declared
in `gl.hpp` and its body is not part of the sources; it is the native scalar
type id of the descriptor. -/
def ElementDescriptor.type (d : ElementDescriptor) : GLType := d.m_type

/-- Modelled from the spec: the accessor `ElementDescriptor::size()` is declared
in `gl.hpp` and its body is not part of the sources; it is the byte size of one
component. -/
def ElementDescriptor.size (d : ElementDescriptor) : Nat := d.m_size

/-- Modelled from the spec: the accessor `ElementDescriptor::count()` is
declared in `gl.hpp` and its body is not part of the sources; it is the
component count. -/
def ElementDescriptor.count (d : ElementDescriptor) : Nat := d.m_count

/-- The three `converter<T>::get()` bodies behind `ElementDescriptor::get<T>()`. -/
def ElementDescriptor.get : HostType → ElementDescriptor
  | .arithmetic t => ⟨gl.type t, t.sizeof, 1⟩
  | .vector value_type length _ => ⟨gl.type value_type, value_type.sizeof, length⟩
  | .record size => ⟨gl.type .uint32_t, 1, size⟩

/-! ## `buffer.hpp`: the buffer object on the host side -/

/-- The enumeration `Buffer::Type`. -/
inductive BufferType where
  | STREAM
  | DYNAMIC
  | STATIC
  deriving DecidableEq, Repr

/-- The constant `Buffer::INVALID`. -/
def INVALID : Handle := 0xFFFFFFFF

/-- The data members of `gl::Buffer`. -/
structure Buffer where
  m_handle : Handle
  m_size : Nat
  m_type : BufferType
  deriving DecidableEq, Repr

/-- Modelled from the spec: `Buffer::size()` is declared in `buffer.hpp` and its
body is not part of the sources; it is the size of the buffer in bytes. -/
def Buffer.size (b : Buffer) : Nat := b.m_size

/-- Modelled from the spec: `Buffer::operator bool` is declared in `buffer.hpp`
and its body is not part of the sources; the handle is either a live device
allocation or the sentinel `INVALID`. -/
def Buffer.valid (b : Buffer) : Bool := b.m_handle != INVALID

/-- The heap of `Buffer` objects owned through `std::shared_ptr`; the address of
an object is its position. -/
abbrev Heap := List Buffer

/-- Dereference of a `std::shared_ptr<gl::Buffer>`. -/
def Heap.deref (h : Heap) (p : Nat) : Option Buffer := h.get? p

/-! ## `data.hpp`: views -/

/-- The class `std::slice`: start, number of elements, stride. -/
structure slice where
  start : Nat
  size : Nat
  stride : Nat
  deriving DecidableEq, Repr

/-- The data members of `gl::Data`. -/
structure Data where
  m_buffer : Nat
  m_slice : slice
  m_descriptor : ElementDescriptor
  deriving DecidableEq, Repr

/-- The default argument `gl::ElementDescriptor::get<unsigned>()` of the untyped
constructors; a call that leaves the descriptor out passes this value. -/
def Data.default_descriptor : ElementDescriptor := ElementDescriptor.get HostType.unsigned

/-- The constructor `Data(std::shared_ptr<gl::Buffer>, std::slice, descriptor)`. -/
def Data.new (buffer : Nat) (slice : gl.slice) (descriptor : ElementDescriptor) : Data :=
  ⟨buffer, slice, descriptor⟩

/-- The accessor `Data::slice()`. -/
def Data.slice (v : Data) : gl.slice := v.m_slice

/-- The accessor `Data::descriptor()`. -/
def Data.descriptor (v : Data) : ElementDescriptor := v.m_descriptor

/-- The function `Data::size()`: `m_buffer->size() / m_slice.stride()`. -/
def Data.size (h : Heap) (v : Data) : Option Nat :=
  match h.deref v.m_buffer with
  | none => none
  | some b => if v.m_slice.stride = 0 then none else some (b.size / v.m_slice.stride)

/-- The function `Data::select(offset, stride)`. -/
def Data.select (h : Heap) (v : Data) (offset stride : Nat) : Option Data :=
  match v.size h with
  | none => none
  | some n =>
    let slice : gl.slice := ⟨offset, n, stride⟩
    some (Data.new v.m_buffer slice Data.default_descriptor)

/-- The function `Data::reshape(descriptor)`. -/
def Data.reshape (v : Data) (descriptor : ElementDescriptor) : Data :=
  Data.new v.m_buffer v.m_slice descriptor

/-- A class type instantiation `TypedData<T>`: the view together with its
static element type. -/
structure TypedData where
  T : HostType
  data : Data
  deriving DecidableEq, Repr

/-- A pointer to data member `R T::*`: the member's type and its byte offset
from the base of `T` in the layout of `T`. -/
structure MemberPtr where
  R : HostType
  offset : Nat
  deriving DecidableEq, Repr

/-- The function `TypedData<T>::select<member>()` of the specialisation for
class types `T`; the difference of the two addresses
`&(fake_container->*member)` and `fake_container` is the offset the member
pointer stands for. -/
def TypedData.select (h : Heap) (v : TypedData) (member : MemberPtr) : Option TypedData :=
  let M := member.R
  let offset := member.offset
  match v.data.size h with
  | none => none
  | some n =>
    let slice : gl.slice := ⟨offset, n, v.T.sizeof⟩
    let descriptor := ElementDescriptor.get M
    some ⟨M, Data.new v.data.m_buffer slice descriptor⟩

/-! ## The device

The entry points of the driver used by `buffer.cpp`, over a host-side fake
device.  Every call is recorded in the trace, whether it succeeds or not. -/

def GL_NO_ERROR : Nat := 0
def GL_INVALID_VALUE : Nat := 0x0501
def GL_INVALID_OPERATION : Nat := 0x0502
def GL_ARRAY_BUFFER : Nat := 0x8892
def GL_MAP_READ_BIT : Nat := 0x0001
def GL_STREAM_DRAW : Nat := 0x88E0
def GL_STATIC_DRAW : Nat := 0x88E4
def GL_DYNAMIC_DRAW : Nat := 0x88E8
def GL_NONE : Nat := 0
def GL_TEXTURE_2D : Nat := 0x0DE1
def GL_TEXTURE_3D : Nat := 0x806F
def GL_TEXTURE_CUBE_MAP : Nat := 0x8513
def GL_TEXTURE_2D_ARRAY : Nat := 0x8C1A
def GL_TEXTURE_2D_MULTISAMPLE : Nat := 0x9100
def GL_PACK_ALIGNMENT : Nat := 0x0D05
def GL_UNPACK_ALIGNMENT : Nat := 0x0CF5
def GL_TEXTURE_MAG_FILTER : Nat := 0x2800
def GL_TEXTURE_MIN_FILTER : Nat := 0x2801
def GL_TEXTURE_WRAP_S : Nat := 0x2802
def GL_TEXTURE_WRAP_T : Nat := 0x2803
def GL_TEXTURE_WRAP_R : Nat := 0x8072
def GL_CLAMP_TO_EDGE : Nat := 0x812F
def GL_LINEAR : Nat := 0x2601
def GL_TEXTURE_COMPARE_MODE : Nat := 0x884C
def GL_TEXTURE_COMPARE_FUNC : Nat := 0x884D
def GL_COMPARE_REF_TO_TEXTURE : Nat := 0x884E
def GL_LEQUAL : Nat := 0x0203
def GL_DEPTH_COMPONENT24 : Nat := 0x81A6
def GL_RENDERBUFFER : Nat := 0x8D41
def GL_FRAMEBUFFER : Nat := 0x8D40
def GL_COLOR_ATTACHMENT0 : Nat := 0x8CE0
def GL_DEPTH_ATTACHMENT : Nat := 0x8D00
def GL_FRAMEBUFFER_COMPLETE : Nat := 0x8CD5
def GL_FRAMEBUFFER_UNDEFINED : Nat := 0x8219
def GL_FRAMEBUFFER_INCOMPLETE_ATTACHMENT : Nat := 0x8CD6
def GL_FRAMEBUFFER_INCOMPLETE_MISSING_ATTACHMENT : Nat := 0x8CD7
def GL_FRAMEBUFFER_INCOMPLETE_DRAW_BUFFER : Nat := 0x8CDB
def GL_FRAMEBUFFER_INCOMPLETE_READ_BUFFER : Nat := 0x8CDC
def GL_FRAMEBUFFER_UNSUPPORTED : Nat := 0x8CDD
def GL_FRAMEBUFFER_INCOMPLETE_MULTISAMPLE : Nat := 0x8D56
def GL_FRAMEBUFFER_INCOMPLETE_LAYER_TARGETS : Nat := 0x8DA8
def GL_SCISSOR_TEST : Nat := 0x0C11
def GL_DEPTH_BUFFER_BIT : Nat := 0x00000100
def GL_COLOR_BUFFER_BIT : Nat := 0x00004000

/-- Largest value of the signed `GLsizeiptr` and of `ptrdiff_t`. -/
def PTRDIFF_MAX : Nat := 2 ^ 63 - 1

/-- A `float` or `double` handed to the driver, by its bit pattern. -/
abbrev GLfloat := Nat

/-- The scalar kind in the name of an entry point of the `glProgramUniform`
family: `i`, `ui`, `f` or `d`. -/
inductive UniformKind where
  | i
  | ui
  | f
  | d
  deriving DecidableEq, Repr

/-- The entry points of the driver on a program object, with the arguments that
identify a call. -/
inductive ProgramCall where
  | glGetProgramiv (program : Handle) (pname : Nat)
  | glGetActiveUniform (program : Handle) (index : Nat) (bufSize : Int)
  | glGetUniformLocation (program : Handle) (name : String)
  | glGetActiveAttrib (program : Handle) (index : Nat) (bufSize : Int)
  | glGetAttribLocation (program : Handle) (name : String)
  | glUseProgram (program : Handle)
  deriving DecidableEq, Repr

/-- The entry points of the `glProgramUniform` family.  The entry points
`glProgramUniform1{i,ui,f,d}` are `glProgramUniform1` with the kind,
`glProgramUniform{2,3,4}{i,ui,f,d}v` are `glProgramUniformv` with the number of
components and the kind, and `glProgramUniformMatrix{C}x{R}{f,d}v` are
`glProgramUniformMatrix` with the numbers of columns and rows and the kind
(`glProgramUniformMatrix{N}{f,d}v` has `N` columns and `N` rows). -/
inductive UniformCall where
  | glProgramUniform1 (kind : UniformKind) (program : Handle) (location : Int)
      (value : List Nat)
  | glProgramUniformv (components : Nat) (kind : UniformKind) (program : Handle)
      (location : Int) (count : Int) (value : List Nat)
  | glProgramUniformMatrix (columns rows : Nat) (kind : UniformKind) (program : Handle)
      (location : Int) (count : Int) (transpose : Bool) (value : List Nat)
  deriving DecidableEq, Repr

/-- The entry points of the driver on a vertex array object and the draw calls.
A null pointer handed to `glDrawElements` is the offset 0. -/
inductive VertexArrayCall where
  | glCreateVertexArrays
  | glVertexArrayElementBuffer (vaobj buffer : Handle)
  | glVertexArrayVertexBuffer (vaobj : Handle) (bindingindex : Nat) (buffer : Handle)
      (offset stride : Int)
  | glVertexArrayAttribFormat (vaobj : Handle) (attribindex : Nat) (size : Int) (type : Nat)
      (normalized : Bool) (relativeoffset : Nat)
  | glEnableVertexArrayAttrib (vaobj : Handle) (index : Nat)
  | glBindVertexArray (array : Handle)
  | glDrawElements (mode : Nat) (count : Int) (type : Nat) (indices : Nat)
  | glDrawArrays (mode : Nat) (first count : Int)
  deriving DecidableEq, Repr

/-- The entry points of the driver, with the arguments that identify a call.
The entry points on programs, on uniforms and on vertex arrays are the calls of
`ProgramCall`, `UniformCall` and `VertexArrayCall`. -/
inductive GLCall where
  | glCreateBuffers
  | glNamedBufferData (buffer : Handle) (size : Nat) (usage : Nat)
  | glNamedBufferSubData (buffer : Handle) (offset : Int) (size : Nat)
  | glDeleteBuffers (buffer : Handle)
  | glBindBuffer (target : Nat) (buffer : Handle)
  | glMapBufferRange (target : Nat) (offset : Nat) (length : Nat) (access : Nat)
  | glUnmapBuffer (target : Nat)
  | glGetError
  | glCreateTextures (target : Nat)
  | glTextureStorage2D (texture : Handle) (levels : Int) (internalformat : Nat)
      (width height : Int)
  | glTextureStorage2DMultisample (texture : Handle) (samples : Int) (internalformat : Nat)
      (width height : Int) (fixedsamplelocations : Bool)
  | glTextureStorage3D (texture : Handle) (levels : Int) (internalformat : Nat)
      (width height depth : Int)
  | glPixelStorei (pname : Nat) (param : Int)
  | glTextureParameteri (texture : Handle) (pname : Nat) (param : Nat)
  | glTextureSubImage2D (texture : Handle) (level xoffset yoffset width height : Int)
      (format type : Nat)
  | glTextureSubImage3D (texture : Handle) (level xoffset yoffset zoffset width height depth : Int)
      (format type : Nat)
  | glDeleteTextures (texture : Handle)
  | glCreateRenderbuffers
  | glNamedRenderbufferStorage (renderbuffer : Handle) (internalformat : Nat) (width height : Int)
  | glNamedRenderbufferStorageMultisample (renderbuffer : Handle) (samples : Int)
      (internalformat : Nat) (width height : Int)
  | glCreateFramebuffers
  | glNamedFramebufferDrawBuffer (framebuffer : Handle) (buf : Nat)
  | glNamedFramebufferTexture2DEXT (framebuffer : Handle) (attachment textarget : Nat)
      (texture : Handle) (level : Int)
  | glNamedFramebufferRenderbuffer (framebuffer : Handle) (attachment renderbuffertarget : Nat)
      (renderbuffer : Handle)
  | glCheckNamedFramebufferStatus (framebuffer : Handle) (target : Nat)
  | glDeleteFramebuffers (framebuffer : Handle)
  | glBindFramebuffer (target : Nat) (framebuffer : Handle)
  | glDrawBuffers (n : Nat) (bufs : List Nat)
  | glClearColor (red green blue alpha : GLfloat)
  | glClearDepth (depth : GLfloat)
  | glColorMaski (index : Nat) (r g b a : Bool)
  | glDepthMask (flag : Bool)
  | glEnable (cap : Nat)
  | glDisable (cap : Nat)
  | glScissor (x y width height : Int)
  | glViewport (x y width height : Int)
  | glClear (mask : Nat)
  | program (call : ProgramCall)
  | uniform (call : UniformCall)
  | vertex_array (call : VertexArrayCall)
  deriving DecidableEq, Repr

/-- The entry point `glGetProgramiv` as a call of the driver. -/
abbrev GLCall.glGetProgramiv (program : Handle) (pname : Nat) : GLCall :=
  .program (.glGetProgramiv program pname)

/-- The entry point `glGetActiveUniform` as a call of the driver. -/
abbrev GLCall.glGetActiveUniform (program : Handle) (index : Nat) (bufSize : Int) : GLCall :=
  .program (.glGetActiveUniform program index bufSize)

/-- The entry point `glGetUniformLocation` as a call of the driver. -/
abbrev GLCall.glGetUniformLocation (program : Handle) (name : String) : GLCall :=
  .program (.glGetUniformLocation program name)

/-- The entry point `glGetActiveAttrib` as a call of the driver. -/
abbrev GLCall.glGetActiveAttrib (program : Handle) (index : Nat) (bufSize : Int) : GLCall :=
  .program (.glGetActiveAttrib program index bufSize)

/-- The entry point `glGetAttribLocation` as a call of the driver. -/
abbrev GLCall.glGetAttribLocation (program : Handle) (name : String) : GLCall :=
  .program (.glGetAttribLocation program name)

/-- The entry point `glUseProgram` as a call of the driver. -/
abbrev GLCall.glUseProgram (program : Handle) : GLCall :=
  .program (.glUseProgram program)

/-- The entry point `glProgramUniform1` as a call of the driver. -/
abbrev GLCall.glProgramUniform1 (kind : UniformKind) (program : Handle) (location : Int)
    (value : List Nat) : GLCall :=
  .uniform (.glProgramUniform1 kind program location value)

/-- The entry point `glProgramUniformv` as a call of the driver. -/
abbrev GLCall.glProgramUniformv (components : Nat) (kind : UniformKind) (program : Handle)
    (location : Int) (count : Int) (value : List Nat) : GLCall :=
  .uniform (.glProgramUniformv components kind program location count value)

/-- The entry point `glProgramUniformMatrix` as a call of the driver. -/
abbrev GLCall.glProgramUniformMatrix (columns rows : Nat) (kind : UniformKind)
    (program : Handle) (location : Int) (count : Int) (transpose : Bool) (value : List Nat) : GLCall :=
  .uniform (.glProgramUniformMatrix columns rows kind program location count transpose value)

/-- The entry point `glCreateVertexArrays` as a call of the driver. -/
abbrev GLCall.glCreateVertexArrays : GLCall :=
  .vertex_array .glCreateVertexArrays

/-- The entry point `glVertexArrayElementBuffer` as a call of the driver. -/
abbrev GLCall.glVertexArrayElementBuffer (vaobj buffer : Handle) : GLCall :=
  .vertex_array (.glVertexArrayElementBuffer vaobj buffer)

/-- The entry point `glVertexArrayVertexBuffer` as a call of the driver. -/
abbrev GLCall.glVertexArrayVertexBuffer (vaobj : Handle) (bindingindex : Nat) (buffer : Handle)
    (offset stride : Int) : GLCall :=
  .vertex_array (.glVertexArrayVertexBuffer vaobj bindingindex buffer offset stride)

/-- The entry point `glVertexArrayAttribFormat` as a call of the driver. -/
abbrev GLCall.glVertexArrayAttribFormat (vaobj : Handle) (attribindex : Nat) (size : Int)
    (type : Nat) (normalized : Bool) (relativeoffset : Nat) : GLCall :=
  .vertex_array (.glVertexArrayAttribFormat vaobj attribindex size type normalized relativeoffset)

/-- The entry point `glEnableVertexArrayAttrib` as a call of the driver. -/
abbrev GLCall.glEnableVertexArrayAttrib (vaobj : Handle) (index : Nat) : GLCall :=
  .vertex_array (.glEnableVertexArrayAttrib vaobj index)

/-- The entry point `glBindVertexArray` as a call of the driver. -/
abbrev GLCall.glBindVertexArray (array : Handle) : GLCall :=
  .vertex_array (.glBindVertexArray array)

/-- The entry point `glDrawElements` as a call of the driver. -/
abbrev GLCall.glDrawElements (mode : Nat) (count : Int) (type : Nat) (indices : Nat) : GLCall :=
  .vertex_array (.glDrawElements mode count type indices)

/-- The entry point `glDrawArrays` as a call of the driver. -/
abbrev GLCall.glDrawArrays (mode : Nat) (first count : Int) : GLCall :=
  .vertex_array (.glDrawArrays mode first count)

/-- An active uniform or an active attribute of a linked program, as the device
reports it: its name, its array size, its type and its location (negative when
the variable has none). -/
structure ActiveVariable where
  name : String
  size : Int
  type : Nat
  location : Int
  deriving DecidableEq, Repr

/-- A linked program object of the device: its name, its active uniforms and
its active attributes, in the order of their indices. -/
structure ProgramObject where
  name : Handle
  uniforms : List ActiveVariable
  attributes : List ActiveVariable
  deriving DecidableEq, Repr

/-- A buffer object of the device: its name, its data store and whether the
store is currently mapped. -/
structure BufferObject where
  name : Handle
  store : List Nat
  mapped : Bool
  deriving DecidableEq, Repr

/-- The type `glm::ivec4`: four `int` components. -/
structure ivec4 where
  x : Int
  y : Int
  z : Int
  w : Int
  deriving DecidableEq, Repr

/-- The type `glm::vec4`: four `float` components. -/
structure vec4 where
  x : GLfloat
  y : GLfloat
  z : GLfloat
  w : GLfloat
  deriving DecidableEq, Repr

/-- The state of the fake device: the buffer objects, the next unused object
name (one counter for every kind of object), the `GL_ARRAY_BUFFER` binding, the
error flag, the trace, whether the scissor test is enabled, the scissor box,
the status the device reports for a framebuffer, and the linked program
objects. -/
structure Device where
  objects : List BufferObject
  next : Handle
  array_buffer : Handle
  error : Nat
  trace : List GLCall
  scissor_test : Bool
  scissor_box : ivec4
  framebuffer_status : Nat
  programs : List ProgramObject
  deriving DecidableEq, Repr

/-- A fresh device: no object, no binding, no error, no call made, the scissor
test disabled, no program; it reports every framebuffer complete. -/
def Device.init : Device :=
  ⟨[], 1, 0, GL_NO_ERROR, [], false, ⟨0, 0, 0, 0⟩, GL_FRAMEBUFFER_COMPLETE, []⟩

/-- The buffer object of the given name, if the name is in use. -/
def Device.find (d : Device) (name : Handle) : Option BufferObject :=
  d.objects.find? (fun o => o.name == name)

/-- Replace the buffer object of the same name. -/
def Device.update (d : Device) (o : BufferObject) : Device :=
  { d with objects := d.objects.map (fun x => if x.name == o.name then o else x) }

/-- Append a call to the trace. -/
def Device.log (d : Device) (c : GLCall) : Device :=
  { d with trace := d.trace ++ [c] }

/-- Record an error; the flag keeps the first error until it is queried. -/
def Device.raise (d : Device) (code : Nat) : Device :=
  if d.error = GL_NO_ERROR then { d with error := code } else d

/-- The `size` bytes the driver reads behind a host pointer whose pointee holds
the bytes `data`. -/
def host_bytes (data : List Nat) (size : Nat) : List Nat :=
  (List.range size).map (fun i => data.getD i 0)

/-- Overwrite the bytes of `store` from position `offset` on with `bytes`. -/
def overwrite (store : List Nat) (offset : Nat) (bytes : List Nat) : List Nat :=
  store.take offset ++ bytes ++ store.drop (offset + bytes.length)

/-- Fake `glCreateBuffers(1, &handle)`: a new object with an empty store. -/
def glCreateBuffers (d : Device) : Handle × Device :=
  let d := d.log .glCreateBuffers
  (d.next, { d with objects := d.objects ++ [⟨d.next, [], false⟩], next := d.next + 1 })

/-- Fake `glNamedBufferData`: a new data store of `size` bytes, initialised from
the host pointer. -/
def glNamedBufferData (buffer : Handle) (size : Nat) (data : List Nat) (usage : Nat)
    (d : Device) : Device :=
  let d := d.log (.glNamedBufferData buffer size usage)
  match d.find buffer with
  | none => d.raise GL_INVALID_OPERATION
  | some o =>
    if size > PTRDIFF_MAX then d.raise GL_INVALID_VALUE
    else d.update { o with store := host_bytes data size, mapped := false }

/-- Fake `glNamedBufferSubData`: overwrite `size` bytes at `offset`. -/
def glNamedBufferSubData (buffer : Handle) (offset : Int) (size : Nat) (data : List Nat)
    (d : Device) : Device :=
  let d := d.log (.glNamedBufferSubData buffer offset size)
  match d.find buffer with
  | none => d.raise GL_INVALID_OPERATION
  | some o =>
    if offset < 0 ∨ size > PTRDIFF_MAX ∨ offset.toNat + size > o.store.length then
      d.raise GL_INVALID_VALUE
    else if o.mapped then d.raise GL_INVALID_OPERATION
    else d.update { o with store := overwrite o.store offset.toNat (host_bytes data size) }

/-- Fake `glDeleteBuffers(1, &handle)`: unused names are silently ignored. -/
def glDeleteBuffers (buffer : Handle) (d : Device) : Device :=
  let d := d.log (.glDeleteBuffers buffer)
  { d with objects := d.objects.filter (fun o => o.name != buffer),
           array_buffer := if d.array_buffer = buffer then 0 else d.array_buffer }

/-- Fake `glBindBuffer`. -/
def glBindBuffer (target : Nat) (buffer : Handle) (d : Device) : Device :=
  let d := d.log (.glBindBuffer target buffer)
  if target = GL_ARRAY_BUFFER ∧ (buffer = 0 ∨ (d.find buffer).isSome) then
    { d with array_buffer := buffer }
  else d.raise GL_INVALID_OPERATION

/-- Fake `glMapBufferRange`: the mapped bytes, or `none` for the null pointer. -/
def glMapBufferRange (target : Nat) (offset length access : Nat) (d : Device) :
    Option (List Nat) × Device :=
  let d := d.log (.glMapBufferRange target offset length access)
  if target ≠ GL_ARRAY_BUFFER then (none, d.raise GL_INVALID_OPERATION) else
  match d.find d.array_buffer with
  | none => (none, d.raise GL_INVALID_OPERATION)
  | some o =>
    if length > PTRDIFF_MAX ∨ offset + length > o.store.length then
      (none, d.raise GL_INVALID_VALUE)
    else if length = 0 ∨ o.mapped then (none, d.raise GL_INVALID_OPERATION)
    else (some ((o.store.drop offset).take length), d.update { o with mapped := true })

/-- Fake `glUnmapBuffer`. -/
def glUnmapBuffer (target : Nat) (d : Device) : Device :=
  let d := d.log (.glUnmapBuffer target)
  if target ≠ GL_ARRAY_BUFFER then d.raise GL_INVALID_OPERATION else
  match d.find d.array_buffer with
  | none => d.raise GL_INVALID_OPERATION
  | some o =>
    if o.mapped then d.update { o with mapped := false } else d.raise GL_INVALID_OPERATION

/-- Fake `glGetError`: the error flag, which the call resets. -/
def glGetError (d : Device) : Nat × Device :=
  let d := d.log .glGetError
  (d.error, { d with error := GL_NO_ERROR })

/-- Fake `glCreateTextures(target, 1, &handle)`: a new name. -/
def glCreateTextures (target : Nat) (d : Device) : Handle × Device :=
  let d := d.log (.glCreateTextures target)
  (d.next, { d with next := d.next + 1 })

/-- Fake `glCreateRenderbuffers(1, &handle)`: a new name. -/
def glCreateRenderbuffers (d : Device) : Handle × Device :=
  let d := d.log .glCreateRenderbuffers
  (d.next, { d with next := d.next + 1 })

/-- Fake `glCreateFramebuffers(1, &handle)`: a new name. -/
def glCreateFramebuffers (d : Device) : Handle × Device :=
  let d := d.log .glCreateFramebuffers
  (d.next, { d with next := d.next + 1 })

/-- Fake `glCheckNamedFramebufferStatus`: the status the device reports. -/
def glCheckNamedFramebufferStatus (framebuffer : Handle) (target : Nat) (d : Device) :
    Nat × Device :=
  let d := d.log (.glCheckNamedFramebufferStatus framebuffer target)
  (d.framebuffer_status, d)

/-- Fake `glEnable`. -/
def glEnable (cap : Nat) (d : Device) : Device :=
  let d := d.log (.glEnable cap)
  if cap = GL_SCISSOR_TEST then { d with scissor_test := true } else d

/-- Fake `glDisable`. -/
def glDisable (cap : Nat) (d : Device) : Device :=
  let d := d.log (.glDisable cap)
  if cap = GL_SCISSOR_TEST then { d with scissor_test := false } else d

/-- Fake `glScissor`: the device stores the box as it is given. -/
def glScissor (x y width height : Int) (d : Device) : Device :=
  let d := d.log (.glScissor x y width height)
  { d with scissor_box := ⟨x, y, width, height⟩ }

/-! ## `buffer.hpp`, `buffer.cpp`: the operations of a buffer -/

/-- What a call can end with instead of a result: the exceptions
`std::invalid_argument`, `std::length_error`, `std::runtime_error`,
`std::logic_error` and `gl::Error`, the abort of a failed `assert`, and
undefined behaviour met on the way (in a function that can also throw). -/
inductive Error where
  | invalid_argument (what : String)
  | length_error
  | gl_error (code : Nat)
  | assertion_failed
  | runtime_error (what : String)
  | logic_error (what : String)
  | undefined_behaviour
  deriving DecidableEq, Repr

/-- A `std::vector<T>` on the host: its number of elements and the bytes behind
`data()`. -/
structure vector where
  size : Nat
  data : List Nat
  deriving DecidableEq, Repr

/-- The constructor `Buffer(const void* data, size_t size, Type type)`. -/
def Buffer.new (data : List Nat) (size : Nat) (type : BufferType) (d : Device) :
    Buffer × Device :=
  let created := glCreateBuffers d
  let m_handle := created.1
  let buffer_type :=
    match type with
    | .STATIC => GL_STATIC_DRAW
    | .DYNAMIC => GL_DYNAMIC_DRAW
    | .STREAM => GL_STREAM_DRAW
  (⟨m_handle, size, type⟩, glNamedBufferData m_handle size data buffer_type created.2)

/-- The constructor `Buffer(const std::vector<T>& data, Type type)`, with
`sizeof(T)` for the template argument. -/
def Buffer.of_vector (sizeof_T : Nat) (data : vector) (type : BufferType) (d : Device) :
    Buffer × Device :=
  Buffer.new data.data (sizeof_T * data.size % SIZE_MOD) type d

/-- The constructor `Buffer(size_t reserve, Type type)`.  The temporary
`std::vector<char>(reserve)` is zero-initialised; its construction throws
`std::length_error` beyond `max_size()`.  Host memory is otherwise unlimited. -/
def Buffer.reserve (reserve : Nat) (type : BufferType) (d : Device) :
    Except Error (Buffer × Device) :=
  if reserve > PTRDIFF_MAX then .error .length_error
  else .ok (Buffer.of_vector 1 ⟨reserve, List.replicate reserve 0⟩ type d)

/-- The function `Buffer::reset()`. -/
def Buffer.reset (b : Buffer) (d : Device) : Buffer × Device :=
  if b.valid then ({ b with m_handle := INVALID }, glDeleteBuffers b.m_handle d) else (b, d)

/-- The function `Buffer::swap(other)`: the new `*this` and the new `other`. -/
def Buffer.swap (b other : Buffer) : Buffer × Buffer :=
  (⟨other.m_handle, other.m_size, other.m_type⟩, ⟨b.m_handle, b.m_size, b.m_type⟩)

/-- The move constructor `Buffer(Buffer&& other)`: the new object and what is
left of `other`. -/
def Buffer.move (other : Buffer) : Buffer × Buffer :=
  Buffer.swap ⟨INVALID, 0, .STATIC⟩ other

/-- The move assignment `Buffer::operator=(Buffer&& other)`: the new `*this` and
what is left of `other`. -/
def Buffer.move_assign (b other : Buffer) : Buffer × Buffer :=
  Buffer.swap b other

/-- The function `Buffer::write(const void* data, size_t size, int offset)`. -/
def Buffer.write (b : Buffer) (data : List Nat) (size : Nat) (offset : Int) (d : Device) :
    Except Error Unit × Device :=
  if !b.valid then (.error .assertion_failed, d)
  else (.ok (), glNamedBufferSubData b.m_handle offset size data d)

/-- The function `Buffer::read(size_t size, int offset)`.  In the test
`offset + size > m_size` the `int` is converted to `size_t` and the sum wraps. -/
def Buffer.read (b : Buffer) (size : Nat) (offset : Int) (d : Device) :
    Except Error (List Nat) × Device :=
  if !b.valid then (.error .assertion_failed, d)
  else if offset < 0 ∨ (int_to_size_t offset + size) % SIZE_MOD > b.m_size then
    (.error (.invalid_argument "Size or offset out of bounds"), d)
  else
    let d := glBindBuffer GL_ARRAY_BUFFER b.m_handle d
    let mapped := glMapBufferRange GL_ARRAY_BUFFER 0 b.m_size GL_MAP_READ_BIT d
    match mapped.1 with
    | none =>
      let err := glGetError mapped.2
      (.error (.gl_error err.1), err.2)
    | some map =>
      let res := map.take b.m_size
      (.ok res, glUnmapBuffer GL_ARRAY_BUFFER mapped.2)

/-! ## `data.hpp`: the allocating constructors -/

/-- The host heap and the device. -/
structure World where
  heap : Heap
  dev : Device
  deriving DecidableEq, Repr

/-- The call `std::make_shared<gl::Buffer>(...)`: the address of the new object
and the heap holding it. -/
def make_shared (b : Buffer) (h : Heap) : Nat × Heap := (h.length, h ++ [b])

/-- The constructor `Data(gl::Buffer&& buffer, std::slice, descriptor)`: the
view, what is left of `buffer`, and the new heap. -/
def Data.of_buffer (buffer : Buffer) (slice : gl.slice) (descriptor : ElementDescriptor)
    (w : World) : Data × Buffer × World :=
  let moved := Buffer.move buffer
  let shared := make_shared moved.1 w.heap
  (Data.new shared.1 slice descriptor, moved.2, { w with heap := shared.2 })

/-- The constructor `Data(size_t reserve, size_t element_size, Type type,
descriptor)`. -/
def Data.reserve (reserve element_size : Nat) (type : BufferType)
    (descriptor : ElementDescriptor) (w : World) : Except Error (Data × World) :=
  match Buffer.reserve (reserve * element_size % SIZE_MOD) type w.dev with
  | .error e => .error e
  | .ok (b, dev) =>
    let shared := make_shared b w.heap
    .ok (Data.new shared.1 ⟨0, reserve * element_size % SIZE_MOD, element_size⟩ descriptor,
         ⟨shared.2, dev⟩)

/-- The constructor `Data(const std::vector<T>& data, Type type, descriptor)`;
the temporary buffer is destroyed once the view is built. -/
def Data.of_vector (T : HostType) (data : vector) (type : BufferType)
    (descriptor : ElementDescriptor) (w : World) : Data × World :=
  let temporary := Buffer.of_vector T.sizeof data type w.dev
  let built := Data.of_buffer temporary.1
    ⟨0, data.size * T.sizeof % SIZE_MOD, T.sizeof⟩ descriptor { w with dev := temporary.2 }
  let destroyed := Buffer.reset built.2.1 built.2.2.dev
  (built.1, { built.2.2 with dev := destroyed.2 })

/-! ## `image_format.hpp`, `image_format.cpp` -/

def GL_HALF_FLOAT : GLType := 0x140B
def GL_RED : Nat := 0x1903
def GL_RG : Nat := 0x8227
def GL_RGB : Nat := 0x1907
def GL_RGBA : Nat := 0x1908
def GL_RED_INTEGER : Nat := 0x8D94
def GL_RG_INTEGER : Nat := 0x8228
def GL_RGB_INTEGER : Nat := 0x8D98
def GL_RGBA_INTEGER : Nat := 0x8D99
def GL_R8 : Nat := 0x8229
def GL_RG8 : Nat := 0x822B
def GL_RGB8 : Nat := 0x8051
def GL_RGBA8 : Nat := 0x8058
def GL_R16F : Nat := 0x822D
def GL_RG16F : Nat := 0x822F
def GL_RGB16F : Nat := 0x881B
def GL_RGBA16F : Nat := 0x881A
def GL_R32F : Nat := 0x822E
def GL_RG32F : Nat := 0x8230
def GL_RGB32F : Nat := 0x8815
def GL_RGBA32F : Nat := 0x8814
def GL_R8UI : Nat := 0x8232
def GL_RG8UI : Nat := 0x8238
def GL_RGB8UI : Nat := 0x8D7D
def GL_RGBA8UI : Nat := 0x8D7C
def GL_R16UI : Nat := 0x8234
def GL_RG16UI : Nat := 0x823A
def GL_RGB16UI : Nat := 0x8D77
def GL_RGBA16UI : Nat := 0x8D76
def GL_R32UI : Nat := 0x8236
def GL_RG32UI : Nat := 0x823C
def GL_RGB32UI : Nat := 0x8D71
def GL_RGBA32UI : Nat := 0x8D70
def GL_R8I : Nat := 0x8231
def GL_RG8I : Nat := 0x8237
def GL_RGB8I : Nat := 0x8D8F
def GL_RGBA8I : Nat := 0x8D8E
def GL_R16I : Nat := 0x8233
def GL_RG16I : Nat := 0x8239
def GL_RGB16I : Nat := 0x8D89
def GL_RGBA16I : Nat := 0x8D88
def GL_R32I : Nat := 0x8235
def GL_RG32I : Nat := 0x823B
def GL_RGB32I : Nat := 0x8D83
def GL_RGBA32I : Nat := 0x8D82

/-- The type `std::array<std::pair<unsigned, unsigned>, 4>` of the format
tables: four pairs (base format, storage format). -/
structure FormatTable where
  e0 : Nat × Nat
  e1 : Nat × Nat
  e2 : Nat × Nat
  e3 : Nat × Nat
  deriving DecidableEq, Repr

/-- The element of a format table at an index below 4. -/
def FormatTable.get (t : FormatTable) (i : Nat) : Nat × Nat :=
  match i with
  | 0 => t.e0
  | 1 => t.e1
  | 2 => t.e2
  | _ => t.e3

/-- The data members of `gl::ImageFormat` (also named `gl::PixelType`). -/
structure ImageFormat where
  m_type : GLType
  m_size : Nat
  m_formats : FormatTable
  deriving DecidableEq, Repr

/-- The constant `ImageFormat::f8`. -/
def ImageFormat.f8 : ImageFormat :=
  ⟨GL_UNSIGNED_BYTE, 1, ⟨(GL_RED, GL_R8), (GL_RG, GL_RG8), (GL_RGB, GL_RGB8), (GL_RGBA, GL_RGBA8)⟩⟩

/-- The constant `ImageFormat::f16`. -/
def ImageFormat.f16 : ImageFormat :=
  ⟨GL_HALF_FLOAT, 2,
    ⟨(GL_RED, GL_R16F), (GL_RG, GL_RG16F), (GL_RGB, GL_RGB16F), (GL_RGBA, GL_RGBA16F)⟩⟩

/-- The constant `ImageFormat::f32`. -/
def ImageFormat.f32 : ImageFormat :=
  ⟨GL_FLOAT, 4,
    ⟨(GL_RED, GL_R32F), (GL_RG, GL_RG32F), (GL_RGB, GL_RGB32F), (GL_RGBA, GL_RGBA32F)⟩⟩

/-- The constant `ImageFormat::u8`. -/
def ImageFormat.u8 : ImageFormat :=
  ⟨GL_UNSIGNED_BYTE, 1,
    ⟨(GL_RED_INTEGER, GL_R8UI), (GL_RG_INTEGER, GL_RG8UI), (GL_RGB_INTEGER, GL_RGB8UI),
      (GL_RGBA_INTEGER, GL_RGBA8UI)⟩⟩

/-- The constant `ImageFormat::u16`. -/
def ImageFormat.u16 : ImageFormat :=
  ⟨GL_UNSIGNED_SHORT, 2,
    ⟨(GL_RED_INTEGER, GL_R16UI), (GL_RG_INTEGER, GL_RG16UI), (GL_RGB_INTEGER, GL_RGB16UI),
      (GL_RGBA_INTEGER, GL_RGBA16UI)⟩⟩

/-- The constant `ImageFormat::u32`. -/
def ImageFormat.u32 : ImageFormat :=
  ⟨GL_UNSIGNED_INT, 4,
    ⟨(GL_RED_INTEGER, GL_R32UI), (GL_RG_INTEGER, GL_RG32UI), (GL_RGB_INTEGER, GL_RGB32UI),
      (GL_RGBA_INTEGER, GL_RGBA32UI)⟩⟩

/-- The constant `ImageFormat::i8`. -/
def ImageFormat.i8 : ImageFormat :=
  ⟨GL_BYTE, 1,
    ⟨(GL_RED_INTEGER, GL_R8I), (GL_RG_INTEGER, GL_RG8I), (GL_RGB_INTEGER, GL_RGB8I),
      (GL_RGBA_INTEGER, GL_RGBA8I)⟩⟩

/-- The constant `ImageFormat::i16`. -/
def ImageFormat.i16 : ImageFormat :=
  ⟨GL_SHORT, 2,
    ⟨(GL_RED_INTEGER, GL_R16I), (GL_RG_INTEGER, GL_RG16I), (GL_RGB_INTEGER, GL_RGB16I),
      (GL_RGBA_INTEGER, GL_RGBA16I)⟩⟩

/-- The constant `ImageFormat::i32`. -/
def ImageFormat.i32 : ImageFormat :=
  ⟨GL_INT, 4,
    ⟨(GL_RED_INTEGER, GL_R32I), (GL_RG_INTEGER, GL_RG32I), (GL_RGB_INTEGER, GL_RGB32I),
      (GL_RGBA_INTEGER, GL_RGBA32I)⟩⟩

/-- The nine predefined instances, in the order of their declaration. -/
def ImageFormat.predefined : List ImageFormat :=
  [ImageFormat.f8, ImageFormat.f16, ImageFormat.f32, ImageFormat.u8, ImageFormat.u16,
   ImageFormat.u32, ImageFormat.i8, ImageFormat.i16, ImageFormat.i32]

/-- Modelled from the spec: the accessor `ImageFormat::type()` is declared in
`image_format.hpp` and its body is not part of the sources; it is the native
scalar type id of the format. -/
def ImageFormat.type (f : ImageFormat) : GLType := f.m_type

/-- Modelled from the spec: the accessor `ImageFormat::size()` is declared in
`image_format.hpp` and its body is not part of the sources; it is the byte size
per component. -/
def ImageFormat.size (f : ImageFormat) : Nat := f.m_size

/-- Modelled from the spec: the accessor `ImageFormat::formats()` is declared in
`image_format.hpp` and its body is not part of the sources; it is the ordered
table of (base format, storage format) pairs. -/
def ImageFormat.formats (f : ImageFormat) : FormatTable := f.m_formats

/-- Modelled from the spec: `ImageFormat::format(int components)` is declared in
`image_format.hpp` and its body is not part of the sources.  The table is
indexed by component count 1..4; for a component count in `[1,4]` the call
returns the table entry of that count, in table order, and for a component
count outside that range it fails with a configuration error (the
invalid-argument class). -/
def ImageFormat.format (f : ImageFormat) (components : Int) : Except Error (Nat × Nat) :=
  if components < 1 ∨ components > 4 then
    .error (.invalid_argument "Components must be 1, 2, 3 or 4")
  else .ok (f.formats.get (components - 1).toNat)

/-- Modelled from the spec: `ImageFormat::operator!=` is declared in
`image_format.hpp` and its body is not part of the sources; a format is an
immutable value, and two formats differ when their attributes differ. -/
def ImageFormat.ne (f other : ImageFormat) : Bool := f != other

/-- The four entries of a format table are pairwise distinct. -/
def FormatTable.distinct (t : FormatTable) : Prop :=
  t.e0 ≠ t.e1 ∧ t.e0 ≠ t.e2 ∧ t.e0 ≠ t.e3 ∧ t.e1 ≠ t.e2 ∧ t.e1 ≠ t.e3 ∧ t.e2 ≠ t.e3

instance (t : FormatTable) : Decidable t.distinct := by
  unfold FormatTable.distinct; infer_instance

/-! ## `texture.hpp`, `texture.cpp`: two-dimensional textures -/

/-- A `const void*`: the null pointer, or a pointer to bytes on the host. -/
abbrev Pointer := Option (List Nat)

/-- The pointer `data.data()` of a `std::vector<T>`; that of an empty vector is
taken to be null. -/
def vector.data_pointer (v : vector) : Pointer :=
  if v.size = 0 then none else some v.data

/-- The test `alignment != 1 && alignment != 2 && alignment != 4 && alignment != 8`
of the constructors and of `Texture::write`. -/
def bad_alignment (alignment : Int) : Prop :=
  alignment ≠ 1 ∧ alignment ≠ 2 ∧ alignment ≠ 4 ∧ alignment ≠ 8

instance (alignment : Int) : Decidable (bad_alignment alignment) := by
  unfold bad_alignment; infer_instance

/-- The data members of `gl::Texture`. -/
structure Texture where
  m_handle : Handle
  m_width : Int
  m_height : Int
  m_components : Int
  m_samples : Int
  m_depth : Bool
  m_max_level : Int
  m_dtype : ImageFormat
  deriving DecidableEq, Repr

/-- The conversion `Texture::operator bool`. -/
def Texture.valid (t : Texture) : Bool := t.m_handle != INVALID

/-- The accessor `Texture::width()`. -/
def Texture.width (t : Texture) : Int := t.m_width

/-- The accessor `Texture::height()`. -/
def Texture.height (t : Texture) : Int := t.m_height

/-- The accessor `Texture::components()`. -/
def Texture.components (t : Texture) : Int := t.m_components

/-- The accessor `Texture::samples()`. -/
def Texture.samples (t : Texture) : Int := t.m_samples

/-- The accessor `Texture::native_handle()`. -/
def Texture.native_handle (t : Texture) : Handle := t.m_handle

/-- The private constructor `Texture(width, height, components, depth, dtype,
data, samples, alignment)`.  The local `expected_size` is computed and never
read; it is left out. -/
def Texture.new (width height components : Int) (depth : Bool) (dtype : ImageFormat)
    (data : Pointer) (samples alignment : Int) (d : Device) : Except Error Texture × Device :=
  if components < 1 ∨ components > 4 then
    (.error (.invalid_argument "Components must be 1, 2, 3 or 4"), d)
  else
    match int_sub samples 1 with
    | none => (.error .undefined_behaviour, d)
    | some samples_minus_one =>
      if Int.land samples samples_minus_one ≠ 0 then
        (.error (.invalid_argument "The number of samples is invalid"), d)
      else if data.isSome ∧ samples ≠ 0 then
        (.error (.invalid_argument "Multisample textures are not writable directly"), d)
      else if bad_alignment alignment then
        (.error (.invalid_argument "Alignment must be 1, 2, 4 or 8"), d)
      else if depth = true ∧ dtype.ne ImageFormat.f32 = true then
        (.error (.invalid_argument "Depth buffer only supports dtype gl::f32"), d)
      else
        let pixel_type := dtype.type
        match dtype.format components with
        | .error e => (.error e, d)
        | .ok (base_format, internal_format) =>
          let texture_target := if samples ≠ 0 then GL_TEXTURE_2D_MULTISAMPLE else GL_TEXTURE_2D
          let created := glCreateTextures texture_target d
          let m_handle := created.1
          let d := created.2
          let storage_format := if depth then GL_DEPTH_COMPONENT24 else internal_format
          let d :=
            if samples ≠ 0 then
              d.log (.glTextureStorage2DMultisample m_handle samples storage_format width height
                true)
            else
              let d := d.log (.glPixelStorei GL_PACK_ALIGNMENT alignment)
              let d := d.log (.glPixelStorei GL_UNPACK_ALIGNMENT alignment)
              let d := d.log (.glTextureStorage2D m_handle 1 storage_format width height)
              let d := d.log (.glTextureParameteri m_handle GL_TEXTURE_MIN_FILTER GL_LINEAR)
              let d := d.log (.glTextureParameteri m_handle GL_TEXTURE_MAG_FILTER GL_LINEAR)
              let d :=
                if depth then
                  let d := d.log (.glTextureParameteri m_handle GL_TEXTURE_COMPARE_MODE
                    GL_COMPARE_REF_TO_TEXTURE)
                  d.log (.glTextureParameteri m_handle GL_TEXTURE_COMPARE_FUNC GL_LEQUAL)
                else d
              if data.isSome then
                d.log (.glTextureSubImage2D m_handle 0 0 0 width height base_format pixel_type)
              else d
          (.ok ⟨m_handle, width, height, components, samples, depth, 0, dtype⟩, d)

/-- The public constructor `Texture(width, height, components, dtype, alignment)`. -/
def Texture.new_empty (width height components : Int) (dtype : ImageFormat) (alignment : Int)
    (d : Device) : Except Error Texture × Device :=
  Texture.new width height components false dtype none 0 alignment d

/-- The public constructor `Texture(width, height, components, dtype,
const std::vector<T>& data, samples, alignment)`. -/
def Texture.new_vector (width height components : Int) (dtype : ImageFormat) (data : vector)
    (samples alignment : Int) (d : Device) : Except Error Texture × Device :=
  Texture.new width height components false dtype data.data_pointer samples alignment d

/-- The public constructor `Texture(width, height, components, dtype,
const void* data, samples, alignment)`; it delegates with
`Texture(width, height, components, false, dtype, data, samples)`, so that the
private constructor runs with its default alignment 1. -/
def Texture.new_pointer (width height components : Int) (dtype : ImageFormat) (data : Pointer)
    (samples _alignment : Int) (d : Device) : Except Error Texture × Device :=
  Texture.new width height components false dtype data samples 1 d

/-- The static function `Texture::depth(width, height, samples, alignment)`. -/
def Texture.depth (width height samples alignment : Int) (d : Device) :
    Except Error Texture × Device :=
  Texture.new width height 1 true ImageFormat.f32 none samples alignment d

/-- The function `Texture::write(const void* data, size_t size, int level,
int alignment)`.  The local `expected_size` is computed and never read; it is
left out. -/
def Texture.write (t : Texture) (_data : Pointer) (_size : Nat) (level alignment : Int)
    (d : Device) : Except Error Unit × Device :=
  if !t.valid then (.error .assertion_failed, d)
  else if bad_alignment alignment then
    (.error (.invalid_argument "Alignment must be 1, 2, 4 or 8"), d)
  else if level > t.m_max_level then (.error (.invalid_argument "Invalid level"), d)
  else if t.m_samples ≠ 0 then
    (.error (.logic_error "Multisample textures are not writable directly"), d)
  else
    match int_shl_one level with
    | none => (.error .undefined_behaviour, d)
    | some divisor =>
      let width := Int.tdiv t.m_width divisor
      let height := Int.tdiv t.m_height divisor
      let width := if width > 1 then width else 1
      let height := if height > 1 then height else 1
      let pixel_type := t.m_dtype.type
      match t.m_dtype.format t.m_components with
      | .error e => (.error e, d)
      | .ok (base_format, _) =>
        let d := d.log (.glPixelStorei GL_PACK_ALIGNMENT alignment)
        let d := d.log (.glPixelStorei GL_UNPACK_ALIGNMENT alignment)
        let d := d.log (.glTextureSubImage2D t.m_handle 0 0 0 width height base_format pixel_type)
        let d := d.log (.glTextureParameteri t.m_handle GL_TEXTURE_MIN_FILTER GL_LINEAR)
        let d := d.log (.glTextureParameteri t.m_handle GL_TEXTURE_MAG_FILTER GL_LINEAR)
        (.ok (), d)

/-! ## `renderbuffer.hpp`, `renderbuffer.cpp` -/

/-- The data members of `gl::Renderbuffer`. -/
structure Renderbuffer where
  m_handle : Handle
  m_width : Int
  m_height : Int
  m_components : Int
  m_depth : Bool
  m_dtype : ImageFormat
  m_samples : Int
  deriving DecidableEq, Repr

/-- Modelled from the spec: `Renderbuffer::width()` is declared in
`renderbuffer.hpp` and its body is not part of the sources; it is the width
attribute of the image resource. -/
def Renderbuffer.width (r : Renderbuffer) : Int := r.m_width

/-- Modelled from the spec: `Renderbuffer::height()` is declared in
`renderbuffer.hpp` and its body is not part of the sources; it is the height
attribute of the image resource. -/
def Renderbuffer.height (r : Renderbuffer) : Int := r.m_height

/-- Modelled from the spec: `Renderbuffer::components()` is declared in
`renderbuffer.hpp` and its body is not part of the sources; it is the component
count of the image resource. -/
def Renderbuffer.components (r : Renderbuffer) : Int := r.m_components

/-- Modelled from the spec: `Renderbuffer::samples()` is declared in
`renderbuffer.hpp` and its body is not part of the sources; it is the sample
count of the image resource. -/
def Renderbuffer.samples (r : Renderbuffer) : Int := r.m_samples

/-- Modelled from the spec: `Renderbuffer::native_handle()` is declared in
`renderbuffer.hpp` and its body is not part of the sources; it is the device
handle of the image resource. -/
def Renderbuffer.native_handle (r : Renderbuffer) : Handle := r.m_handle

/-- The private constructor `Renderbuffer(width, height, components, depth,
dtype, samples)`. -/
def Renderbuffer.new (width height components : Int) (depth : Bool) (dtype : ImageFormat)
    (samples : Int) (d : Device) : Except Error Renderbuffer × Device :=
  if components < 1 ∨ components > 4 then
    (.error (.invalid_argument "Components must be 1, 2, 3 or 4"), d)
  else
    match int_sub samples 1 with
    | none => (.error .undefined_behaviour, d)
    | some samples_minus_one =>
      if Int.land samples samples_minus_one ≠ 0 then
        (.error (.invalid_argument "The number of samples is invalid"), d)
      else if depth = true ∧ dtype.ne ImageFormat.f32 = true then
        (.error (.invalid_argument "Depth buffer only supports dtype gl::f32"), d)
      else
        let created := glCreateRenderbuffers d
        let m_handle := created.1
        let d := created.2
        let selected : Except Error Nat :=
          if depth then .ok GL_DEPTH_COMPONENT24
          else
            match dtype.format components with
            | .error e => .error e
            | .ok pair => .ok pair.1
        match selected with
        | .error e => (.error e, d)
        | .ok format =>
          let d :=
            if samples = 0 then d.log (.glNamedRenderbufferStorage m_handle format width height)
            else
              d.log (.glNamedRenderbufferStorageMultisample m_handle samples format width height)
          (.ok ⟨m_handle, width, height, components, depth, dtype, samples⟩, d)

/-- The public constructor `Renderbuffer(width, height, components, dtype,
samples)`. -/
def Renderbuffer.new_color (width height components : Int) (dtype : ImageFormat) (samples : Int)
    (d : Device) : Except Error Renderbuffer × Device :=
  Renderbuffer.new width height components false dtype samples d

/-- The static function `Renderbuffer::depth(width, height, components,
samples)`. -/
def Renderbuffer.depth (width height components samples : Int) (d : Device) :
    Except Error Renderbuffer × Device :=
  Renderbuffer.new width height components true ImageFormat.f32 samples d

/-! ## `texture_3d.cpp`, `texture_array.cpp`, `texture_cube.cpp` -/

/-- The data members of `gl::Texture3D`. -/
structure Texture3D where
  m_handle : Handle
  m_width : Int
  m_height : Int
  m_depth : Int
  m_components : Int
  m_dtype : ImageFormat
  deriving DecidableEq, Repr

/-- The constructor `Texture3D(width, height, depth, components, dtype, data,
alignment)`.  The local `expected_size` is computed and never read; it is left
out. -/
def Texture3D.new (width height depth components : Int) (dtype : ImageFormat) (data : Pointer)
    (alignment : Int) (d : Device) : Except Error Texture3D × Device :=
  if components < 1 ∨ components > 4 then
    (.error (.invalid_argument "Components must be 1, 2, 3 or 4"), d)
  else if bad_alignment alignment then
    (.error (.invalid_argument "The alignment must be 1, 2, 4 or 8"), d)
  else
    let pixel_type := dtype.type
    match dtype.format components with
    | .error e => (.error e, d)
    | .ok (base_format, internal_format) =>
      let texture_target := GL_TEXTURE_3D
      let created := glCreateTextures texture_target d
      let m_handle := created.1
      let d := created.2
      let d := d.log (.glPixelStorei GL_PACK_ALIGNMENT alignment)
      let d := d.log (.glPixelStorei GL_UNPACK_ALIGNMENT alignment)
      let d := d.log (.glTextureStorage3D m_handle 1 internal_format width height depth)
      let d := d.log (.glTextureParameteri m_handle GL_TEXTURE_MIN_FILTER GL_LINEAR)
      let d := d.log (.glTextureParameteri m_handle GL_TEXTURE_MAG_FILTER GL_LINEAR)
      let d :=
        if data.isSome then
          d.log (.glTextureSubImage3D m_handle 0 0 0 0 width height depth base_format pixel_type)
        else d
      (.ok ⟨m_handle, width, height, depth, components, dtype⟩, d)

/-- The data members of `gl::TextureArray`. -/
structure TextureArray where
  m_handle : Handle
  m_width : Int
  m_height : Int
  m_layers : Int
  m_components : Int
  m_dtype : ImageFormat
  deriving DecidableEq, Repr

/-- The loop `for (int layer = 0; layer < layers; layer++)` of the constructor
of `TextureArray`, from `layer` on, with `count` layers still to visit: one
upload for each layer whose pointer is not null. -/
def TextureArray.upload_layers (m_handle : Handle) (width height : Int) (base_format pixel_type : Nat)
    (data : List Pointer) : (count : Nat) → (layer : Nat) → Device → Device
  | 0, _, d => d
  | count + 1, layer, d =>
    let d :=
      match data.get? layer with
      | some (some _) =>
        d.log (.glTextureSubImage3D m_handle 0 0 0 layer width height 1 base_format pixel_type)
      | _ => d
    TextureArray.upload_layers m_handle width height base_format pixel_type data count (layer + 1) d

/-- The constructor `TextureArray(width, height, layers, components, dtype,
const std::vector<const void*>& data, alignment)`.  In `data.size() != layers`
the `int` is converted to `size_t`.  The local `expected_size` is computed and
never read; it is left out. -/
def TextureArray.new (width height layers components : Int) (dtype : ImageFormat)
    (data : List Pointer) (alignment : Int) (d : Device) : Except Error TextureArray × Device :=
  if components < 1 ∨ components > 4 then
    (.error (.invalid_argument "Components must be 1, 2, 3 or 4"), d)
  else if bad_alignment alignment then
    (.error (.invalid_argument "The alignment must be 1, 2, 4 or 8"), d)
  else if data.length ≠ 1 ∧ data.length ≠ int_to_size_t layers then
    (.error (.invalid_argument "Data not given for all layers"), d)
  else
    let pixel_type := dtype.type
    match dtype.format components with
    | .error e => (.error e, d)
    | .ok (base_format, internal_format) =>
      let texture_target := GL_TEXTURE_2D_ARRAY
      let created := glCreateTextures texture_target d
      let m_handle := created.1
      let d := created.2
      let d := d.log (.glPixelStorei GL_PACK_ALIGNMENT alignment)
      let d := d.log (.glPixelStorei GL_UNPACK_ALIGNMENT alignment)
      let d := d.log (.glTextureStorage3D m_handle 1 internal_format width height layers)
      let d := d.log (.glTextureParameteri m_handle GL_TEXTURE_MIN_FILTER GL_LINEAR)
      let d := d.log (.glTextureParameteri m_handle GL_TEXTURE_MAG_FILTER GL_LINEAR)
      let d :=
        if data.length = 1 then
          match data.get? 0 with
          | some (some _) =>
            d.log (.glTextureSubImage3D m_handle 0 0 0 0 width height layers base_format
              pixel_type)
          | _ => d
        else
          TextureArray.upload_layers m_handle width height base_format pixel_type data
            layers.toNat 0 d
      (.ok ⟨m_handle, width, height, layers, components, dtype⟩, d)

/-- The constructor `TextureArray(width, height, layers, components, dtype,
const void* data, alignment)`. -/
def TextureArray.new_pointer (width height layers components : Int) (dtype : ImageFormat)
    (data : Pointer) (alignment : Int) (d : Device) : Except Error TextureArray × Device :=
  TextureArray.new width height layers components dtype [data] alignment d

/-- The data members of `gl::TextureCube`. -/
structure TextureCube where
  m_handle : Handle
  m_width : Int
  m_height : Int
  m_components : Int
  m_dtype : ImageFormat
  deriving DecidableEq, Repr

/-- The loop over the faces of the constructor of `TextureCube`, from `face`
on: one upload for each face whose pointer is not null. -/
def TextureCube.upload_faces (m_handle : Handle) (width height : Int) (base_format pixel_type : Nat) :
    (faces : List Pointer) → (face : Nat) → Device → Device
  | [], _, d => d
  | data :: rest, face, d =>
    let d :=
      if data.isSome then
        d.log (.glTextureSubImage3D m_handle 0 0 0 face width height 1 base_format pixel_type)
      else d
    TextureCube.upload_faces m_handle width height base_format pixel_type rest (face + 1) d

/-- The constructor `TextureCube(width, height, components, dtype, faces,
alignment)`; `faces` is a `std::array` of six pointers.  The local
`expected_size` is computed and never read; it is left out. -/
def TextureCube.new (width height components : Int) (dtype : ImageFormat) (faces : List Pointer)
    (alignment : Int) (d : Device) : Except Error TextureCube × Device :=
  if components < 1 ∨ components > 4 then
    (.error (.invalid_argument "Components must be 1, 2, 3 or 4"), d)
  else if bad_alignment alignment then
    (.error (.invalid_argument "The alignment must be 1, 2, 4 or 8"), d)
  else
    let pixel_type := dtype.type
    match dtype.format components with
    | .error e => (.error e, d)
    | .ok (base_format, internal_format) =>
      let texture_target := GL_TEXTURE_CUBE_MAP
      let created := glCreateTextures texture_target d
      let m_handle := created.1
      let d := created.2
      let d := d.log (.glPixelStorei GL_PACK_ALIGNMENT alignment)
      let d := d.log (.glPixelStorei GL_UNPACK_ALIGNMENT alignment)
      let d := d.log (.glTextureStorage2D m_handle 1 internal_format width height)
      let d := d.log (.glTextureParameteri m_handle GL_TEXTURE_MIN_FILTER GL_LINEAR)
      let d := d.log (.glTextureParameteri m_handle GL_TEXTURE_MAG_FILTER GL_LINEAR)
      let d := d.log (.glTextureParameteri m_handle GL_TEXTURE_WRAP_S GL_CLAMP_TO_EDGE)
      let d := d.log (.glTextureParameteri m_handle GL_TEXTURE_WRAP_T GL_CLAMP_TO_EDGE)
      let d := d.log (.glTextureParameteri m_handle GL_TEXTURE_WRAP_R GL_CLAMP_TO_EDGE)
      let d := TextureCube.upload_faces m_handle width height base_format pixel_type faces 0 d
      (.ok ⟨m_handle, width, height, components, dtype⟩, d)

/-! ## `framebuffer.hpp`, `framebuffer.cpp` -/

/-- Arithmetic on the 32-bit unsigned `GLenum` is modulo this value. -/
def UINT_MOD : Nat := 2 ^ 32

/-- The type `Framebuffer::ColorAttachment`: a texture or a renderbuffer. -/
inductive ColorAttachment where
  | texture (texture : Texture)
  | renderbuffer (renderbuffer : Renderbuffer)
  deriving DecidableEq, Repr

/-- The type `Framebuffer::DepthAttachment`: nothing, a texture or a
renderbuffer. -/
inductive DepthAttachment where
  | monostate
  | texture (texture : Texture)
  | renderbuffer (renderbuffer : Renderbuffer)
  deriving DecidableEq, Repr

/-- The value `width()` read from a color attachment in either branch of the
test `std::holds_alternative`. -/
def ColorAttachment.width : ColorAttachment → Int
  | .texture t => t.width
  | .renderbuffer r => r.width

/-- The value `height()` read from a color attachment in either branch. -/
def ColorAttachment.height : ColorAttachment → Int
  | .texture t => t.height
  | .renderbuffer r => r.height

/-- The value `samples()` read from a color attachment in either branch. -/
def ColorAttachment.samples : ColorAttachment → Int
  | .texture t => t.samples
  | .renderbuffer r => r.samples

/-- The value `components()` read from a color attachment in either branch. -/
def ColorAttachment.components : ColorAttachment → Int
  | .texture t => t.components
  | .renderbuffer r => r.components

/-- The data members of `gl::Framebuffer`. -/
structure Framebuffer where
  m_handle : Handle
  m_color_attachments : List ColorAttachment
  m_depth_attachment : DepthAttachment
  m_width : Int
  m_height : Int
  m_samples : Int
  m_viewport : ivec4
  m_scissor : Option ivec4
  m_draw_buffers : List Nat
  m_color_mask : List Bool
  deriving DecidableEq, Repr

/-- Modelled from the spec: `Framebuffer::operator bool` is declared in
`framebuffer.hpp` and its body is not part of the sources; the handle is either
a live device object or the sentinel `INVALID`. -/
def Framebuffer.valid (fb : Framebuffer) : Bool := fb.m_handle != INVALID

/-- Modelled from the spec: `Framebuffer::width()` is declared in
`framebuffer.hpp` and its body is not part of the sources; it is the derived
width of the attachment set. -/
def Framebuffer.width (fb : Framebuffer) : Int := fb.m_width

/-- Modelled from the spec: `Framebuffer::height()` is declared in
`framebuffer.hpp` and its body is not part of the sources; it is the derived
height of the attachment set. -/
def Framebuffer.height (fb : Framebuffer) : Int := fb.m_height

/-- Modelled from the spec: `Framebuffer::samples()` is declared in
`framebuffer.hpp` and its body is not part of the sources; it is the derived
sample count of the attachment set. -/
def Framebuffer.samples (fb : Framebuffer) : Int := fb.m_samples

/-- Modelled from the spec: `Framebuffer::viewport()` is declared in
`framebuffer.hpp` and its body is not part of the sources; it is the viewport
rectangle of the attachment set. -/
def Framebuffer.viewport (fb : Framebuffer) : ivec4 := fb.m_viewport

/-- Modelled from the spec: `Framebuffer::scissor()` is declared in
`framebuffer.hpp` and its body is not part of the sources; it is the optional
scissor rectangle of the attachment set. -/
def Framebuffer.scissor (fb : Framebuffer) : Option ivec4 := fb.m_scissor

/-- Modelled from the spec: `Framebuffer::has_depth_attachment()` is declared in
`framebuffer.hpp` and its body is not part of the sources; it tells whether a
depth attachment is present. -/
def Framebuffer.has_depth_attachment (fb : Framebuffer) : Bool :=
  fb.m_depth_attachment != .monostate

/-- The first loop of the constructor, from index `i` on, with the current
values of the locals `width`, `height` and `samples`: the attachment of index 0
sets them, every later one is compared with them. -/
def Framebuffer.check_color_attachments :
    (i : Nat) → List ColorAttachment → (Int × Int × Int) → Except Error (Int × Int × Int)
  | _, [], reference => .ok reference
  | i, color_attachment :: rest, (width, height, samples) =>
    if i = 0 then
      Framebuffer.check_color_attachments (i + 1) rest
        (color_attachment.width, color_attachment.height, color_attachment.samples)
    else if color_attachment.width ≠ width ∨ color_attachment.height ≠ height ∨
        color_attachment.samples ≠ samples then
      .error (.invalid_argument "The color_attachments have different sizes or samples")
    else Framebuffer.check_color_attachments (i + 1) rest (width, height, samples)

/-- The test of the depth attachment in the constructor: it sets the locals
when there is no color attachment, and is compared with them otherwise. -/
def Framebuffer.check_depth_attachment (color_attachments : List ColorAttachment)
    (depth_attachment : DepthAttachment) (reference : Int × Int × Int) :
    Except Error (Int × Int × Int) :=
  match depth_attachment with
  | .texture texture =>
    if color_attachments.isEmpty then .ok (texture.width, texture.height, texture.samples)
    else if texture.width ≠ reference.1 ∨ texture.height ≠ reference.2.1 ∨
        texture.samples ≠ reference.2.2 then
      .error (.invalid_argument "The depth_attachments have different sizes or samples")
    else .ok reference
  | .renderbuffer renderbuffer =>
    if color_attachments.isEmpty then
      .ok (renderbuffer.width, renderbuffer.height, renderbuffer.samples)
    else if renderbuffer.width ≠ reference.1 ∨ renderbuffer.height ≠ reference.2.1 ∨
        renderbuffer.samples ≠ reference.2.2 then
      .error (.invalid_argument "The depth_attachments have different sizes or samples")
    else .ok reference
  | .monostate => .ok reference

/-- The color slot `GL_COLOR_ATTACHMENT0 + static_cast<GLenum>(i)`. -/
def color_slot (i : Nat) : Nat := (GL_COLOR_ATTACHMENT0 + i % UINT_MOD) % UINT_MOD

/-- The second loop of the constructor, from index `i` on: each color
attachment is bound to the color slot of its index. -/
def Framebuffer.attach_colors (m_handle : Handle) :
    (i : Nat) → List ColorAttachment → Device → Device
  | _, [], d => d
  | i, .texture texture :: rest, d =>
    Framebuffer.attach_colors m_handle (i + 1) rest
      (d.log (.glNamedFramebufferTexture2DEXT m_handle (color_slot i)
        (if texture.samples ≠ 0 then GL_TEXTURE_2D_MULTISAMPLE else GL_TEXTURE_2D)
        texture.native_handle 0))
  | i, .renderbuffer renderbuffer :: rest, d =>
    Framebuffer.attach_colors m_handle (i + 1) rest
      (d.log (.glNamedFramebufferRenderbuffer m_handle (color_slot i) GL_RENDERBUFFER
        renderbuffer.native_handle))

/-- The binding of the depth attachment in the constructor. -/
def Framebuffer.attach_depth (m_handle : Handle) (depth_attachment : DepthAttachment)
    (d : Device) : Device :=
  match depth_attachment with
  | .texture texture =>
    d.log (.glNamedFramebufferTexture2DEXT m_handle GL_DEPTH_ATTACHMENT
      (if texture.samples ≠ 0 then GL_TEXTURE_2D_MULTISAMPLE else GL_TEXTURE_2D)
      texture.native_handle 0)
  | .renderbuffer renderbuffer =>
    d.log (.glNamedFramebufferRenderbuffer m_handle GL_DEPTH_ATTACHMENT GL_RENDERBUFFER
      renderbuffer.native_handle)
  | .monostate => d

/-- The message chosen by the `switch` over the status in the constructor. -/
def Framebuffer.status_message (status : Nat) : String :=
  if status = GL_FRAMEBUFFER_UNDEFINED then "The framebuffer is not complete (UNDEFINED)"
  else if status = GL_FRAMEBUFFER_INCOMPLETE_ATTACHMENT then
    "The framebuffer is not complete (INCOMPLETE_ATTACHMENT)"
  else if status = GL_FRAMEBUFFER_INCOMPLETE_MISSING_ATTACHMENT then
    "The framebuffer is not complete (INCOMPLETE_MISSING_ATTACHMENT)"
  else if status = GL_FRAMEBUFFER_INCOMPLETE_DRAW_BUFFER then
    "The framebuffer is not complete (INCOMPLETE_DRAW_BUFFER)"
  else if status = GL_FRAMEBUFFER_INCOMPLETE_READ_BUFFER then
    "The framebuffer is not complete (INCOMPLETE_READ_BUFFER)"
  else if status = GL_FRAMEBUFFER_UNSUPPORTED then
    "The framebuffer is not complete (UNSUPPORTED)"
  else if status = GL_FRAMEBUFFER_INCOMPLETE_MULTISAMPLE then
    "The framebuffer is not complete (INCOMPLETE_MULTISAMPLE)"
  else if status = GL_FRAMEBUFFER_INCOMPLETE_LAYER_TARGETS then
    "The framebuffer is not complete (INCOMPLETE_LAYER_TARGETS)"
  else "The framebuffer is not complete"

/-- The loop filling `m_draw_buffers`: the color slots of the indices below
`n`. -/
def Framebuffer.draw_buffers (n : Nat) : List Nat := (List.range n).map color_slot

/-- The last loop of the constructor, from index `i` on: the four mask entries
of each color attachment are set from its component count. -/
def Framebuffer.fill_color_mask : (i : Nat) → List ColorAttachment → List Bool → List Bool
  | _, [], m_color_mask => m_color_mask
  | i, color_attachment :: rest, m_color_mask =>
    let m_color_mask := m_color_mask.set (i * 4 + 0) (decide (color_attachment.components ≥ 1))
    let m_color_mask := m_color_mask.set (i * 4 + 1) (decide (color_attachment.components ≥ 2))
    let m_color_mask := m_color_mask.set (i * 4 + 2) (decide (color_attachment.components ≥ 3))
    let m_color_mask := m_color_mask.set (i * 4 + 3) (decide (color_attachment.components ≥ 4))
    Framebuffer.fill_color_mask (i + 1) rest m_color_mask

/-- The constructor `Framebuffer(color_attachments, depth_attachment)`. -/
def Framebuffer.new (color_attachments : List ColorAttachment)
    (depth_attachment : DepthAttachment) (d : Device) : Except Error Framebuffer × Device :=
  if color_attachments.isEmpty = true ∧ depth_attachment = .monostate then
    (.error (.invalid_argument "The framebuffer cannot be empty"), d)
  else
    match Framebuffer.check_color_attachments 0 color_attachments (0, 0, 0) with
    | .error e => (.error e, d)
    | .ok reference =>
      match Framebuffer.check_depth_attachment color_attachments depth_attachment reference with
      | .error e => (.error e, d)
      | .ok (width, height, samples) =>
        let created := glCreateFramebuffers d
        let m_handle := created.1
        let d := created.2
        let d :=
          if color_attachments.isEmpty then d.log (.glNamedFramebufferDrawBuffer m_handle GL_NONE)
          else d
        let d := Framebuffer.attach_colors m_handle 0 color_attachments d
        let d := Framebuffer.attach_depth m_handle depth_attachment d
        let checked := glCheckNamedFramebufferStatus m_handle GL_FRAMEBUFFER d
        let status := checked.1
        if status ≠ GL_FRAMEBUFFER_COMPLETE then
          (.error (.runtime_error (Framebuffer.status_message status)), checked.2)
        else
          let m_viewport : ivec4 := ⟨0, 0, width, height⟩
          let m_draw_buffers := Framebuffer.draw_buffers color_attachments.length
          let m_color_mask := Framebuffer.fill_color_mask 0 color_attachments
            (List.replicate (color_attachments.length * 4 + 1) false)
          (.ok ⟨m_handle, color_attachments, depth_attachment, width, height, samples,
            m_viewport, none, m_draw_buffers, m_color_mask⟩, checked.2)

/-- The loop over the draw buffers in `clear` and `use`, from index `i` on, with
`count` buffers still to visit: one `glColorMaski` per draw buffer.  Reading
`m_color_mask` beyond its end is undefined behaviour. -/
def Framebuffer.apply_color_mask (m_color_mask : List Bool) :
    (count : Nat) → (i : Nat) → Device → Option Device
  | 0, _, d => some d
  | count + 1, i, d =>
    match m_color_mask.get? (i * 4 + 0), m_color_mask.get? (i * 4 + 1),
        m_color_mask.get? (i * 4 + 2), m_color_mask.get? (i * 4 + 3) with
    | some r, some g, some b, some a =>
      Framebuffer.apply_color_mask m_color_mask count (i + 1) (d.log (.glColorMaski i r g b a))
    | _, _, _, _ => none

/-- The private function `Framebuffer::clear(color, depth, const glm::ivec4*
viewport)`; the null pointer is `none`.  The function assigns no data member,
so that the object is the same after the call and only the device changes. -/
def Framebuffer.clear (fb : Framebuffer) (color : vec4) (depth : GLfloat)
    (viewport : Option ivec4) (d : Device) : Except Error Unit × Device :=
  if !fb.valid then (.error .assertion_failed, d)
  else
    let d := d.log (.glBindFramebuffer GL_FRAMEBUFFER fb.m_handle)
    let d := d.log (.glDrawBuffers fb.m_draw_buffers.length fb.m_draw_buffers)
    let d := d.log (.glClearColor color.x color.y color.z color.w)
    let d := d.log (.glClearDepth depth)
    match Framebuffer.apply_color_mask fb.m_color_mask fb.m_draw_buffers.length 0 d with
    | none => (.error .undefined_behaviour, d)
    | some d =>
      let d := d.log (.glDepthMask fb.has_depth_attachment)
      let d :=
        match viewport with
        | some v =>
          let d := glEnable GL_SCISSOR_TEST d
          let d := glScissor v.x v.y v.z v.w d
          let d := d.log (.glClear (GL_DEPTH_BUFFER_BIT ||| GL_COLOR_BUFFER_BIT))
          match fb.m_scissor with
          | some scissor => glScissor scissor.x scissor.y scissor.z scissor.w d
          | none => glDisable GL_SCISSOR_TEST d
        | none =>
          let d :=
            match fb.m_scissor with
            | some scissor =>
              let d := glEnable GL_SCISSOR_TEST d
              glScissor scissor.x scissor.y scissor.z scissor.w d
            | none => d
          d.log (.glClear (GL_DEPTH_BUFFER_BIT ||| GL_COLOR_BUFFER_BIT))
      (.ok (), d.log (.glBindFramebuffer GL_FRAMEBUFFER 0))

/-- The width, height and sample count of a color attachment. -/
def ColorAttachment.dimensions (a : ColorAttachment) : Int × Int × Int :=
  (a.width, a.height, a.samples)

/-- The width, height and sample count of the depth attachment, if there is
one. -/
def DepthAttachment.dimensions : DepthAttachment → Option (Int × Int × Int)
  | .monostate => none
  | .texture t => some (t.width, t.height, t.samples)
  | .renderbuffer r => some (r.width, r.height, r.samples)

/-- An attachment set in which some attachment after the reference one differs
from it in width, height or sample count: there is a first color attachment,
the reference, and a later color attachment or the depth attachment has other
dimensions. -/
def Framebuffer.mismatch (color_attachments : List ColorAttachment)
    (depth_attachment : DepthAttachment) : Prop :=
  ∃ first rest, color_attachments = first :: rest ∧
    ((∃ a ∈ rest, a.dimensions ≠ first.dimensions) ∨
     (∃ dims, depth_attachment.dimensions = some dims ∧ dims ≠ first.dimensions))

/-- The uploads the constructor of `TextureArray` is specified to issue: with
one data pointer a single upload of all layers if the pointer is not null,
otherwise one upload of one layer for each layer whose pointer is not null, in
the order of the layers. -/
def TextureArray.expected_uploads (m_handle : Handle) (width height layers : Int)
    (base_format pixel_type : Nat) (data : List Pointer) : List GLCall :=
  if data.length = 1 then
    match data.head? with
    | some (some _) =>
      [.glTextureSubImage3D m_handle 0 0 0 0 width height layers base_format pixel_type]
    | _ => []
  else
    (List.range layers.toNat).filterMap (fun layer =>
      match data.get? layer with
      | some (some _) =>
        some (.glTextureSubImage3D m_handle 0 0 0 layer width height 1 base_format pixel_type)
      | _ => none)

/-- The eight statuses of an incomplete framebuffer the constructor knows by
name. -/
def Framebuffer.known_statuses : List Nat :=
  [GL_FRAMEBUFFER_UNDEFINED, GL_FRAMEBUFFER_INCOMPLETE_ATTACHMENT,
   GL_FRAMEBUFFER_INCOMPLETE_MISSING_ATTACHMENT, GL_FRAMEBUFFER_INCOMPLETE_DRAW_BUFFER,
   GL_FRAMEBUFFER_INCOMPLETE_READ_BUFFER, GL_FRAMEBUFFER_UNSUPPORTED,
   GL_FRAMEBUFFER_INCOMPLETE_MULTISAMPLE, GL_FRAMEBUFFER_INCOMPLETE_LAYER_TARGETS]

/-- For a GLM-style vector type, the object is tightly packed: it holds its
components and nothing else, `length() * sizeof(value_type) = sizeof(T)`;
nothing is asked of other types. -/
def HostType.tightly_packed : HostType → Prop
  | .vector value_type length size => value_type.sizeof * length = size
  | _ => True

instance (T : HostType) : Decidable T.tightly_packed := by
  cases T <;> unfold HostType.tightly_packed <;> infer_instance

/-! ## `member.hpp`, `attribute.hpp`, `uniform.hpp` and their sources -/

/-- The data members of `gl::Member`: the handle of the program the member
belongs to and the name of the member. -/
structure Member where
  m_handle : Handle
  m_name : String
  deriving DecidableEq, Repr

/-- The default constructor `Member()`: the handle is `INVALID`, the name is
empty. -/
def Member.default : Member := ⟨INVALID, ""⟩

/-- The conversion `Member::operator bool`. -/
def Member.valid (m : Member) : Bool := m.m_handle != INVALID

/-- The accessor `Member::name()`. -/
def Member.name (m : Member) : String := m.m_name

/-- The accessor `Member::native_handle()`. -/
def Member.native_handle (m : Member) : Handle := m.m_handle

/-- The class `gl::Attribute`: the base `Member` and the data members. -/
structure Attribute where
  member : Member
  m_type : GLType
  m_location : Nat
  m_count : Int
  deriving DecidableEq, Repr

/-- The default constructor `Attribute()`. -/
def Attribute.default : Attribute := ⟨Member.default, 0xFFFFFFF, 0xFFFFFFF, 0⟩

/-- The constructor `Attribute(handle, name, type, location, count)`; the
location is an `unsigned`, and the `int` handed to it is converted. -/
def Attribute.new (handle : Handle) (name : String) (type : GLType) (location : Int)
    (count : Int) : Attribute :=
  ⟨⟨handle, name⟩, type, (location % (UINT_MOD : Int)).toNat, count⟩

/-- The accessor `Attribute::type()`. -/
def Attribute.type (a : Attribute) : GLType := a.m_type

/-- The accessor `Attribute::location()`. -/
def Attribute.location (a : Attribute) : Nat := a.m_location

/-- The accessor `Attribute::count()`. -/
def Attribute.count (a : Attribute) : Int := a.m_count

/-- The class `gl::Uniform`: the base `Member` and the data members. -/
structure Uniform where
  member : Member
  m_type : GLType
  m_location : Int
  m_count : Int
  deriving DecidableEq, Repr

/-- The default constructor `Uniform()`. -/
def Uniform.default : Uniform := ⟨Member.default, 0xFFFFFF, -1, 0⟩

/-- The constructor `Uniform(handle, name, type, location, count)`. -/
def Uniform.new (handle : Handle) (name : String) (type : GLType) (location : Int)
    (count : Int) : Uniform :=
  ⟨⟨handle, name⟩, type, location, count⟩

/-- The conversion `operator bool` a `Uniform` inherits from `Member`. -/
def Uniform.valid (u : Uniform) : Bool := u.member.valid

/-- The accessor `native_handle()` a `Uniform` inherits from `Member`. -/
def Uniform.native_handle (u : Uniform) : Handle := u.member.native_handle

/-- The accessor `Uniform::type()`. -/
def Uniform.type (u : Uniform) : GLType := u.m_type

/-- The accessor `Uniform::location()`. -/
def Uniform.location (u : Uniform) : Int := u.m_location

/-- The accessor `Uniform::count()`. -/
def Uniform.count (u : Uniform) : Int := u.m_count

/-- The host value types for which `uniform.cpp` defines an `operator=`: the
five scalars, the GLM vectors of 2, 3 and 4 components, and the GLM matrices
(`mat2x3` has 2 columns and 3 rows). -/
inductive UniformValue where
  | bool | int | unsigned | float | double
  | bvec2 | ivec2 | uvec2 | vec2 | dvec2
  | bvec3 | ivec3 | uvec3 | vec3 | dvec3
  | bvec4 | ivec4 | uvec4 | vec4 | dvec4
  | mat2 | dmat2 | mat2x3 | dmat2x3 | mat2x4 | dmat2x4
  | mat3x2 | dmat3x2 | mat3 | dmat3 | mat3x4 | dmat3x4
  | mat4x2 | dmat4x2 | mat4x3 | dmat4x3 | mat4 | dmat4
  deriving DecidableEq, Repr

/-- The device call in the body of each `Uniform::operator=` of `uniform.cpp`,
for a value of the type `T` whose components are `value`.  A `bool` and the
components of a `bvec` are converted to `int` on the way; the vector entry
points are called with count 1, the matrix entry points with count 1 and
without transposition. -/
def Uniform.device_call (u : Uniform) (T : UniformValue) (value : List Nat) : GLCall :=
  match T with
  | .bool => .glProgramUniform1 .i u.native_handle u.location value
  | .int => .glProgramUniform1 .i u.native_handle u.location value
  | .unsigned => .glProgramUniform1 .ui u.native_handle u.location value
  | .float => .glProgramUniform1 .f u.native_handle u.location value
  | .double => .glProgramUniform1 .d u.native_handle u.location value
  | .bvec2 => .glProgramUniformv 2 .i u.native_handle u.location 1 value
  | .ivec2 => .glProgramUniformv 2 .i u.native_handle u.location 1 value
  | .uvec2 => .glProgramUniformv 2 .ui u.native_handle u.location 1 value
  | .vec2 => .glProgramUniformv 2 .f u.native_handle u.location 1 value
  | .dvec2 => .glProgramUniformv 2 .d u.native_handle u.location 1 value
  | .bvec3 => .glProgramUniformv 3 .i u.native_handle u.location 1 value
  | .ivec3 => .glProgramUniformv 3 .i u.native_handle u.location 1 value
  | .uvec3 => .glProgramUniformv 3 .ui u.native_handle u.location 1 value
  | .vec3 => .glProgramUniformv 3 .f u.native_handle u.location 1 value
  | .dvec3 => .glProgramUniformv 3 .d u.native_handle u.location 1 value
  | .bvec4 => .glProgramUniformv 4 .i u.native_handle u.location 1 value
  | .ivec4 => .glProgramUniformv 4 .i u.native_handle u.location 1 value
  | .uvec4 => .glProgramUniformv 4 .ui u.native_handle u.location 1 value
  | .vec4 => .glProgramUniformv 4 .f u.native_handle u.location 1 value
  | .dvec4 => .glProgramUniformv 4 .d u.native_handle u.location 1 value
  | .mat2 => .glProgramUniformMatrix 2 2 .f u.native_handle u.location 1 false value
  | .dmat2 => .glProgramUniformMatrix 2 2 .d u.native_handle u.location 1 false value
  | .mat2x3 => .glProgramUniformMatrix 2 3 .f u.native_handle u.location 1 false value
  | .dmat2x3 => .glProgramUniformMatrix 2 3 .d u.native_handle u.location 1 false value
  | .mat2x4 => .glProgramUniformMatrix 2 3 .f u.native_handle u.location 1 false value
  | .dmat2x4 => .glProgramUniformMatrix 2 4 .d u.native_handle u.location 1 false value
  | .mat3x2 => .glProgramUniformMatrix 3 2 .f u.native_handle u.location 1 false value
  | .dmat3x2 => .glProgramUniformMatrix 3 2 .d u.native_handle u.location 1 false value
  | .mat3 => .glProgramUniformMatrix 3 3 .f u.native_handle u.location 1 false value
  | .dmat3 => .glProgramUniformMatrix 3 3 .d u.native_handle u.location 1 false value
  | .mat3x4 => .glProgramUniformMatrix 3 4 .f u.native_handle u.location 1 false value
  | .dmat3x4 => .glProgramUniformMatrix 3 4 .d u.native_handle u.location 1 false value
  | .mat4x2 => .glProgramUniformMatrix 4 2 .f u.native_handle u.location 1 false value
  | .dmat4x2 => .glProgramUniformMatrix 4 2 .d u.native_handle u.location 1 false value
  | .mat4x3 => .glProgramUniformMatrix 4 3 .f u.native_handle u.location 1 false value
  | .dmat4x3 => .glProgramUniformMatrix 4 3 .d u.native_handle u.location 1 false value
  | .mat4 => .glProgramUniformMatrix 4 4 .f u.native_handle u.location 1 false value
  | .dmat4 => .glProgramUniformMatrix 4 4 .d u.native_handle u.location 1 false value

/-- The functions `Uniform::operator=(T value)`: the device call of the overload
on a valid uniform, nothing on an invalid one. -/
def Uniform.assign (u : Uniform) (T : UniformValue) (value : List Nat) (d : Device) : Device :=
  if u.valid then d.log (u.device_call T value) else d

/-- The shape of a host value type: a scalar, a vector with its number of
components, or a matrix with its numbers of columns and rows. -/
inductive UniformShape where
  | scalar
  | vector (components : Nat)
  | matrix (columns rows : Nat)
  deriving DecidableEq, Repr

/-- The shape of each supported host value type. -/
def UniformValue.shape : UniformValue → UniformShape
  | .bool | .int | .unsigned | .float | .double => .scalar
  | .bvec2 | .ivec2 | .uvec2 | .vec2 | .dvec2 => .vector 2
  | .bvec3 | .ivec3 | .uvec3 | .vec3 | .dvec3 => .vector 3
  | .bvec4 | .ivec4 | .uvec4 | .vec4 | .dvec4 => .vector 4
  | .mat2 | .dmat2 => .matrix 2 2
  | .mat2x3 | .dmat2x3 => .matrix 2 3
  | .mat2x4 | .dmat2x4 => .matrix 2 4
  | .mat3x2 | .dmat3x2 => .matrix 3 2
  | .mat3 | .dmat3 => .matrix 3 3
  | .mat3x4 | .dmat3x4 => .matrix 3 4
  | .mat4x2 | .dmat4x2 => .matrix 4 2
  | .mat4x3 | .dmat4x3 => .matrix 4 3
  | .mat4 | .dmat4 => .matrix 4 4

/-- The scalar kind of the entry points for each supported host value type: the
kind of its components, a `bool` being written as an `int` (the family has no
entry point for `bool`). -/
def UniformValue.kind : UniformValue → UniformKind
  | .bool | .bvec2 | .bvec3 | .bvec4 => .i
  | .int | .ivec2 | .ivec3 | .ivec4 => .i
  | .unsigned | .uvec2 | .uvec3 | .uvec4 => .ui
  | .float | .vec2 | .vec3 | .vec4 => .f
  | .mat2 | .mat2x3 | .mat2x4 | .mat3x2 | .mat3 | .mat3x4 | .mat4x2 | .mat4x3 | .mat4 => .f
  | .double | .dvec2 | .dvec3 | .dvec4 => .d
  | .dmat2 | .dmat2x3 | .dmat2x4 | .dmat3x2 | .dmat3 | .dmat3x4 | .dmat4x2 | .dmat4x3
  | .dmat4 => .d

/-- The device write a uniform assignment is specified to issue: the one
through the entry point whose shape and scalar kind are those of the value
type, with the handle of the program and the stored location. -/
def Uniform.matching_call (u : Uniform) (T : UniformValue) (value : List Nat) : GLCall :=
  match T.shape with
  | .scalar => .glProgramUniform1 T.kind u.native_handle u.location value
  | .vector components =>
    .glProgramUniformv components T.kind u.native_handle u.location 1 value
  | .matrix columns rows =>
    .glProgramUniformMatrix columns rows T.kind u.native_handle u.location 1 false value

/-! ## The device: program introspection -/

def GL_INVALID_ENUM : Nat := 0x0500
def GL_ACTIVE_UNIFORMS : Nat := 0x8B86
def GL_ACTIVE_UNIFORM_MAX_LENGTH : Nat := 0x8B87
def GL_ACTIVE_ATTRIBUTES : Nat := 0x8B89
def GL_ACTIVE_ATTRIBUTE_MAX_LENGTH : Nat := 0x8B8A

/-- The program object of the given name, if the name is in use. -/
def Device.program (d : Device) (name : Handle) : Option ProgramObject :=
  d.programs.find? (fun p => p.name == name)

/-- The length of the longest name among the variables, with the terminating
null character; 0 when there is no variable.  Names are ASCII: a character is a
byte. -/
def max_name_length (vars : List ActiveVariable) : Nat :=
  vars.foldr (fun v longest => max (v.name.length + 1) longest) 0

/-- Fake `glGetProgramiv` for the four parameters the library queries: the
value written to `*params`, or `none` when the call fails and leaves `*params`
as it was. -/
def glGetProgramiv (program : Handle) (pname : Nat) (d : Device) : Option Int × Device :=
  let d := d.log (.glGetProgramiv program pname)
  match d.program program with
  | none => (none, d.raise GL_INVALID_VALUE)
  | some p =>
    if pname = GL_ACTIVE_UNIFORMS then (some (p.uniforms.length : Int), d)
    else if pname = GL_ACTIVE_UNIFORM_MAX_LENGTH then
      (some (max_name_length p.uniforms : Int), d)
    else if pname = GL_ACTIVE_ATTRIBUTES then (some (p.attributes.length : Int), d)
    else if pname = GL_ACTIVE_ATTRIBUTE_MAX_LENGTH then
      (some (max_name_length p.attributes : Int), d)
    else (none, d.raise GL_INVALID_ENUM)

/-- What `glGetActiveUniform` and `glGetActiveAttrib` write through their
pointers: the number of characters written without the terminator, the array
size, the type, and the null-terminated name in the buffer. -/
structure ActiveInfo where
  length : Int
  size : Int
  type : Nat
  name : String
  deriving DecidableEq, Repr

/-- The answer of the device on the variable of index `index` among
`vars`, for a name buffer of `bufSize` bytes: the name is cut to
`bufSize - 1` characters.  Nothing is written for an index out of range or a
buffer without room for the terminator. -/
def active_info (vars : List ActiveVariable) (index : Nat) (bufSize : Int) :
    Option ActiveInfo :=
  match vars.get? index with
  | none => none
  | some v =>
    if bufSize < 1 then none
    else
      let written := String.mk (v.name.data.take (bufSize.toNat - 1))
      some ⟨(written.length : Int), v.size, v.type, written⟩

/-- The location the device resolves a name to among `vars`: that of the
variable of this name, and -1 when there is none. -/
def resolve_location (vars : List ActiveVariable) (name : String) : Int :=
  match vars.find? (fun v => v.name == name) with
  | some v => v.location
  | none => -1

/-- Fake `glGetActiveUniform`. -/
def glGetActiveUniform (program : Handle) (index : Nat) (bufSize : Int) (d : Device) :
    Option ActiveInfo × Device :=
  let d := d.log (.glGetActiveUniform program index bufSize)
  match d.program program with
  | none => (none, d.raise GL_INVALID_VALUE)
  | some p =>
    match active_info p.uniforms index bufSize with
    | none => (none, d.raise GL_INVALID_VALUE)
    | some info => (some info, d)

/-- Fake `glGetUniformLocation`. -/
def glGetUniformLocation (program : Handle) (name : String) (d : Device) : Int × Device :=
  let d := d.log (.glGetUniformLocation program name)
  match d.program program with
  | none => (-1, d.raise GL_INVALID_VALUE)
  | some p => (resolve_location p.uniforms name, d)

/-- Fake `glGetActiveAttrib`. -/
def glGetActiveAttrib (program : Handle) (index : Nat) (bufSize : Int) (d : Device) :
    Option ActiveInfo × Device :=
  let d := d.log (.glGetActiveAttrib program index bufSize)
  match d.program program with
  | none => (none, d.raise GL_INVALID_VALUE)
  | some p =>
    match active_info p.attributes index bufSize with
    | none => (none, d.raise GL_INVALID_VALUE)
    | some info => (some info, d)

/-- Fake `glGetAttribLocation`. -/
def glGetAttribLocation (program : Handle) (name : String) (d : Device) : Int × Device :=
  let d := d.log (.glGetAttribLocation program name)
  match d.program program with
  | none => (-1, d.raise GL_INVALID_VALUE)
  | some p => (resolve_location p.attributes name, d)

/-! ## `program.hpp`, `program.cpp` -/

/-- A `std::unordered_map<std::string, T>`: its entries, in the order of
iteration. -/
abbrev unordered_map (α : Type) := List (String × α)

/-- The function `unordered_map::count(key)`. -/
def unordered_map.count {α : Type} (m : unordered_map α) (key : String) : Nat :=
  if (List.lookup key m).isSome then 1 else 0

/-- The entry of a key that is in the map, as `operator[]` finds it. -/
def unordered_map.find {α : Type} (m : unordered_map α) (key : String) : Option α :=
  List.lookup key m

/-- The assignment `m[key] = value`: the entry of the key is replaced or
created. -/
def unordered_map.assign {α : Type} (m : unordered_map α) (key : String) (value : α) :
    unordered_map α :=
  (key, value) :: m.filter (fun e => e.1 != key)

/-- The data members of `gl::Program`. -/
structure Program where
  m_handle : Handle
  attributes : unordered_map Attribute
  uniforms : unordered_map Uniform
  deriving DecidableEq, Repr

/-- Modelled from the spec: `Program::native_handle()` is declared in
`program.hpp` and its body is not part of the sources; it is the device handle
of the program. -/
def Program.native_handle (p : Program) : Handle := p.m_handle

/-- The loop `for (GLuint i = 0; i < static_cast<GLuint>(num); i++)` of either
block of the constructor of `Program`, from index `i` on with `remaining`
indices still to visit.  The two blocks differ in the entry points
(`get_active`, `get_location`) and in the class of the entry constructed
(`make`) only.  `info` holds the locals `length`, `count`, `type` and the
contents of the name buffer, which a failed call leaves as they were; `map` is
the member `uniforms` or `attributes`. -/
def Program.enumerate {α : Type} (m_handle : Handle)
    (get_active : Handle → Nat → Int → Device → Option ActiveInfo × Device)
    (get_location : Handle → String → Device → Int × Device)
    (make : Handle → String → GLType → Int → Int → α) (max_name_len : Int) :
    (remaining : Nat) → (i : Nat) → ActiveInfo → unordered_map α → Device →
      unordered_map α × Device
  | 0, _, _, map, d => (map, d)
  | remaining + 1, i, info, map, d =>
    let got := get_active m_handle i max_name_len d
    let info := match got.1 with
      | some written => written
      | none => info
    let located := get_location m_handle info.name got.2
    let location := located.1
    if location < 0 then
      Program.enumerate m_handle get_active get_location make max_name_len remaining (i + 1)
        info map located.2
    else
      let str_name := String.mk (info.name.data.take info.length.toNat)
      Program.enumerate m_handle get_active get_location make max_name_len remaining (i + 1)
        info (map.assign str_name (make m_handle str_name info.type location info.size))
        located.2

/-- Either block of the constructor of `Program`: the number of variables is
queried, and when it is not zero the length of the longest name, before the
loop runs over the indices.  The locals start as `length = 0`, `count = 0`,
`type = GL_NONE` and a zeroed name buffer, whose allocation is taken to
succeed. -/
def Program.collect {α : Type} (m_handle : Handle) (pname_count pname_max_length : Nat)
    (get_active : Handle → Nat → Int → Device → Option ActiveInfo × Device)
    (get_location : Handle → String → Device → Int × Device)
    (make : Handle → String → GLType → Int → Int → α) (map : unordered_map α) (d : Device) :
    unordered_map α × Device :=
  let queried := glGetProgramiv m_handle pname_count d
  let num := queried.1.getD 0
  if num ≠ 0 then
    let queried_length := glGetProgramiv m_handle pname_max_length queried.2
    let max_name_len := queried_length.1.getD 0
    Program.enumerate m_handle get_active get_location make max_name_len
      (num % (UINT_MOD : Int)).toNat 0 ⟨0, 0, GL_NONE, ""⟩ map queried_length.2
  else (map, queried.2)

/-- The private constructor `Program(handle)`. -/
def Program.new (handle : Handle) (d : Device) : Program × Device :=
  let m_handle := handle
  let collected := Program.collect m_handle GL_ACTIVE_UNIFORMS GL_ACTIVE_UNIFORM_MAX_LENGTH
    glGetActiveUniform glGetUniformLocation Uniform.new [] d
  let uniforms := collected.1
  let collected := Program.collect m_handle GL_ACTIVE_ATTRIBUTES GL_ACTIVE_ATTRIBUTE_MAX_LENGTH
    glGetActiveAttrib glGetAttribLocation Attribute.new [] collected.2
  let attributes := collected.1
  (⟨m_handle, attributes, uniforms⟩, collected.2)

/-- A device reports the number of variables, the lengths of their names and
their locations as `GLint` values: both lists, every name with its terminator
and every location are within the range of `int`. -/
def ProgramObject.reportable (p : ProgramObject) : Prop :=
  (p.uniforms.length : Int) ≤ INT_MAX ∧ (max_name_length p.uniforms : Int) ≤ INT_MAX ∧
  (p.attributes.length : Int) ≤ INT_MAX ∧ (max_name_length p.attributes : Int) ≤ INT_MAX ∧
  (∀ v ∈ p.uniforms, v.location ≤ INT_MAX) ∧ (∀ v ∈ p.attributes, v.location ≤ INT_MAX)

instance (p : ProgramObject) : Decidable p.reportable := by
  unfold ProgramObject.reportable; infer_instance

/-- The entries the loop of `Program.enumerate` leaves in the map when no name
is cut, as a fold over the variables the device reports: each variable whose
name resolves to a location that is not negative is assigned to its name. -/
def Program.entries {α : Type} (make : Handle → String → GLType → Int → Int → α)
    (m_handle : Handle) (resolve : String → Int) :
    List ActiveVariable → unordered_map α → unordered_map α
  | [], map => map
  | v :: rest, map =>
    if resolve v.name < 0 then Program.entries make m_handle resolve rest map
    else
      Program.entries make m_handle resolve rest
        (map.assign v.name (make m_handle v.name v.type (resolve v.name) v.size))

/-! ## `vertex_array.hpp`, `vertex_array.cpp` -/

/-- Conversion of a `size_t` to `int`, `GLsizei` or `GLint`: the low 32 bits,
read as a signed number. -/
def size_t_to_int (n : Nat) : Int :=
  if n % UINT_MOD < 2 ^ 31 then ((n % UINT_MOD : Nat) : Int)
  else ((n % UINT_MOD : Nat) : Int) - (UINT_MOD : Int)

/-- Conversion of a `size_t` to `GLintptr` by `static_cast`: the 64 bits, read
as a signed number. -/
def size_t_to_GLintptr (n : Nat) : Int :=
  if n % SIZE_MOD ≤ PTRDIFF_MAX then ((n % SIZE_MOD : Nat) : Int)
  else ((n % SIZE_MOD : Nat) : Int) - (SIZE_MOD : Int)

/-- Conversion of a signed integer to `GLuint`, the type of the parameter
`relativeoffset` of `glVertexArrayAttribFormat`. -/
def to_GLuint (i : Int) : Nat := (i % (UINT_MOD : Int)).toNat

/-- Modelled from the spec: `Buffer::native_handle()` is declared in
`buffer.hpp` and its body is not part of the sources; it is the device handle
of the buffer. -/
def Buffer.native_handle (b : Buffer) : Handle := b.m_handle

/-- Fake `glCreateVertexArrays(1, &handle)`: a new name. -/
def glCreateVertexArrays (d : Device) : Handle × Device :=
  let d := d.log .glCreateVertexArrays
  (d.next, { d with next := d.next + 1 })

/-- The data members of `gl::VertexArray`.  The `std::shared_ptr` of the program
owns an object; the program is embedded as that object. -/
structure VertexArray where
  m_handle : Handle
  m_program : Program
  m_indices : Option Data
  m_data : unordered_map Data
  m_num_vertices : Nat
  deriving DecidableEq, Repr

/-- The conversion `VertexArray::operator bool`. -/
def VertexArray.valid (va : VertexArray) : Bool := va.m_handle != INVALID

/-- The accessor `VertexArray::indices()`. -/
def VertexArray.indices (va : VertexArray) : Option Data := va.m_indices

/-- The accessor `VertexArray::native_handle()`. -/
def VertexArray.native_handle (va : VertexArray) : Handle := va.m_handle

/-- The loop `for (auto& [name, view] : data)` of the constructor of
`VertexArray`, over the entries in the order of iteration.  On a key that is in
the map, `program->attributes[name]` is the entry of the key.  The call
`view.buffer()` dereferences the buffer pointer of the view. -/
def VertexArray.bind_attributes (m_handle : Handle) (program : Program) (h : Heap) :
    unordered_map Data → Device → Except Error Unit × Device
  | [], d => (.ok (), d)
  | (name, view) :: rest, d =>
    if program.attributes.count name = 0 then
      VertexArray.bind_attributes m_handle program h rest d
    else
      let attrib := (program.attributes.find name).getD Attribute.default
      let slice := view.slice
      let descriptor := view.descriptor
      match h.deref view.m_buffer with
      | none => (.error .undefined_behaviour, d)
      | some buffer =>
        let d := d.log (.glVertexArrayVertexBuffer m_handle attrib.location buffer.native_handle 0
          (size_t_to_int slice.stride))
        let d := d.log (.glVertexArrayAttribFormat m_handle attrib.location
          (size_t_to_int descriptor.count) descriptor.type false
          (to_GLuint (size_t_to_GLintptr slice.start)))
        let d := d.log (.glEnableVertexArrayAttrib m_handle attrib.location)
        VertexArray.bind_attributes m_handle program h rest d

/-- The constructor `VertexArray(program, data, indices)`.  The member
initialiser `m_num_vertices(indices ? indices->size() : 0)` runs before the
body. -/
def VertexArray.new (program : Program) (data : unordered_map Data) (indices : Option Data)
    (h : Heap) (d : Device) : Except Error VertexArray × Device :=
  let num_vertices : Option Nat :=
    match indices with
    | some view => view.size h
    | none => some 0
  match num_vertices with
  | none => (.error .undefined_behaviour, d)
  | some m_num_vertices =>
    let created := glCreateVertexArrays d
    let m_handle := created.1
    let d := created.2
    let bound : Except Error Unit × Device :=
      match indices with
      | some view =>
        match h.deref view.m_buffer with
        | none => (.error .undefined_behaviour, d)
        | some buffer => (.ok (), d.log (.glVertexArrayElementBuffer m_handle buffer.native_handle))
      | none => (.ok (), d)
    match bound.1 with
    | .error e => (.error e, bound.2)
    | .ok _ =>
      let looped := VertexArray.bind_attributes m_handle program h data bound.2
      match looped.1 with
      | .error e => (.error e, looped.2)
      | .ok _ => (.ok ⟨m_handle, program, indices, data, m_num_vertices⟩, looped.2)

/-- The three calls that bind one view to the location of an attribute, with
the arguments converted as the constructor of `VertexArray` hands them over. -/
def VertexArray.binding (vaobj : Handle) (attrib : Attribute) (buffer : Buffer) (view : Data) :
    List GLCall :=
  [.glVertexArrayVertexBuffer vaobj attrib.location buffer.native_handle 0
     (size_t_to_int view.slice.stride),
   .glVertexArrayAttribFormat vaobj attrib.location (size_t_to_int view.descriptor.count)
     view.descriptor.type false (to_GLuint (size_t_to_GLintptr view.slice.start)),
   .glEnableVertexArrayAttrib vaobj attrib.location]

/-- The calls the constructor of `VertexArray` is specified to issue for a data
mapping: the binding of each entry whose name is a key of the attribute map of
the program, and nothing for the other entries. -/
def VertexArray.expected_bindings (vaobj : Handle) (program : Program) (h : Heap)
    (data : unordered_map Data) : List GLCall :=
  data.flatMap (fun entry =>
    match program.attributes.find entry.1, h.deref entry.2.m_buffer with
    | some attrib, some buffer => VertexArray.binding vaobj attrib buffer entry.2
    | _, _ => [])

/-- The call that binds the index view as the element source, if there is
one. -/
def VertexArray.expected_element_buffer (vaobj : Handle) (h : Heap) (indices : Option Data) :
    List GLCall :=
  match indices with
  | some view =>
    match h.deref view.m_buffer with
    | some buffer => [.glVertexArrayElementBuffer vaobj buffer.native_handle]
    | none => []
  | none => []

/-! ## The lifetime of the buffer objects of a program -/

/-- The destructor `~Buffer()`: the device after `reset()`. -/
def Buffer.destroy (b : Buffer) (d : Device) : Device := (b.reset d).2

/-- A step of a program on its `Buffer` objects, which are numbered in the order
of their construction: the construction of an object from data, the move
construction of an object from another one, a move assignment, a `reset()`, the
destruction of an object. -/
inductive BufferOp where
  | construct (data : List Nat) (size : Nat) (type : BufferType)
  | move_construct (source : Nat)
  | move_assign (target source : Nat)
  | reset (object : Nat)
  | destroy (object : Nat)
  deriving DecidableEq, Repr

/-- The `Buffer` objects of a program and the device: the object of each number,
`none` once it is destroyed; the handles `glCreateBuffers` has written into the
objects, in the order of the calls; the device. -/
structure BufferStore where
  objects : List (Option Buffer)
  created : List Handle
  dev : Device
  deriving DecidableEq, Repr

/-- The start of a program: no object, on the device `d`. -/
def BufferStore.init (d : Device) : BufferStore := ⟨[], [], d⟩

/-- One step of the program.  A step that names an object that does not exist,
or one that is destroyed, is not a step of any program and leaves everything as
it is. -/
def BufferStore.step (s : BufferStore) : BufferOp → BufferStore
  | .construct data size type =>
    let made := Buffer.new data size type s.dev
    ⟨s.objects ++ [some made.1], s.created ++ [made.1.m_handle], made.2⟩
  | .move_construct source =>
    match s.objects.get? source with
    | some (some other) =>
      let moved := Buffer.move other
      ⟨s.objects.set source (some moved.2) ++ [some moved.1], s.created, s.dev⟩
    | _ => s
  | .move_assign target source =>
    match s.objects.get? target, s.objects.get? source with
    | some (some b), some (some other) =>
      let moved := Buffer.move_assign b other
      ⟨(s.objects.set target (some moved.1)).set source (some moved.2), s.created, s.dev⟩
    | _, _ => s
  | .reset object =>
    match s.objects.get? object with
    | some (some b) =>
      let after := b.reset s.dev
      ⟨s.objects.set object (some after.1), s.created, after.2⟩
    | _ => s
  | .destroy object =>
    match s.objects.get? object with
    | some (some b) => ⟨s.objects.set object none, s.created, b.destroy s.dev⟩
    | _ => s

/-- The steps of a program, run from its start on the device `d`. -/
def BufferStore.run (d : Device) (ops : List BufferOp) : BufferStore :=
  ops.foldl BufferStore.step (BufferStore.init d)

/-- The handles of the calls of `glDeleteBuffers` among the calls, in their
order. -/
def deleted_buffers (calls : List GLCall) : List Handle :=
  calls.filterMap (fun c =>
    match c with
    | .glDeleteBuffers buffer => some buffer
    | _ => none)

/-- The handles the objects that are alive and valid hold. -/
def held_handles (objects : List (Option Buffer)) : List Handle :=
  objects.filterMap (fun o =>
    match o with
    | some b => if b.valid then some b.m_handle else none
    | none => none)

/-- The invariant of a run from the device `d0`, where `calls` are the calls
issued since the start: the trace is that of `d0` followed by `calls`; every
handle created is below the next name of the device; no handle was created
twice; and each handle is held or was deleted as many times as it was created
with a value other than `INVALID`. -/
def BufferStore.invariant (d0 : Device) (s : BufferStore) (calls : List GLCall) : Prop :=
  s.dev.trace = d0.trace ++ calls ∧
  (∀ h ∈ s.created, h < s.dev.next) ∧
  s.created.Nodup ∧
  ∀ h, (held_handles s.objects).count h + (deleted_buffers calls).count h
    = (s.created.filter (fun c => c != INVALID)).count h

/-! ## The invariants of a view and the bounds test of `read` -/

/-- The invariant of a view stated by the data model, first half: the stride is
at least the element size implied by the descriptor. -/
def Data.stride_covers_element (v : Data) : Prop :=
  v.m_descriptor.size * v.m_descriptor.count ≤ v.m_slice.stride

/-- The invariant of a view stated by the data model, second half: the slice
lies within the buffer, `start + count * stride <= buffer byte size`. -/
def Data.slice_within_buffer (h : Heap) (v : Data) : Prop :=
  match h.deref v.m_buffer with
  | none => False
  | some b => v.m_slice.start + v.m_slice.size * v.m_slice.stride ≤ b.size

instance (v : Data) : Decidable v.stride_covers_element := by
  unfold Data.stride_covers_element; infer_instance

instance (h : Heap) (v : Data) : Decidable (v.slice_within_buffer h) := by
  unfold Data.slice_within_buffer; split <;> infer_instance

/-- For a GLM-style vector type, the components fit in the object:
`length() * sizeof(value_type) <= sizeof(T)`; nothing is asked of other types. -/
def HostType.components_fit : HostType → Prop
  | .vector value_type length size => value_type.sizeof * length ≤ size
  | _ => True

instance (T : HostType) : Decidable T.components_fit := by
  cases T <;> unfold HostType.components_fit <;> infer_instance

/-- The test of `Buffer::read` that throws `std::invalid_argument`. -/
def Buffer.read_out_of_bounds (b : Buffer) (size : Nat) (offset : Int) : Prop :=
  offset < 0 ∨ (int_to_size_t offset + size) % SIZE_MOD > b.m_size

instance (b : Buffer) (size : Nat) (offset : Int) : Decidable (b.read_out_of_bounds size offset) := by
  unfold Buffer.read_out_of_bounds; infer_instance

/-! ## Example objects -/

/-- A 16-byte buffer object, the only object of `example_heap`. -/
def example_buffer : Buffer := ⟨1, 16, .STATIC⟩

/-- A heap holding `example_buffer` at address 0. -/
def example_heap : Heap := [example_buffer]

/-- A view of four `float` elements over `example_buffer`. -/
def example_view : Data := ⟨0, ⟨0, 4, 4⟩, ElementDescriptor.get (.arithmetic .float)⟩

/-- A view over `example_buffer` holding a default-constructed `std::slice`. -/
def example_empty_view : Data := ⟨0, ⟨0, 0, 0⟩, Data.default_descriptor⟩

/-- A world with an empty heap and a fresh device. -/
def example_world : World := ⟨[], Device.init⟩

/-- A record type of 12 bytes with a `float` member at byte offset 8. -/
def example_record : HostType := .record 12

/-- A view of records of `example_record` over `example_buffer`. -/
def example_typed_view : TypedData := ⟨example_record, ⟨0, ⟨0, 16, 12⟩, ElementDescriptor.get example_record⟩⟩

/-- The member pointer to the `float` member at offset 8 of `example_record`. -/
def example_member : MemberPtr := ⟨.arithmetic .float, 8⟩

/-- A vector of two `float` values, eight bytes. -/
def example_vector : vector := ⟨2, [1, 2, 3, 4, 5, 6, 7, 8]⟩

/-- A buffer of the four bytes 10, 20, 30, 40 on a fresh device, and the device
holding it. -/
def example_stored : Buffer × Device := Buffer.new [10, 20, 30, 40] 4 .STATIC Device.init

/-- A buffer reserved with four zero bytes on a fresh device, and the device
holding it. -/
def example_reserved : Buffer × Device :=
  Buffer.of_vector 1 ⟨4, List.replicate 4 0⟩ .STATIC Device.init

/-- A texture of 4 by 4 pixels with three 8-bit components, of handle 10. -/
def example_texture : Texture := ⟨10, 4, 4, 3, 0, false, 0, ImageFormat.u8⟩

/-- A renderbuffer of 4 by 4 pixels with two components, of handle 11. -/
def example_renderbuffer : Renderbuffer := ⟨11, 4, 4, 2, false, ImageFormat.u8, 0⟩

/-- A renderbuffer of 8 by 4 pixels, of handle 13. -/
def example_wide_renderbuffer : Renderbuffer := ⟨13, 8, 4, 2, false, ImageFormat.u8, 0⟩

/-- A depth texture of 4 by 4 pixels, of handle 12. -/
def example_depth_texture : Texture := ⟨12, 4, 4, 1, 0, true, 0, ImageFormat.f32⟩

/-- The framebuffer constructed on a fresh device from `example_texture` and
`example_renderbuffer` as color attachments and `example_depth_texture` as
depth attachment. -/
def example_framebuffer : Framebuffer :=
  ⟨1, [.texture example_texture, .renderbuffer example_renderbuffer],
    .texture example_depth_texture, 4, 4, 0, ⟨0, 0, 4, 4⟩, none,
    [0x8CE0, 0x8CE1], [true, true, true, false, true, true, false, false, false]⟩

/-- The framebuffer `example_framebuffer` after its scissor has been set to the
rectangle `(1, 2, 3, 4)`. -/
def example_scissored_framebuffer : Framebuffer :=
  { example_framebuffer with m_scissor := some ⟨1, 2, 3, 4⟩, m_viewport := ⟨0, 0, 4, 4⟩ }

/-- The device after the construction of `example_framebuffer`. -/
def example_framebuffer_device : Device :=
  (Framebuffer.new [.texture example_texture, .renderbuffer example_renderbuffer]
    (.texture example_depth_texture) Device.init).2

/-- A device that reports every framebuffer unsupported. -/
def example_unsupported_device : Device :=
  { Device.init with framebuffer_status := GL_FRAMEBUFFER_UNSUPPORTED }

/-- A multisampled texture of 4 by 4 pixels with four samples, of handle 14. -/
def example_multisample_texture : Texture := ⟨14, 4, 4, 3, 4, false, 0, ImageFormat.u8⟩

/-- A uniform of the program 3 at location 5. -/
def example_uniform : Uniform := Uniform.new 3 "transform" 0x8B66 5 1

/-- A linked program of name 3 with two uniforms, one of them without a
location, and one attribute. -/
def example_program_object : ProgramObject :=
  ⟨3, [⟨"color", 1, 0x8B52, 0⟩, ⟨"unused", 1, 0x1406, -1⟩], [⟨"position", 1, 0x8B51, 2⟩]⟩

/-- A fresh device that holds `example_program_object`. -/
def example_program_device : Device := { Device.init with programs := [example_program_object] }

/-- A program of handle 3 with the attribute `position` at location 2. -/
def example_program : Program :=
  ⟨3, [("position", Attribute.new 3 "position" 0x8B51 2 1)], []⟩

/-- A view over `example_buffer` whose stride is 4294967312, that is
`2 ^ 32 + 16`. -/
def example_wide_stride_view : Data :=
  ⟨0, ⟨0, 1, 4294967312⟩, ElementDescriptor.get (.arithmetic .float)⟩

/-- A program of seven steps: two buffers are constructed, a third is move
constructed from the first, the second is move assigned from the third, and the
second and the third are destroyed; then the first is destroyed. -/
def example_buffer_program : List BufferOp :=
  [.construct [1, 2] 2 .STATIC, .construct [3] 1 .DYNAMIC, .move_construct 0, .move_assign 1 2,
   .destroy 1, .destroy 2, .destroy 0]

/-! ## Helper lemmas -/

theorem Data.size_of_deref (h : Heap) (v : Data) (b : Buffer)
    (hb : h.deref v.m_buffer = some b) (hs : v.m_slice.stride ≠ 0) :
    v.size h = some (b.size / v.m_slice.stride) := by
  simp [Data.size, hb, hs]

theorem Data.select_eq_map (h : Heap) (v : Data) (offset stride : Nat) :
    v.select h offset stride =
      (v.size h).map (fun n => ⟨v.m_buffer, ⟨offset, n, stride⟩, Data.default_descriptor⟩) := by
  unfold Data.select
  cases v.size h <;> rfl

/-- Logging a call does not change which objects exist. -/
theorem Device.find_log (d : Device) (c : GLCall) (name : Handle) :
    (d.log c).find name = d.find name := rfl

/-- Binding an existing buffer object to `GL_ARRAY_BUFFER` sets the binding. -/
theorem glBindBuffer_of_find (d : Device) (buffer : Handle) (o : BufferObject)
    (ho : d.find buffer = some o) :
    glBindBuffer GL_ARRAY_BUFFER buffer d
      = { d.log (.glBindBuffer GL_ARRAY_BUFFER buffer) with array_buffer := buffer } := by
  unfold glBindBuffer
  simp [Device.find_log, ho]

/-- Mapping the first `length` bytes of the bound, unmapped buffer object
succeeds and gives those bytes. -/
theorem glMapBufferRange_of_find (d : Device) (length access : Nat) (o : BufferObject)
    (ho : d.find d.array_buffer = some o) (hpos : 0 < length) (hmax : length ≤ PTRDIFF_MAX)
    (hlen : length ≤ o.store.length) (hm : o.mapped = false) :
    (glMapBufferRange GL_ARRAY_BUFFER 0 length access d).1 = some (o.store.take length) := by
  unfold glMapBufferRange
  simp only [ne_eq, not_true_eq_false, if_false]
  have hf : (d.log (.glMapBufferRange GL_ARRAY_BUFFER 0 length access)).find
      (d.log (.glMapBufferRange GL_ARRAY_BUFFER 0 length access)).array_buffer = some o := ho
  simp only [hf]
  rw [if_neg (by omega), if_neg (by simp [hm]; omega)]
  simp

/-- Reading as many bytes behind a host pointer as its pointee holds gives the
pointee. -/
theorem host_bytes_of_length (data : List Nat) (size : Nat) (h : data.length = size) :
    host_bytes data size = data := by
  subst h
  unfold host_bytes
  apply List.ext_getElem
  · simp
  · intro i h1 h2
    simp [List.getD_eq_getElem?_getD, List.getElem?_eq_getElem h2]

/-- After the replacement of the objects of one name, a lookup of that name finds
the replacement. -/
theorem find_map_replace (l : List BufferObject) (o o2 : BufferObject) (name : Handle)
    (ho : l.find? (fun x => x.name == name) = some o) (hn : o2.name = name) :
    (l.map (fun x => if x.name == o2.name then o2 else x)).find? (fun x => x.name == name)
      = some o2 := by
  induction l with
  | nil => simp at ho
  | cons x xs ih =>
    by_cases hx : x.name = name
    · simp [List.find?_cons, hx, hn]
    · have hx2 : (x.name == name) = false := by simpa using hx
      have hx3 : (x.name == o2.name) = false := by simpa [hn] using hx
      rw [List.find?_cons, hx2] at ho
      rw [List.map_cons, hx3]
      simp only [Bool.false_eq_true, if_false, List.find?_cons, hx2]
      exact ih ho

/-- The device finds an updated buffer object under its name. -/
theorem Device.find_update (d : Device) (o o2 : BufferObject) (name : Handle)
    (ho : d.find name = some o) (hn : o2.name = name) :
    (d.update o2).find name = some o2 :=
  find_map_replace d.objects o o2 name ho hn

/-- The pointer returned by `std::make_shared` holds the new object. -/
theorem Heap.deref_make_shared (b : Buffer) (h : Heap) :
    Heap.deref (make_shared b h).2 (make_shared b h).1 = some b := by
  simp [Heap.deref, make_shared]

/-! ## Views: `size`, `select`, `reshape` -/

/-- Claim C1. For a view whose buffer pointer holds the buffer `b` and whose
slice stride is non-zero, `size()` is `b.size() / stride`; replacing the stored
start and the stored element count of the slice does not change it. -/
theorem Data.size_eq_buffer_size_div_stride (h : Heap) (v : Data) (b : Buffer)
    (hb : h.deref v.m_buffer = some b) (hs : v.m_slice.stride ≠ 0) :
    v.size h = some (b.size / v.m_slice.stride) ∧
    ∀ start count : Nat,
      Data.size h ⟨v.m_buffer, ⟨start, count, v.m_slice.stride⟩, v.m_descriptor⟩ = v.size h := by
  refine ⟨Data.size_of_deref h v b hb hs, fun start count => ?_⟩
  simp [Data.size]

theorem Data.size_eq_buffer_size_div_stride_witness :
    example_heap.deref example_view.m_buffer = some example_buffer ∧
    example_view.m_slice.stride ≠ 0 ∧
    (example_view.size example_heap = some (example_buffer.size / example_view.m_slice.stride) ∧
     ∀ start count : Nat,
      Data.size example_heap
        ⟨example_view.m_buffer, ⟨start, count, example_view.m_slice.stride⟩,
          example_view.m_descriptor⟩ = example_view.size example_heap) :=
  ⟨rfl, by decide,
    Data.size_eq_buffer_size_div_stride example_heap example_view example_buffer rfl (by decide)⟩

/-- Claim C2. On a view of `float` elements over a 16-byte buffer,
`select(0, 4)` returns a view over the same buffer with slice `(0, size(), 4)`
whose descriptor is the default one of `unsigned`, which differs from the
descriptor of the view it was selected from. -/
theorem Data.select_descriptor_at_float_view :
    example_view.select example_heap 0 4 =
      some ⟨example_view.m_buffer, ⟨0, 4, 4⟩, ElementDescriptor.get HostType.unsigned⟩ ∧
    example_view.size example_heap = some 4 ∧
    ElementDescriptor.get HostType.unsigned ≠ example_view.descriptor := by
  refine ⟨rfl, rfl, ?_⟩
  decide

/-- Claim C3, as stated, fails: over a 16-byte buffer, with offset 0 inside the
buffer and stride 4, `select(0, 4)` on a view whose own slice has stride 0 has
no result (its `size()` divides by zero), so the size of the selection is not
`16 / 4`. -/
theorem Data.select_size_counterexample :
    example_heap.deref example_empty_view.m_buffer = some example_buffer ∧
    0 < 4 ∧ 0 < example_buffer.size ∧
    (example_empty_view.select example_heap 0 4).bind (Data.size example_heap)
      ≠ some (example_buffer.size / 4) := by
  refine ⟨rfl, by decide, by decide, ?_⟩
  decide

/-- Claim C3, amended. For a view `v` with a non-zero stride of its own over a
buffer `b`, and every offset and every stride > 0, the size of
`v.select(offset, stride)` is `b.size() / stride`; it is the same for every
other offset. -/
theorem Data.select_size (h : Heap) (v : Data) (b : Buffer) (offset stride : Nat)
    (hb : h.deref v.m_buffer = some b) (hv : v.m_slice.stride ≠ 0) (hs : 0 < stride) :
    (v.select h offset stride).bind (Data.size h) = some (b.size / stride) ∧
    ∀ offset2 : Nat,
      (v.select h offset2 stride).bind (Data.size h)
        = (v.select h offset stride).bind (Data.size h) := by
  have key : ∀ o : Nat, (v.select h o stride).bind (Data.size h) = some (b.size / stride) := by
    intro o
    rw [Data.select_eq_map, Data.size_of_deref h v b hb hv]
    simp [Data.size, hb, Nat.pos_iff_ne_zero.mp hs]
  exact ⟨key offset, fun o => (key o).trans (key offset).symm⟩

theorem Data.select_size_witness :
    example_heap.deref example_view.m_buffer = some example_buffer ∧
    example_view.m_slice.stride ≠ 0 ∧ 0 < 8 ∧
    ((example_view.select example_heap 3 8).bind (Data.size example_heap)
        = some (example_buffer.size / 8) ∧
     ∀ offset2 : Nat,
      (example_view.select example_heap offset2 8).bind (Data.size example_heap)
        = (example_view.select example_heap 3 8).bind (Data.size example_heap)) :=
  ⟨rfl, by decide, by decide,
    Data.select_size example_heap example_view example_buffer 3 8 rfl (by decide) (by decide)⟩

/-- Claim C4. `reshape(d1)` keeps the buffer pointer and the slice (start,
count, stride) of the view and has descriptor `d1`; reshaping the result back
to the descriptor of the view gives the view again. -/
theorem Data.reshape_roundtrip (v : Data) (d1 : ElementDescriptor) :
    (v.reshape d1).m_buffer = v.m_buffer ∧
    (v.reshape d1).slice = v.slice ∧
    (v.reshape d1).descriptor = d1 ∧
    (v.reshape d1).reshape v.descriptor = v := by
  refine ⟨rfl, rfl, rfl, ?_⟩
  cases v
  rfl

/-- Claim C5. For a view `v` of records of type `T` and a member of type `M` at
byte offset `o`, `select<member>()` is defined exactly when `v.size()` is, and
is then the `TypedData<M>` over the same buffer with slice
`(o, v.size(), sizeof(T))` and descriptor `ElementDescriptor::get<M>()`; it is
defined whenever the buffer pointer holds a buffer and the stride of `v` is
non-zero. -/
theorem TypedData.select_member (h : Heap) (v : TypedData) (member : MemberPtr) :
    v.select h member =
      (v.data.size h).map (fun n =>
        ⟨member.R, ⟨v.data.m_buffer, ⟨member.offset, n, v.T.sizeof⟩,
          ElementDescriptor.get member.R⟩⟩) ∧
    ∀ b : Buffer, h.deref v.data.m_buffer = some b → v.data.m_slice.stride ≠ 0 →
      v.select h member =
        some ⟨member.R, ⟨v.data.m_buffer,
          ⟨member.offset, b.size / v.data.m_slice.stride, v.T.sizeof⟩,
          ElementDescriptor.get member.R⟩⟩ := by
  constructor
  · unfold TypedData.select
    cases v.data.size h <;> rfl
  · intro b hb hs
    unfold TypedData.select
    rw [Data.size_of_deref h v.data b hb hs]
    rfl

theorem TypedData.select_member_witness :
    example_heap.deref example_typed_view.data.m_buffer = some example_buffer ∧
    example_typed_view.data.m_slice.stride ≠ 0 ∧
    example_typed_view.select example_heap example_member =
      some ⟨.arithmetic .float, ⟨0, ⟨8, 1, 12⟩, ⟨GL_FLOAT, 4, 1⟩⟩⟩ :=
  ⟨rfl, by decide,
    (TypedData.select_member example_heap example_typed_view example_member).2
      example_buffer rfl (by decide)⟩

/-! ## Views: the allocating constructors -/

/-- The view created by `Data(reserve, element_size, ...)` stores the byte size
of its buffer as the element count of its slice; the slice lies within the
buffer exactly when that byte size times the element size does not exceed the
byte size. -/
theorem Data.reserve_slice_within_buffer_iff (reserve element_size : Nat) (type : BufferType)
    (descriptor : ElementDescriptor) (w w2 : World) (v : Data)
    (h : Data.reserve reserve element_size type descriptor w = .ok (v, w2)) :
    v.m_slice = ⟨0, reserve * element_size % SIZE_MOD, element_size⟩ ∧
    (v.slice_within_buffer w2.heap ↔
      (reserve * element_size % SIZE_MOD) * element_size ≤ reserve * element_size % SIZE_MOD) := by
  unfold Data.reserve Buffer.reserve at h
  split at h
  · simp at h
  · rename_i b dev hb
    split at hb
    · simp at hb
    · injection hb with hb
      injection h with h
      have hv : v = Data.new (make_shared b w.heap).1
          ⟨0, reserve * element_size % SIZE_MOD, element_size⟩ descriptor :=
        (congrArg Prod.fst h).symm
      have hw : w2.heap = (make_shared b w.heap).2 := (congrArg (fun r => r.2.heap) h).symm
      have hsize : b.size = reserve * element_size % SIZE_MOD := by
        have hb1 := congrArg Prod.fst hb
        simp only at hb1
        rw [← hb1]
        simp [Buffer.of_vector, Buffer.new, Buffer.size]
      subst hv
      refine ⟨rfl, ?_⟩
      unfold Data.slice_within_buffer
      rw [hw]
      simp only [Data.new]
      rw [Heap.deref_make_shared]
      simp [hsize]

/-- Claim C6. `Data(1, 4)` creates a 4-byte buffer and a view with slice
`(0, 4, 4)`: the stored count is the byte size, and `0 + 4 * 4 <= 4` fails.
`Data(std::vector<float>)` on two floats creates an 8-byte buffer and a view
with slice `(0, 8, 4)`, and `0 + 8 * 4 <= 8` fails. -/
theorem Data.allocating_constructors_slice_count :
    (Data.reserve 1 4 .STATIC Data.default_descriptor example_world).map
        (fun r => (r.1, r.2.heap))
      = .ok (⟨0, ⟨0, 4, 4⟩, Data.default_descriptor⟩, [⟨1, 4, .STATIC⟩]) ∧
    ¬ Data.slice_within_buffer [⟨1, 4, .STATIC⟩] ⟨0, ⟨0, 4, 4⟩, Data.default_descriptor⟩ ∧
    ((Data.of_vector (.arithmetic .float) example_vector .STATIC
        (ElementDescriptor.get (.arithmetic .float)) example_world).1,
      (Data.of_vector (.arithmetic .float) example_vector .STATIC
        (ElementDescriptor.get (.arithmetic .float)) example_world).2.heap)
      = (⟨0, ⟨0, 8, 4⟩, ⟨GL_FLOAT, 4, 1⟩⟩, [⟨1, 8, .STATIC⟩]) ∧
    ¬ Data.slice_within_buffer [⟨1, 8, .STATIC⟩] ⟨0, ⟨0, 8, 4⟩, ⟨GL_FLOAT, 4, 1⟩⟩ := by
  refine ⟨rfl, ?_, rfl, ?_⟩ <;> decide

/-- Claim C7, as stated, fails: `Data(1, 1)` with the default descriptor creates
a view of stride 1 whose descriptor is that of `unsigned`, 4 bytes times 1
component. -/
theorem Data.stride_covers_element_counterexample :
    (Data.reserve 1 1 .STATIC Data.default_descriptor example_world).map Prod.fst
      = .ok ⟨0, ⟨0, 1, 1⟩, ⟨GL_UNSIGNED_INT, 4, 1⟩⟩ ∧
    ¬ Data.stride_covers_element ⟨0, ⟨0, 1, 1⟩, ⟨GL_UNSIGNED_INT, 4, 1⟩⟩ := by
  refine ⟨rfl, ?_⟩
  decide

/-- Claim C7, amended. With the default descriptor of `unsigned`,
`Data(reserve, element_size)` creates a view (when the byte size is within
`max_size()`) whose stride covers the element exactly when `element_size >= 4`,
and the constructors taking a buffer and a slice exactly when the stride of the
slice is at least 4.  `Data(std::vector<T>)` with its default descriptor
`get<T>()` always creates a view whose stride covers the element, for a scalar
`T`, a vector type whose components fit in it, and any other class. -/
theorem Data.stride_covers_element_default (reserve element_size : Nat) (type : BufferType)
    (w : World) (p : Nat) (buffer : Buffer) (slice : gl.slice) (T : HostType) (data : vector)
    (hfit : reserve * element_size % SIZE_MOD ≤ PTRDIFF_MAX) (hT : T.components_fit) :
    (∃ v w2, Data.reserve reserve element_size type Data.default_descriptor w = .ok (v, w2) ∧
      (v.stride_covers_element ↔ 4 ≤ element_size)) ∧
    ((Data.new p slice Data.default_descriptor).stride_covers_element ↔ 4 ≤ slice.stride) ∧
    ((Data.of_buffer buffer slice Data.default_descriptor w).1.stride_covers_element
      ↔ 4 ≤ slice.stride) ∧
    (Data.of_vector T data type (ElementDescriptor.get T) w).1.stride_covers_element := by
  refine ⟨?_, ?_, ?_, ?_⟩
  · have hres : Buffer.reserve (reserve * element_size % SIZE_MOD) type w.dev
        = .ok (Buffer.of_vector 1
            ⟨reserve * element_size % SIZE_MOD,
              List.replicate (reserve * element_size % SIZE_MOD) 0⟩ type w.dev) := by
      unfold Buffer.reserve
      rw [if_neg (Nat.not_lt.mpr hfit)]
    unfold Data.reserve
    rw [hres]
    refine ⟨_, _, rfl, ?_⟩
    show 4 * 1 ≤ element_size ↔ 4 ≤ element_size
    omega
  · show 4 * 1 ≤ slice.stride ↔ 4 ≤ slice.stride
    omega
  · show 4 * 1 ≤ slice.stride ↔ 4 ≤ slice.stride
    omega
  · show (ElementDescriptor.get T).m_size * (ElementDescriptor.get T).m_count ≤ T.sizeof
    cases T with
    | arithmetic t => simp [ElementDescriptor.get, HostType.sizeof]
    | vector value_type length size => exact hT
    | record size => simp [ElementDescriptor.get, HostType.sizeof]

theorem Data.stride_covers_element_default_witness :
    2 * 8 % SIZE_MOD ≤ PTRDIFF_MAX ∧ HostType.components_fit (.vector .float 3 12) ∧
    ((∃ v w2, Data.reserve 2 8 .STATIC Data.default_descriptor example_world = .ok (v, w2) ∧
      (v.stride_covers_element ↔ 4 ≤ 8)) ∧
    ((Data.new 0 ⟨0, 4, 4⟩ Data.default_descriptor).stride_covers_element ↔ 4 ≤ 4) ∧
    ((Data.of_buffer example_buffer ⟨0, 4, 4⟩ Data.default_descriptor
        example_world).1.stride_covers_element ↔ 4 ≤ 4) ∧
    (Data.of_vector (.vector .float 3 12) example_vector .STATIC
      (ElementDescriptor.get (.vector .float 3 12)) example_world).1.stride_covers_element) :=
  ⟨by decide, by decide,
    Data.stride_covers_element_default 2 8 .STATIC example_world 0 example_buffer ⟨0, 4, 4⟩
      (.vector .float 3 12) example_vector (by decide) (by decide)⟩

/-! ## Buffers: `read` and `write` -/

/-- What `Buffer::read` does on a valid buffer: it throws `std::invalid_argument`
exactly when its test on the wrapped sum holds, and then leaves the device as
it was, trace included. -/
theorem Buffer.read_invalid_argument_iff (b : Buffer) (size : Nat) (offset : Int) (d : Device)
    (hv : b.valid = true) :
    ((∃ what, (b.read size offset d).1 = .error (.invalid_argument what))
      ↔ b.read_out_of_bounds size offset) ∧
    (b.read_out_of_bounds size offset → (b.read size offset d).2 = d) := by
  have hcheck : b.read_out_of_bounds size offset ↔
      (offset < 0 ∨ (int_to_size_t offset + size) % SIZE_MOD > b.m_size) := Iff.rfl
  by_cases hc : offset < 0 ∨ (int_to_size_t offset + size) % SIZE_MOD > b.m_size
  · have hr : b.read size offset d
        = (.error (.invalid_argument "Size or offset out of bounds"), d) := by
      unfold Buffer.read
      simp only [hv, Bool.not_true, Bool.false_eq_true, if_false]
      rw [if_pos hc]
    rw [hr]
    exact ⟨⟨fun _ => hcheck.mpr hc, fun _ => ⟨_, rfl⟩⟩, fun _ => rfl⟩
  · refine ⟨⟨?_, fun h => absurd (hcheck.mp h) hc⟩, fun h => absurd (hcheck.mp h) hc⟩
    rintro ⟨what, hw⟩
    unfold Buffer.read at hw
    simp only [hv, Bool.not_true, Bool.false_eq_true, if_false] at hw
    rw [if_neg hc] at hw
    revert hw
    cases (glMapBufferRange GL_ARRAY_BUFFER 0 b.m_size GL_MAP_READ_BIT
      (glBindBuffer GL_ARRAY_BUFFER b.m_handle d)).1 <;> simp

/-- Two calls of `Buffer::read` on the same buffer and device that both pass
the bounds test give the same result, whatever their sizes and offsets. -/
theorem Buffer.read_ignores_range (b : Buffer) (size size2 : Nat) (offset offset2 : Int)
    (d : Device) (h1 : ¬ b.read_out_of_bounds size offset)
    (h2 : ¬ b.read_out_of_bounds size2 offset2) :
    b.read size offset d = b.read size2 offset2 d := by
  unfold Buffer.read_out_of_bounds at h1 h2
  unfold Buffer.read
  rw [if_neg h1, if_neg h2]

/-- On the fake device, a call of `Buffer::read` that passes the bounds test on a
valid, unmapped, non-empty buffer returns the whole data store of the buffer,
whatever size and offset were asked for. -/
theorem Buffer.read_eq_store (b : Buffer) (size : Nat) (offset : Int) (d : Device)
    (o : BufferObject) (hv : b.valid = true) (ho : d.find b.m_handle = some o)
    (hlen : o.store.length = b.m_size) (hpos : 0 < b.m_size) (hmax : b.m_size ≤ PTRDIFF_MAX)
    (hm : o.mapped = false) (hin : ¬ b.read_out_of_bounds size offset) :
    (b.read size offset d).1 = .ok o.store := by
  unfold Buffer.read_out_of_bounds at hin
  unfold Buffer.read
  simp only [hv, Bool.not_true, Bool.false_eq_true, if_false]
  rw [if_neg hin, glBindBuffer_of_find d b.m_handle o ho]
  have hmap := glMapBufferRange_of_find
    { d.log (.glBindBuffer GL_ARRAY_BUFFER b.m_handle) with array_buffer := b.m_handle }
    b.m_size GL_MAP_READ_BIT o ho hpos hmax (by omega) hm
  simp only [hmap]
  rw [← hlen]
  simp

/-- On the fake device, writing `data` at offset 0 of a valid, unmapped,
non-empty buffer and reading `data.length` bytes back at offset 0 returns
`data` followed by the rest of the old contents of the buffer. -/
theorem Buffer.write_then_read (b : Buffer) (data : List Nat) (d : Device) (o : BufferObject)
    (hv : b.valid = true) (ho : d.find b.m_handle = some o)
    (hlen : o.store.length = b.m_size) (hmax : b.m_size ≤ PTRDIFF_MAX)
    (hm : o.mapped = false) (hpos : 0 < b.m_size) (hN : data.length ≤ b.m_size) :
    (b.read data.length 0 (b.write data data.length 0 d).2).1
      = .ok (data ++ o.store.drop data.length) := by
  have hname : o.name = b.m_handle := by
    unfold Device.find at ho
    simpa using List.find?_some ho
  have hw : (b.write data data.length 0 d).2
      = (d.log (.glNamedBufferSubData b.m_handle 0 data.length)).update
          { o with store := data ++ o.store.drop data.length } := by
    unfold Buffer.write
    simp only [hv, Bool.not_true, Bool.false_eq_true, if_false]
    unfold glNamedBufferSubData
    have hf : (d.log (.glNamedBufferSubData b.m_handle 0 data.length)).find b.m_handle
        = some o := ho
    simp only [hf]
    rw [if_neg (by simp; omega)]
    simp [hm, overwrite, host_bytes_of_length]
  rw [hw]
  have hfind := Device.find_update (d.log (.glNamedBufferSubData b.m_handle 0 data.length)) o
    { o with store := data ++ o.store.drop data.length } b.m_handle ho hname
  have hsum : (int_to_size_t 0 + data.length) % SIZE_MOD = data.length := by
    have : data.length < SIZE_MOD := by
      have : PTRDIFF_MAX < SIZE_MOD := by decide
      omega
    simp [int_to_size_t, Nat.mod_eq_of_lt this]
  exact Buffer.read_eq_store b data.length 0 _ _ hv hfind (by simp; omega) hpos hmax hm
    (by unfold Buffer.read_out_of_bounds; rw [hsum]; simp; omega)

/-- Claim C8. On a valid 4-byte buffer, `read(2^64 - 1, 1)` has
`offset + size = 2^64 > 4` as integers, and yet the call does not fail: the sum
wraps to 0, the buffer is bound, mapped and unmapped, and its four bytes are
returned. -/
theorem Buffer.read_bounds_check_wraps :
    example_stored.1.valid = true ∧ example_stored.1.size = 4 ∧
    (1 : Int) + ((18446744073709551615 : Nat) : Int) > 4 ∧
    18446744073709551615 < SIZE_MOD ∧
    (Buffer.read example_stored.1 18446744073709551615 1 example_stored.2).1
      = .ok [10, 20, 30, 40] ∧
    (Buffer.read example_stored.1 18446744073709551615 1 example_stored.2).2.trace
      = example_stored.2.trace ++
        [.glBindBuffer GL_ARRAY_BUFFER 1,
         .glMapBufferRange GL_ARRAY_BUFFER 0 4 GL_MAP_READ_BIT,
         .glUnmapBuffer GL_ARRAY_BUFFER] := by
  refine ⟨rfl, rfl, by decide, by decide, rfl, rfl⟩

/-- Claim C9. On a valid buffer holding the bytes 10, 20, 30, 40, the in-range
call `read(2, 1)` maps the buffer and returns all four bytes, not the two bytes
20, 30 of the requested range. -/
theorem Buffer.read_returns_whole_buffer :
    example_stored.1.valid = true ∧
    example_stored.2.find example_stored.1.m_handle = some ⟨1, [10, 20, 30, 40], false⟩ ∧
    ((0 : Int) ≤ 1 ∧ (1 : Int) + ((2 : Nat) : Int) ≤ ((example_stored.1.size : Nat) : Int)) ∧
    (Buffer.read example_stored.1 2 1 example_stored.2).1 = .ok [10, 20, 30, 40] ∧
    ([10, 20, 30, 40].drop 1).take 2 = [20, 30] := by
  refine ⟨rfl, rfl, by decide, rfl, rfl⟩

/-- Claim C10. On the fake device, a buffer reserved with 4 bytes, after
`write` of the two bytes 7, 9 at offset 0, answers `read(2, 0)` with the four
bytes 7, 9, 0, 0, not with the two bytes written. -/
theorem Buffer.write_then_read_two_of_four :
    Buffer.reserve 4 .STATIC Device.init = .ok example_reserved ∧
    example_reserved.1.size = 4 ∧
    (Buffer.write example_reserved.1 [7, 9] 2 0 example_reserved.2).1 = .ok () ∧
    (Buffer.read example_reserved.1 2 0
      (Buffer.write example_reserved.1 [7, 9] 2 0 example_reserved.2).2).1
      = .ok [7, 9, 0, 0] := by
  refine ⟨rfl, rfl, rfl, rfl⟩

/-! ## Buffers: moves -/

/-- Claim C11, as stated, fails: move-assigning the buffer `(3, 4, STATIC)` to a
destination that owns the live handle 7 leaves the source with handle 7, not
with the `INVALID` sentinel. -/
theorem Buffer.move_assign_counterexample :
    Buffer.valid ⟨7, 8, .DYNAMIC⟩ = true ∧
    (Buffer.move_assign ⟨7, 8, .DYNAMIC⟩ ⟨3, 4, .STATIC⟩).1 = ⟨3, 4, .STATIC⟩ ∧
    (Buffer.move_assign ⟨7, 8, .DYNAMIC⟩ ⟨3, 4, .STATIC⟩).2.m_handle = 7 ∧
    (Buffer.move_assign ⟨7, 8, .DYNAMIC⟩ ⟨3, 4, .STATIC⟩).2.m_handle ≠ INVALID := by
  decide

/-- Claim C11, amended. After the move constructor `D(std::move(S))`, `D` holds
the former handle, size and usage type of `S`, and `S` holds the `INVALID`
handle (with size 0 and type `STATIC`).  After the move assignment
`D = std::move(S)`, `D` holds the former handle, size and usage type of `S`,
and `S` holds the former handle, size and usage type of `D`: the handle of `S`
is `INVALID` exactly when the handle of `D` was. -/
theorem Buffer.move_transfers (S D : Buffer) :
    (Buffer.move S).1 = S ∧
    (Buffer.move S).2 = ⟨INVALID, 0, .STATIC⟩ ∧
    (Buffer.move_assign D S).1 = S ∧
    (Buffer.move_assign D S).2 = D ∧
    ((Buffer.move_assign D S).2.m_handle = INVALID ↔ D.m_handle = INVALID) := by
  refine ⟨rfl, rfl, rfl, rfl, Iff.rfl⟩

/-! ## Image formats -/

/-- Claim C17. For each of the nine predefined formats, `format(1)`, ...,
`format(4)` return the first, ..., fourth entry of the table of the format, the
four entries are pairwise distinct, and `format(c)` fails with an
invalid-argument error for every `c` outside `[1,4]`. -/
theorem ImageFormat.format_predefined (f : ImageFormat) (hf : f ∈ ImageFormat.predefined) :
    f.format 1 = .ok f.m_formats.e0 ∧
    f.format 2 = .ok f.m_formats.e1 ∧
    f.format 3 = .ok f.m_formats.e2 ∧
    f.format 4 = .ok f.m_formats.e3 ∧
    f.m_formats.distinct ∧
    ∀ c : Int, c < 1 ∨ 4 < c → ∃ what, f.format c = .error (.invalid_argument what) := by
  refine ⟨rfl, rfl, rfl, rfl, ?_, ?_⟩
  · simp only [ImageFormat.predefined, List.mem_cons, List.mem_singleton, List.not_mem_nil,
      or_false] at hf
    rcases hf with h | h | h | h | h | h | h | h | h <;> subst h <;> decide
  · intro c hc
    refine ⟨"Components must be 1, 2, 3 or 4", ?_⟩
    unfold ImageFormat.format
    rw [if_pos (by omega)]

theorem ImageFormat.format_predefined_witness :
    ImageFormat.u16 ∈ ImageFormat.predefined ∧
    (ImageFormat.u16.format 1 = .ok (GL_RED_INTEGER, GL_R16UI) ∧
     ImageFormat.u16.format 2 = .ok (GL_RG_INTEGER, GL_RG16UI) ∧
     ImageFormat.u16.format 3 = .ok (GL_RGB_INTEGER, GL_RGB16UI) ∧
     ImageFormat.u16.format 4 = .ok (GL_RGBA_INTEGER, GL_RGBA16UI) ∧
     ImageFormat.u16.m_formats.distinct ∧
     ∀ c : Int, c < 1 ∨ 4 < c →
      ∃ what, ImageFormat.u16.format c = .error (.invalid_argument what)) :=
  ⟨by decide, ImageFormat.format_predefined ImageFormat.u16 (by decide)⟩

/-! ## Framebuffers: lemmas on the loops of the constructor and of `clear` -/

/-- The last loop of the constructor keeps the length of the mask, leaves the
entries below its start index as they are, and sets the four entries of each
attachment from its component count. -/
theorem Framebuffer.fill_color_mask_spec (atts : List ColorAttachment) :
    ∀ (i : Nat) (mask : List Bool),
      (Framebuffer.fill_color_mask i atts mask).length = mask.length ∧
      (∀ j, j < i * 4 → (Framebuffer.fill_color_mask i atts mask)[j]? = mask[j]?) ∧
      (∀ a k, (ha : a < atts.length) → k < 4 → (i + a) * 4 + k < mask.length →
        (Framebuffer.fill_color_mask i atts mask)[(i + a) * 4 + k]?
          = some (decide (atts[a].components > k))) := by
  induction atts with
  | nil =>
    intro i mask
    refine ⟨rfl, fun _ _ => rfl, ?_⟩
    intro a k ha
    simp at ha
  | cons x xs ih =>
    intro i mask
    unfold Framebuffer.fill_color_mask
    simp only
    obtain ⟨h1, h2, h3⟩ := ih (i + 1)
      ((((mask.set (i * 4 + 0) (decide (x.components ≥ 1))).set (i * 4 + 1)
        (decide (x.components ≥ 2))).set (i * 4 + 2) (decide (x.components ≥ 3))).set (i * 4 + 3)
        (decide (x.components ≥ 4)))
    refine ⟨?_, ?_, ?_⟩
    · rw [h1]; simp
    · intro j hj
      rw [h2 j (by omega)]
      simp only [List.getElem?_set]
      rw [if_neg (by omega), if_neg (by omega), if_neg (by omega), if_neg (by omega)]
    · intro a k ha hk hlen
      cases a with
      | zero =>
        rw [h2 _ (by omega)]
        simp only [List.getElem?_set, List.length_set, Nat.add_zero]
        have hk4 : k = 0 ∨ k = 1 ∨ k = 2 ∨ k = 3 := by omega
        simp only [Nat.add_zero] at hlen
        rcases hk4 with rfl | rfl | rfl | rfl
        · simp [hlen]; omega
        · simp [hlen]; omega
        · simp [hlen]; omega
        · simp [hlen]; omega
      | succ a =>
        have := h3 a k (by simpa using ha) hk (by simp; omega)
        have e : (i + (a + 1)) * 4 + k = (i + 1 + a) * 4 + k := by ring
        rw [e, this]
        simp

/-- The test of a later color attachment against the locals is a test on its
dimensions. -/
theorem ColorAttachment.differs_iff (a : ColorAttachment) (width height samples : Int) :
    (a.width ≠ width ∨ a.height ≠ height ∨ a.samples ≠ samples)
      ↔ a.dimensions ≠ (width, height, samples) := by
  unfold ColorAttachment.dimensions
  simp only [ne_eq, Prod.mk.injEq]
  tauto

/-- The first loop of the constructor beyond index 0: it keeps the reference
when every attachment has the dimensions of the reference, and throws when one
has not. -/
theorem Framebuffer.check_color_attachments_succ (rest : List ColorAttachment) :
    ∀ (i : Nat) (reference : Int × Int × Int), i ≠ 0 →
      ((∀ a ∈ rest, a.dimensions = reference) →
        Framebuffer.check_color_attachments i rest reference = .ok reference) ∧
      ((∃ a ∈ rest, a.dimensions ≠ reference) →
        Framebuffer.check_color_attachments i rest reference
          = .error (.invalid_argument "The color_attachments have different sizes or samples")) := by
  induction rest with
  | nil =>
    intro i reference _
    refine ⟨fun _ => rfl, ?_⟩
    rintro ⟨a, ha, _⟩
    simp at ha
  | cons x xs ih =>
    intro i reference hi
    obtain ⟨width, height, samples⟩ := reference
    unfold Framebuffer.check_color_attachments
    rw [if_neg hi]
    by_cases hx : x.dimensions = (width, height, samples)
    · have hx2 : ¬ (x.width ≠ width ∨ x.height ≠ height ∨ x.samples ≠ samples) := by
        rw [ColorAttachment.differs_iff]; exact not_not.mpr hx
      rw [if_neg hx2]
      obtain ⟨ih1, ih2⟩ := ih (i + 1) (width, height, samples) (by omega)
      refine ⟨fun h => ih1 (fun a ha => h a (List.mem_cons_of_mem _ ha)), ?_⟩
      rintro ⟨a, ha, hne⟩
      rcases List.mem_cons.mp ha with rfl | ha
      · exact absurd hx hne
      · exact ih2 ⟨a, ha, hne⟩
    · have hx2 : x.width ≠ width ∨ x.height ≠ height ∨ x.samples ≠ samples := by
        rw [ColorAttachment.differs_iff]; exact hx
      rw [if_pos hx2]
      refine ⟨fun h => absurd (h x (List.mem_cons_self _ _)) hx, fun _ => rfl⟩

/-- The first loop of the constructor on a non-empty list: the reference is the
first attachment. -/
theorem Framebuffer.check_color_attachments_cons (first : ColorAttachment)
    (rest : List ColorAttachment) (reference : Int × Int × Int) :
    Framebuffer.check_color_attachments 0 (first :: rest) reference
      = Framebuffer.check_color_attachments 1 rest first.dimensions := by
  obtain ⟨width, height, samples⟩ := reference
  rw [Framebuffer.check_color_attachments]
  simp [ColorAttachment.dimensions]

/-- The outcome of the first loop of the constructor: the reference and the
agreement of every attachment with it, or the exception. -/
theorem Framebuffer.check_color_attachments_ok (color_attachments : List ColorAttachment)
    (reference result : Int × Int × Int)
    (h : Framebuffer.check_color_attachments 0 color_attachments reference = .ok result) :
    (color_attachments = [] ∧ result = reference) ∨
    (∃ first rest, color_attachments = first :: rest ∧ result = first.dimensions ∧
      ∀ a ∈ color_attachments, a.dimensions = result) := by
  cases color_attachments with
  | nil =>
    left
    refine ⟨rfl, ?_⟩
    unfold Framebuffer.check_color_attachments at h
    injection h with h
    exact h.symm
  | cons first rest =>
    right
    rw [Framebuffer.check_color_attachments_cons] at h
    obtain ⟨h1, h2⟩ := Framebuffer.check_color_attachments_succ rest 1 first.dimensions (by decide)
    by_cases hall : ∀ a ∈ rest, a.dimensions = first.dimensions
    · rw [h1 hall] at h
      injection h with h
      subst h
      refine ⟨first, rest, rfl, rfl, ?_⟩
      intro a ha
      rcases List.mem_cons.mp ha with rfl | ha
      · rfl
      · exact hall a ha
    · have hex : ∃ a ∈ rest, a.dimensions ≠ first.dimensions := by
        by_contra hcon
        exact hall (fun a ha => by_contra (fun hne => hcon ⟨a, ha, hne⟩))
      rw [h2 hex] at h
      cases h

/-- What a successful construction went through: both tests passed, and the
members are those computed from the locals. -/
theorem Framebuffer.new_ok (color_attachments : List ColorAttachment)
    (depth_attachment : DepthAttachment) (d d2 : Device) (fb : Framebuffer)
    (h : Framebuffer.new color_attachments depth_attachment d = (.ok fb, d2)) :
    ¬ (color_attachments.isEmpty = true ∧ depth_attachment = .monostate) ∧
    ∃ reference width height samples,
      Framebuffer.check_color_attachments 0 color_attachments (0, 0, 0) = .ok reference ∧
      Framebuffer.check_depth_attachment color_attachments depth_attachment reference
        = .ok (width, height, samples) ∧
      fb = ⟨(glCreateFramebuffers d).1, color_attachments, depth_attachment, width, height,
        samples, ⟨0, 0, width, height⟩, none, Framebuffer.draw_buffers color_attachments.length,
        Framebuffer.fill_color_mask 0 color_attachments
          (List.replicate (color_attachments.length * 4 + 1) false)⟩ := by
  unfold Framebuffer.new at h
  split at h
  · simp at h
  · rename_i hne
    refine ⟨hne, ?_⟩
    split at h
    · simp at h
    · rename_i reference href
      split at h
      · simp at h
      · rename_i width height samples hdepth
        refine ⟨reference, width, height, samples, href, hdepth, ?_⟩
        simp only at h
        split_ifs at h
        all_goals first
          | (exact (Except.ok.inj (Prod.mk.inj h).1).symm)
          | (exact absurd (Prod.mk.inj h).1 (by simp))

/-- The outcome of the test of the depth attachment. -/
theorem Framebuffer.check_depth_attachment_ok (color_attachments : List ColorAttachment)
    (depth_attachment : DepthAttachment) (reference result : Int × Int × Int)
    (h : Framebuffer.check_depth_attachment color_attachments depth_attachment reference
      = .ok result) :
    (depth_attachment = .monostate ∧ result = reference) ∨
    (color_attachments = [] ∧ depth_attachment.dimensions = some result) ∨
    (color_attachments ≠ [] ∧ result = reference ∧
      depth_attachment.dimensions = some reference) := by
  unfold Framebuffer.check_depth_attachment at h
  cases depth_attachment with
  | monostate =>
    left
    exact ⟨rfl, (Except.ok.inj h).symm⟩
  | texture t =>
    right
    simp only at h
    cases color_attachments with
    | nil =>
      left
      simp only [List.isEmpty_nil, if_true] at h
      exact ⟨rfl, congrArg some (Except.ok.inj h)⟩
    | cons x xs =>
      right
      simp only [List.isEmpty_cons, Bool.false_eq_true, if_false] at h
      split_ifs at h with hc
      have hr := (Except.ok.inj h).symm
      refine ⟨by simp, hr, ?_⟩
      simp only [DepthAttachment.dimensions]
      obtain ⟨w, hh, s⟩ := reference
      simp only [ne_eq, not_or, not_not] at hc
      simp [hc.1, hc.2.1, hc.2.2]
  | renderbuffer r =>
    right
    simp only at h
    cases color_attachments with
    | nil =>
      left
      simp only [List.isEmpty_nil, if_true] at h
      exact ⟨rfl, congrArg some (Except.ok.inj h)⟩
    | cons x xs =>
      right
      simp only [List.isEmpty_cons, Bool.false_eq_true, if_false] at h
      split_ifs at h with hc
      have hr := (Except.ok.inj h).symm
      refine ⟨by simp, hr, ?_⟩
      simp only [DepthAttachment.dimensions]
      obtain ⟨w, hh, s⟩ := reference
      simp only [ne_eq, not_or, not_not] at hc
      simp [hc.1, hc.2.1, hc.2.2]

/-- The test of the depth attachment throws when there is a color attachment and
the depth attachment has other dimensions than the reference. -/
theorem Framebuffer.check_depth_attachment_error (color_attachments : List ColorAttachment)
    (depth_attachment : DepthAttachment) (reference dims : Int × Int × Int)
    (hne : color_attachments ≠ []) (hd : depth_attachment.dimensions = some dims)
    (hdiff : dims ≠ reference) :
    Framebuffer.check_depth_attachment color_attachments depth_attachment reference
      = .error (.invalid_argument "The depth_attachments have different sizes or samples") := by
  have hemp : color_attachments.isEmpty = false := by
    cases color_attachments with
    | nil => exact absurd rfl hne
    | cons x xs => rfl
  obtain ⟨w, hh, s⟩ := reference
  unfold Framebuffer.check_depth_attachment
  cases depth_attachment with
  | monostate => simp [DepthAttachment.dimensions] at hd
  | texture t =>
    simp only [DepthAttachment.dimensions, Option.some.injEq] at hd
    subst hd
    simp only [hemp, Bool.false_eq_true, if_false]
    rw [if_pos]
    simp only [ne_eq, Prod.mk.injEq] at hdiff
    tauto
  | renderbuffer r =>
    simp only [DepthAttachment.dimensions, Option.some.injEq] at hd
    subst hd
    simp only [hemp, Bool.false_eq_true, if_false]
    rw [if_pos]
    simp only [ne_eq, Prod.mk.injEq] at hdiff
    tauto

/-- The loop of `glColorMaski` calls succeeds when the mask holds four entries
for each draw buffer, and only appends calls to the trace. -/
theorem Framebuffer.apply_color_mask_some (m_color_mask : List Bool) :
    ∀ (count i : Nat) (d : Device), (i + count) * 4 ≤ m_color_mask.length →
      ∃ calls, Framebuffer.apply_color_mask m_color_mask count i d
        = some { d with trace := d.trace ++ calls } := by
  intro count
  induction count with
  | zero =>
    intro i d _
    exact ⟨[], by simp [Framebuffer.apply_color_mask]⟩
  | succ n ih =>
    intro i d hlen
    unfold Framebuffer.apply_color_mask
    have h0 : i * 4 + 0 < m_color_mask.length := by omega
    have h1 : i * 4 + 1 < m_color_mask.length := by omega
    have h2 : i * 4 + 2 < m_color_mask.length := by omega
    have h3 : i * 4 + 3 < m_color_mask.length := by omega
    simp only [List.get?_eq_getElem?, List.getElem?_eq_getElem h0, List.getElem?_eq_getElem h1,
      List.getElem?_eq_getElem h2, List.getElem?_eq_getElem h3]
    obtain ⟨calls, hc⟩ := ih (i + 1)
      (d.log (.glColorMaski i m_color_mask[i * 4 + 0] m_color_mask[i * 4 + 1]
        m_color_mask[i * 4 + 2] m_color_mask[i * 4 + 3])) (by omega)
    refine ⟨GLCall.glColorMaski i m_color_mask[i * 4 + 0] m_color_mask[i * 4 + 1]
      m_color_mask[i * 4 + 2] m_color_mask[i * 4 + 3] :: calls, ?_⟩
    rw [hc]
    simp [Device.log]

/-- The second loop of the constructor does not change the status the device
reports. -/
theorem Framebuffer.attach_colors_status (m_handle : Handle)
    (color_attachments : List ColorAttachment) :
    ∀ (i : Nat) (d : Device),
      (Framebuffer.attach_colors m_handle i color_attachments d).framebuffer_status
        = d.framebuffer_status := by
  induction color_attachments with
  | nil => intro i d; rfl
  | cons x xs ih =>
    intro i d
    cases x with
    | texture t =>
      unfold Framebuffer.attach_colors
      rw [ih]
      rfl
    | renderbuffer r =>
      unfold Framebuffer.attach_colors
      rw [ih]
      rfl

/-- The binding of the depth attachment does not change the status the device
reports. -/
theorem Framebuffer.attach_depth_status (m_handle : Handle) (depth_attachment : DepthAttachment)
    (d : Device) :
    (Framebuffer.attach_depth m_handle depth_attachment d).framebuffer_status
      = d.framebuffer_status := by
  cases depth_attachment <;> rfl

/-- Construction returns a framebuffer for every attachment set that is not
empty and has no mismatch, on a device that reports the framebuffer complete. -/
theorem Framebuffer.new_succeeds (color_attachments : List ColorAttachment)
    (depth_attachment : DepthAttachment) (d : Device)
    (hne : color_attachments ≠ [] ∨ depth_attachment ≠ .monostate)
    (hm : ¬ Framebuffer.mismatch color_attachments depth_attachment)
    (hs : d.framebuffer_status = GL_FRAMEBUFFER_COMPLETE) :
    ∃ fb d2, Framebuffer.new color_attachments depth_attachment d = (.ok fb, d2) := by
  have hstatus : ∀ h : Handle, ∀ d1 : Device, d1.framebuffer_status = d.framebuffer_status →
      (glCheckNamedFramebufferStatus h GL_FRAMEBUFFER
        (Framebuffer.attach_depth h depth_attachment
          (Framebuffer.attach_colors h 0 color_attachments d1))).1 = GL_FRAMEBUFFER_COMPLETE := by
    intro h d1 hd1
    show (Framebuffer.attach_depth h depth_attachment
      (Framebuffer.attach_colors h 0 color_attachments d1)).framebuffer_status = _
    rw [Framebuffer.attach_depth_status, Framebuffer.attach_colors_status, hd1, hs]
  have hchecks : ∃ reference dims,
      Framebuffer.check_color_attachments 0 color_attachments (0, 0, 0) = .ok reference ∧
      Framebuffer.check_depth_attachment color_attachments depth_attachment reference
        = .ok dims := by
    cases color_attachments with
    | nil =>
      refine ⟨(0, 0, 0), ?_⟩
      cases depth_attachment with
      | monostate => exact ⟨_, rfl, rfl⟩
      | texture t => exact ⟨_, rfl, rfl⟩
      | renderbuffer r => exact ⟨_, rfl, rfl⟩
    | cons first rest =>
      have hall : ∀ a ∈ rest, a.dimensions = first.dimensions := by
        intro a ha
        by_contra hne2
        exact hm ⟨first, rest, rfl, Or.inl ⟨a, ha, hne2⟩⟩
      have hdepth : ∀ dims, depth_attachment.dimensions = some dims →
          dims = first.dimensions := by
        intro dims hd
        by_contra hne2
        exact hm ⟨first, rest, rfl, Or.inr ⟨dims, hd, hne2⟩⟩
      refine ⟨first.dimensions, first.dimensions, ?_, ?_⟩
      · rw [Framebuffer.check_color_attachments_cons]
        exact (Framebuffer.check_color_attachments_succ rest 1 first.dimensions
          (by decide)).1 hall
      · unfold Framebuffer.check_depth_attachment
        cases depth_attachment with
        | monostate => rfl
        | texture t =>
          have := hdepth _ rfl
          simp only [ColorAttachment.dimensions, Prod.mk.injEq] at this
          simp [ColorAttachment.dimensions, this.1, this.2.1, this.2.2]
        | renderbuffer r =>
          have := hdepth _ rfl
          simp only [ColorAttachment.dimensions, Prod.mk.injEq] at this
          simp [ColorAttachment.dimensions, this.1, this.2.1, this.2.2]
  obtain ⟨reference, ⟨width, height, samples⟩, href, hdepth⟩ := hchecks
  unfold Framebuffer.new
  rw [if_neg, href]
  · simp only
    rw [hdepth]
    simp only
    split_ifs with h1 h2 h2
    · exact absurd (hstatus _ ((glCreateFramebuffers d).2.log
        (.glNamedFramebufferDrawBuffer (glCreateFramebuffers d).1 GL_NONE)) rfl) h2
    · exact ⟨_, _, rfl⟩
    · exact absurd (hstatus _ (glCreateFramebuffers d).2 rfl) h2
    · exact ⟨_, _, rfl⟩
  · rintro ⟨h1, h2⟩
    rcases hne with h | h
    · cases color_attachments with
      | nil => exact h rfl
      | cons x xs => simp at h1
    · exact h h2

/-! ## Framebuffers: construction -/

/-- Claim C12. Construction with an empty list of color attachments and no
depth attachment throws `std::invalid_argument` and leaves the device as it
was: no entry point is called. -/
theorem Framebuffer.new_empty_fails (d : Device) :
    Framebuffer.new [] .monostate d
      = (.error (.invalid_argument "The framebuffer cannot be empty"), d) := by
  rfl

/-- Claim C13. When a color attachment after the first one, or the depth
attachment in the presence of a color attachment, differs from the first color
attachment in width, height or sample count, construction throws
`std::invalid_argument` and leaves the device as it was: `glCreateFramebuffers`
has not been called. -/
theorem Framebuffer.new_mismatch_fails (color_attachments : List ColorAttachment)
    (depth_attachment : DepthAttachment) (d : Device)
    (h : Framebuffer.mismatch color_attachments depth_attachment) :
    ∃ what, Framebuffer.new color_attachments depth_attachment d
      = (.error (.invalid_argument what), d) := by
  obtain ⟨first, rest, rfl, h⟩ := h
  unfold Framebuffer.new
  rw [if_neg (by simp), Framebuffer.check_color_attachments_cons]
  obtain ⟨h1, h2⟩ := Framebuffer.check_color_attachments_succ rest 1 first.dimensions (by decide)
  by_cases hex : ∃ a ∈ rest, a.dimensions ≠ first.dimensions
  · rw [h2 hex]
    exact ⟨_, rfl⟩
  · have hall : ∀ a ∈ rest, a.dimensions = first.dimensions :=
      fun a ha => by_contra (fun hne => hex ⟨a, ha, hne⟩)
    rw [h1 hall]
    rcases h with h | ⟨dims, hd, hdiff⟩
    · exact absurd h hex
    · simp only
      rw [Framebuffer.check_depth_attachment_error (first :: rest) depth_attachment
        first.dimensions dims (by simp) hd hdiff]
      exact ⟨_, rfl⟩

theorem Framebuffer.new_mismatch_fails_witness :
    Framebuffer.mismatch [.texture example_texture, .renderbuffer example_wide_renderbuffer]
      .monostate ∧
    ∃ what, Framebuffer.new [.texture example_texture, .renderbuffer example_wide_renderbuffer]
      .monostate Device.init = (.error (.invalid_argument what), Device.init) :=
  ⟨⟨_, _, rfl, Or.inl ⟨_, List.mem_singleton.mpr rfl, by decide⟩⟩,
    Framebuffer.new_mismatch_fails _ _ Device.init
      ⟨_, _, rfl, Or.inl ⟨_, List.mem_singleton.mpr rfl, by decide⟩⟩⟩

/-- Claim C14. A successfully constructed framebuffer keeps the attachments it
was given; its width, height and sample count are those of the first color
attachment when there is one, and those of the depth attachment otherwise; and
every color attachment and the depth attachment have exactly that width, height
and sample count. -/
theorem Framebuffer.new_dimensions (color_attachments : List ColorAttachment)
    (depth_attachment : DepthAttachment) (d d2 : Device) (fb : Framebuffer)
    (h : Framebuffer.new color_attachments depth_attachment d = (.ok fb, d2)) :
    fb.m_color_attachments = color_attachments ∧
    fb.m_depth_attachment = depth_attachment ∧
    (∀ first rest, color_attachments = first :: rest →
      fb.width = first.width ∧ fb.height = first.height ∧ fb.samples = first.samples) ∧
    (color_attachments = [] →
      depth_attachment.dimensions = some (fb.width, fb.height, fb.samples)) ∧
    (∀ a ∈ fb.m_color_attachments,
      a.width = fb.width ∧ a.height = fb.height ∧ a.samples = fb.samples) ∧
    (∀ dims, fb.m_depth_attachment.dimensions = some dims →
      dims = (fb.width, fb.height, fb.samples)) := by
  obtain ⟨hne, reference, width, height, samples, href, hdepth, rfl⟩ :=
    Framebuffer.new_ok color_attachments depth_attachment d d2 fb h
  refine ⟨rfl, rfl, ?_⟩
  simp only [Framebuffer.width, Framebuffer.height, Framebuffer.samples]
  rcases Framebuffer.check_color_attachments_ok color_attachments (0, 0, 0) reference href with
    ⟨hnil, _⟩ | ⟨first, rest, hcons, hfirst, hall⟩
  · subst hnil
    have hmono : depth_attachment ≠ .monostate := fun hm => hne ⟨rfl, hm⟩
    rcases Framebuffer.check_depth_attachment_ok [] depth_attachment reference
      (width, height, samples) hdepth with ⟨hm, _⟩ | ⟨_, hd⟩ | ⟨hcon, _⟩
    · exact absurd hm hmono
    · refine ⟨?_, fun _ => hd, ?_, ?_⟩
      · intro first rest hc
        cases hc
      · intro a ha
        simp at ha
      · intro dims hdims
        rw [hd] at hdims
        exact (Option.some.inj hdims).symm
    · exact absurd rfl hcon
  · subst hcons
    have hres : (width, height, samples) = reference ∧
        ∀ dims, depth_attachment.dimensions = some dims → dims = reference := by
      rcases Framebuffer.check_depth_attachment_ok (first :: rest) depth_attachment reference
        (width, height, samples) hdepth with ⟨hm, hr⟩ | ⟨hcon, _⟩ | ⟨_, hr, hd⟩
      · refine ⟨hr, ?_⟩
        intro dims hdims
        rw [hm] at hdims
        simp [DepthAttachment.dimensions] at hdims
      · cases hcon
      · refine ⟨hr, ?_⟩
        intro dims hdims
        rw [hd] at hdims
        exact (Option.some.inj hdims).symm
    obtain ⟨hr, hd⟩ := hres
    have hdim : ∀ a ∈ first :: rest,
        a.width = width ∧ a.height = height ∧ a.samples = samples := by
      intro a ha
      have := hall a ha
      rw [← hr] at this
      simp only [ColorAttachment.dimensions, Prod.mk.injEq] at this
      exact this
    refine ⟨?_, ?_, hdim, ?_⟩
    · intro first2 rest2 hc
      injection hc with hc1 hc2
      subst hc1
      have := hdim first (List.mem_cons_self _ _)
      exact ⟨this.1.symm, this.2.1.symm, this.2.2.symm⟩
    · intro hc
      cases hc
    · intro dims hdims
      rw [hr]
      exact hd dims hdims

theorem Framebuffer.new_dimensions_witness :
    Framebuffer.new [.texture example_texture, .renderbuffer example_renderbuffer]
      (.texture example_depth_texture) Device.init
      = (.ok example_framebuffer, example_framebuffer_device) ∧
    (example_framebuffer.width = (ColorAttachment.texture example_texture).width ∧
     example_framebuffer.height = (ColorAttachment.texture example_texture).height ∧
     example_framebuffer.samples = (ColorAttachment.texture example_texture).samples) :=
  ⟨rfl, (Framebuffer.new_dimensions [.texture example_texture, .renderbuffer example_renderbuffer]
    (.texture example_depth_texture) Device.init example_framebuffer_device example_framebuffer
    rfl).2.2.1 _ _ rfl⟩

/-- Claim C15. In a successfully constructed framebuffer, for every color
attachment index `a` and channel `i < 4`, the entry `4a + i` of the cached color
write mask is true exactly when the component count of attachment `a` is
greater than `i`; and the cached viewport is `(0, 0, width, height)`. -/
theorem Framebuffer.new_color_mask_viewport (color_attachments : List ColorAttachment)
    (depth_attachment : DepthAttachment) (d d2 : Device) (fb : Framebuffer)
    (h : Framebuffer.new color_attachments depth_attachment d = (.ok fb, d2)) :
    (∀ (a i : Nat) (ha : a < color_attachments.length), i < 4 →
      fb.m_color_mask[4 * a + i]? = some (decide (color_attachments[a].components > i))) ∧
    fb.viewport = ⟨0, 0, fb.width, fb.height⟩ := by
  obtain ⟨_, reference, width, height, samples, _, _, rfl⟩ :=
    Framebuffer.new_ok color_attachments depth_attachment d d2 fb h
  refine ⟨?_, rfl⟩
  intro a i ha hi
  obtain ⟨_, _, h3⟩ := Framebuffer.fill_color_mask_spec color_attachments 0
    (List.replicate (color_attachments.length * 4 + 1) false)
  have := h3 a i ha hi (by simp; omega)
  have e : 4 * a + i = (0 + a) * 4 + i := by ring
  simp only
  rw [e]
  exact_mod_cast this

theorem Framebuffer.new_color_mask_viewport_witness :
    Framebuffer.new [.texture example_texture, .renderbuffer example_renderbuffer]
      (.texture example_depth_texture) Device.init
      = (.ok example_framebuffer, example_framebuffer_device) ∧
    example_framebuffer.m_color_mask[4 * 1 + 1]? = some true ∧
    example_framebuffer.viewport = ⟨0, 0, 4, 4⟩ :=
  ⟨rfl,
    (Framebuffer.new_color_mask_viewport
      [.texture example_texture, .renderbuffer example_renderbuffer]
      (.texture example_depth_texture) Device.init example_framebuffer_device example_framebuffer
      rfl).1 1 1 (by decide) (by decide),
    (Framebuffer.new_color_mask_viewport
      [.texture example_texture, .renderbuffer example_renderbuffer]
      (.texture example_depth_texture) Device.init example_framebuffer_device example_framebuffer
      rfl).2⟩

/-! ## Framebuffers: `clear` -/

/-- Claim C16. For a constructed, valid framebuffer whose persistent scissor has
been set to `persistent` (and whose viewport may have been changed), and every
explicit clear rectangle `V`, `clear(color, depth, V)` returns; the stored
scissor is not touched; when the persistent scissor is a rectangle `R`, the
scissor test of the device is enabled afterwards and the scissor box of the
device is `R`; when no persistent scissor is set, the scissor test is disabled
afterwards. -/
theorem Framebuffer.clear_restores_scissor (color_attachments : List ColorAttachment)
    (depth_attachment : DepthAttachment) (d0 d1 : Device) (fb0 : Framebuffer)
    (persistent : Option ivec4) (viewport V : ivec4) (color : vec4) (depth : GLfloat)
    (d : Device)
    (h : Framebuffer.new color_attachments depth_attachment d0 = (.ok fb0, d1))
    (hv : fb0.valid = true) :
    (Framebuffer.clear { fb0 with m_scissor := persistent, m_viewport := viewport }
      color depth (some V) d).1 = .ok () ∧
    Framebuffer.scissor { fb0 with m_scissor := persistent, m_viewport := viewport }
      = persistent ∧
    (∀ R, persistent = some R →
      (Framebuffer.clear { fb0 with m_scissor := persistent, m_viewport := viewport }
        color depth (some V) d).2.scissor_test = true ∧
      (Framebuffer.clear { fb0 with m_scissor := persistent, m_viewport := viewport }
        color depth (some V) d).2.scissor_box = R) ∧
    (persistent = none →
      (Framebuffer.clear { fb0 with m_scissor := persistent, m_viewport := viewport }
        color depth (some V) d).2.scissor_test = false) := by
  obtain ⟨_, reference, width, height, samples, _, _, rfl⟩ :=
    Framebuffer.new_ok color_attachments depth_attachment d0 d1 fb0 h
  have hvalid : Framebuffer.valid
      { m_handle := (glCreateFramebuffers d0).1, m_color_attachments := color_attachments,
        m_depth_attachment := depth_attachment, m_width := width, m_height := height,
        m_samples := samples, m_viewport := viewport, m_scissor := persistent,
        m_draw_buffers := Framebuffer.draw_buffers color_attachments.length,
        m_color_mask := Framebuffer.fill_color_mask 0 color_attachments
          (List.replicate (color_attachments.length * 4 + 1) false) } = true := hv
  obtain ⟨hlen, _, _⟩ := Framebuffer.fill_color_mask_spec color_attachments 0
    (List.replicate (color_attachments.length * 4 + 1) false)
  have hdraw : (Framebuffer.draw_buffers color_attachments.length).length
      = color_attachments.length := by
    simp [Framebuffer.draw_buffers]
  refine ⟨?_, rfl, ?_, ?_⟩
  all_goals
    unfold Framebuffer.clear
    simp only [hvalid, Bool.not_true, Bool.false_eq_true, if_false, hdraw]
  · obtain ⟨calls, hc⟩ := Framebuffer.apply_color_mask_some
      (Framebuffer.fill_color_mask 0 color_attachments
        (List.replicate (color_attachments.length * 4 + 1) false))
      color_attachments.length 0
      ((((d.log (.glBindFramebuffer GL_FRAMEBUFFER (glCreateFramebuffers d0).1)).log
        (.glDrawBuffers color_attachments.length
          (Framebuffer.draw_buffers color_attachments.length))).log
        (.glClearColor color.x color.y color.z color.w)).log (.glClearDepth depth))
      (by rw [hlen]; simp)
    rw [hc]
  · intro R hR
    subst hR
    obtain ⟨calls, hc⟩ := Framebuffer.apply_color_mask_some
      (Framebuffer.fill_color_mask 0 color_attachments
        (List.replicate (color_attachments.length * 4 + 1) false))
      color_attachments.length 0
      ((((d.log (.glBindFramebuffer GL_FRAMEBUFFER (glCreateFramebuffers d0).1)).log
        (.glDrawBuffers color_attachments.length
          (Framebuffer.draw_buffers color_attachments.length))).log
        (.glClearColor color.x color.y color.z color.w)).log (.glClearDepth depth))
      (by rw [hlen]; simp)
    rw [hc]
    simp [glEnable, glScissor, Device.log]
  · intro hnone
    subst hnone
    obtain ⟨calls, hc⟩ := Framebuffer.apply_color_mask_some
      (Framebuffer.fill_color_mask 0 color_attachments
        (List.replicate (color_attachments.length * 4 + 1) false))
      color_attachments.length 0
      ((((d.log (.glBindFramebuffer GL_FRAMEBUFFER (glCreateFramebuffers d0).1)).log
        (.glDrawBuffers color_attachments.length
          (Framebuffer.draw_buffers color_attachments.length))).log
        (.glClearColor color.x color.y color.z color.w)).log (.glClearDepth depth))
      (by rw [hlen]; simp)
    rw [hc]
    simp [glEnable, glScissor, glDisable, Device.log]

theorem Framebuffer.clear_restores_scissor_witness :
    Framebuffer.new [.texture example_texture, .renderbuffer example_renderbuffer]
      (.texture example_depth_texture) Device.init
      = (.ok example_framebuffer, example_framebuffer_device) ∧
    example_framebuffer.valid = true ∧
    (Framebuffer.clear example_scissored_framebuffer ⟨0, 0, 0, 0⟩ 0 (some ⟨0, 0, 2, 2⟩)
      example_framebuffer_device).2.scissor_box = ⟨1, 2, 3, 4⟩ :=
  ⟨rfl, rfl,
    ((Framebuffer.clear_restores_scissor
      [.texture example_texture, .renderbuffer example_renderbuffer]
      (.texture example_depth_texture) Device.init example_framebuffer_device example_framebuffer
      (some ⟨1, 2, 3, 4⟩) ⟨0, 0, 4, 4⟩ ⟨0, 0, 2, 2⟩ ⟨0, 0, 0, 0⟩ 0 example_framebuffer_device
      rfl rfl).2.2.1 ⟨1, 2, 3, 4⟩ rfl).2⟩

/-! ## Image resources: validation of the arguments -/

/-- A positive natural number has no bit in common with its predecessor exactly
when it is a power of two. -/
theorem land_pred_eq_zero_iff (n : Nat) (hn : 0 < n) :
    n &&& (n - 1) = 0 ↔ ∃ k : Nat, n = 2 ^ k := by
  constructor
  · induction n using Nat.strong_induction_on with
    | _ n ih =>
      intro h
      have hdiv : n / 2 &&& (n - 1) / 2 = 0 := by
        rw [← Nat.and_div_two, h]
      rcases Nat.mod_two_eq_zero_or_one n with hpar | hpar
      · have hm : 0 < n / 2 := by omega
        have e : (n - 1) / 2 = n / 2 - 1 := by omega
        rw [e] at hdiv
        obtain ⟨k, hk⟩ := ih (n / 2) (by omega) hm hdiv
        refine ⟨k + 1, ?_⟩
        rw [pow_succ, ← hk]
        omega
      · have e : (n - 1) / 2 = n / 2 := by omega
        rw [e, Nat.and_self] at hdiv
        exact ⟨0, by omega⟩
  · rintro ⟨k, rfl⟩
    rw [Nat.and_pow_two_sub_one_eq_mod]
    exact Nat.mod_self _

/-- The conjunction `0 & (0 - 1)` is zero. -/
theorem land_zero_minus_one : Int.land 0 (0 - 1) = 0 := by
  show ((Nat.ldiff 0 0 : Nat) : Int) = 0
  have : Nat.ldiff 0 0 = 0 := by
    apply Nat.zero_of_testBit_eq_false
    intro i
    simp [Nat.testBit_ldiff]
  rw [this]
  rfl

/-- The test `samples & (samples - 1)` of the constructors, for every `int`
above the smallest one: the difference is defined, and the conjunction is zero
exactly when `samples` is zero or a power of two. -/
theorem samples_test_iff (samples : Int) (hmin : INT_MIN < samples) (hmax : samples ≤ INT_MAX) :
    int_sub samples 1 = some (samples - 1) ∧
    (Int.land samples (samples - 1) = 0 ↔ (samples = 0 ∨ ∃ k : Nat, samples = 2 ^ k)) := by
  have hmin2 : (-(2 ^ 31) : Int) < samples := hmin
  have hmax2 : samples ≤ (2 ^ 31 - 1 : Int) := hmax
  constructor
  · unfold int_sub
    rw [if_pos]
    unfold INT_MIN INT_MAX
    constructor <;> omega
  · cases samples with
    | ofNat n =>
      cases n with
      | zero =>
        constructor
        · intro _; left; rfl
        · intro _; exact land_zero_minus_one
      | succ m =>
        have e : (Int.ofNat (m + 1) - 1 : Int) = Int.ofNat m := by
          simp only [Int.ofNat_eq_coe]; omega
        rw [e]
        show ((((m + 1) &&& m : Nat) : Int) = 0) ↔ _
        have key := land_pred_eq_zero_iff (m + 1) (by omega)
        simp only [Nat.add_sub_cancel] at key
        constructor
        · intro h
          obtain ⟨k, hk⟩ := key.mp (by exact_mod_cast h)
          right
          refine ⟨k, ?_⟩
          simp only [Int.ofNat_eq_coe]
          exact_mod_cast hk
        · rintro (h | ⟨k, hk⟩)
          · simp only [Int.ofNat_eq_coe] at h; omega
          · have : m + 1 = 2 ^ k := by
              simp only [Int.ofNat_eq_coe] at hk
              exact_mod_cast hk
            exact_mod_cast key.mpr ⟨k, this⟩
    | negSucc m =>
      have e : (Int.negSucc m - 1 : Int) = Int.negSucc (m + 1) := by
        simp only [Int.negSucc_eq]; omega
      rw [e]
      constructor
      · intro h
        exact absurd h (by simp [Int.land])
      · rintro (h | ⟨k, hk⟩)
        · exact absurd h (by simp)
        · have hpos : (0 : Int) < 2 ^ k := by positivity
          rw [← hk] at hpos
          exact absurd hpos (by simp [Int.negSucc_eq]; omega)

/-- Claim C18. With a component count outside `[1,4]`, every constructor of an
image resource (`Texture`, private and public, `Renderbuffer`, `Texture3D`,
`TextureArray`, `TextureCube`, and the static `Renderbuffer::depth`) throws
`std::invalid_argument` whatever the other arguments are, and leaves the device
as it was: no entry point is called. -/
theorem Texture.new_components_out_of_range (components : Int)
    (width height depth layers samples alignment : Int) (is_depth : Bool) (dtype : ImageFormat)
    (data : Pointer) (pointers : List Pointer) (host : vector) (d : Device)
    (hc : components < 1 ∨ 4 < components) :
    Texture.new width height components is_depth dtype data samples alignment d
      = (.error (.invalid_argument "Components must be 1, 2, 3 or 4"), d) ∧
    Texture.new_empty width height components dtype alignment d
      = (.error (.invalid_argument "Components must be 1, 2, 3 or 4"), d) ∧
    Texture.new_vector width height components dtype host samples alignment d
      = (.error (.invalid_argument "Components must be 1, 2, 3 or 4"), d) ∧
    Texture.new_pointer width height components dtype data samples alignment d
      = (.error (.invalid_argument "Components must be 1, 2, 3 or 4"), d) ∧
    Renderbuffer.new width height components is_depth dtype samples d
      = (.error (.invalid_argument "Components must be 1, 2, 3 or 4"), d) ∧
    Renderbuffer.new_color width height components dtype samples d
      = (.error (.invalid_argument "Components must be 1, 2, 3 or 4"), d) ∧
    Renderbuffer.depth width height components samples d
      = (.error (.invalid_argument "Components must be 1, 2, 3 or 4"), d) ∧
    Texture3D.new width height depth components dtype data alignment d
      = (.error (.invalid_argument "Components must be 1, 2, 3 or 4"), d) ∧
    TextureArray.new width height layers components dtype pointers alignment d
      = (.error (.invalid_argument "Components must be 1, 2, 3 or 4"), d) ∧
    TextureArray.new_pointer width height layers components dtype data alignment d
      = (.error (.invalid_argument "Components must be 1, 2, 3 or 4"), d) ∧
    TextureCube.new width height components dtype pointers alignment d
      = (.error (.invalid_argument "Components must be 1, 2, 3 or 4"), d) := by
  have hc2 : components < 1 ∨ components > 4 := hc
  have texture : ∀ (is_depth : Bool) (data : Pointer) (samples alignment : Int),
      Texture.new width height components is_depth dtype data samples alignment d
        = (.error (.invalid_argument "Components must be 1, 2, 3 or 4"), d) := by
    intro is_depth data samples alignment
    unfold Texture.new
    rw [if_pos hc2]
  have renderbuffer : ∀ (is_depth : Bool) (dtype : ImageFormat),
      Renderbuffer.new width height components is_depth dtype samples d
        = (.error (.invalid_argument "Components must be 1, 2, 3 or 4"), d) := by
    intro is_depth dtype
    unfold Renderbuffer.new
    rw [if_pos hc2]
  have array : ∀ pointers : List Pointer,
      TextureArray.new width height layers components dtype pointers alignment d
        = (.error (.invalid_argument "Components must be 1, 2, 3 or 4"), d) := by
    intro pointers
    unfold TextureArray.new
    rw [if_pos hc2]
  refine ⟨texture _ _ _ _, texture _ _ _ _, texture _ _ _ _, texture _ _ _ _,
    renderbuffer _ _, renderbuffer _ _, renderbuffer _ _, ?_, array _, array _, ?_⟩
  · unfold Texture3D.new
    rw [if_pos hc2]
  · unfold TextureCube.new
    rw [if_pos hc2]

theorem Texture.new_components_out_of_range_witness :
    ((5 : Int) < 1 ∨ (4 : Int) < 5) ∧
    Texture.new_empty 2 2 5 ImageFormat.u8 1 Device.init
      = (.error (.invalid_argument "Components must be 1, 2, 3 or 4"), Device.init) ∧
    TextureCube.new 2 2 5 ImageFormat.u8 [none, none, none, none, none, none] 1 Device.init
      = (.error (.invalid_argument "Components must be 1, 2, 3 or 4"), Device.init) :=
  ⟨by decide,
    (Texture.new_components_out_of_range 5 2 2 1 1 0 1 false ImageFormat.u8 none
      [none, none, none, none, none, none] ⟨0, []⟩ Device.init (by decide)).2.1,
    (Texture.new_components_out_of_range 5 2 2 1 1 0 1 false ImageFormat.u8 none
      [none, none, none, none, none, none] ⟨0, []⟩ Device.init (by decide)).2.2.2.2.2.2.2.2.2.2⟩

/-- For a component count in `[1,4]` and a sample count above the smallest
`int`, the constructor of `Texture` throws "The number of samples is invalid"
exactly when the sample count is neither zero nor a power of two. -/
theorem Texture.new_samples_rejected_iff (width height components samples alignment : Int)
    (is_depth : Bool) (dtype : ImageFormat) (data : Pointer) (d : Device)
    (hc : 1 ≤ components ∧ components ≤ 4) (hmin : INT_MIN < samples)
    (hmax : samples ≤ INT_MAX) :
    Texture.new width height components is_depth dtype data samples alignment d
        = (.error (.invalid_argument "The number of samples is invalid"), d)
      ↔ ¬ (samples = 0 ∨ ∃ k : Nat, samples = 2 ^ k) := by
  obtain ⟨hsub, hiff⟩ := samples_test_iff samples hmin hmax
  unfold Texture.new
  rw [if_neg (by omega), hsub]
  simp only
  by_cases hl : Int.land samples (samples - 1) = 0
  · rw [if_neg (not_not.mpr hl)]
    constructor
    · intro h
      exfalso
      have hfmt : dtype.format components = .ok (dtype.formats.get (components - 1).toNat) := by
        unfold ImageFormat.format
        rw [if_neg (by omega)]
      rw [hfmt] at h
      split_ifs at h <;> simp at h
    · intro h
      exact absurd (hiff.mp hl) h
  · rw [if_pos hl]
    exact ⟨fun _ => fun h => hl (hiff.mpr h), fun _ => rfl⟩

/-- For a component count in `[1,4]` and a sample count above the smallest
`int`, the constructor of `Renderbuffer` throws "The number of samples is
invalid" exactly when the sample count is neither zero nor a power of two. -/
theorem Renderbuffer.new_rejects_samples_iff (width height components samples : Int)
    (is_depth : Bool) (dtype : ImageFormat) (d : Device)
    (hc : 1 ≤ components ∧ components ≤ 4) (hmin : INT_MIN < samples)
    (hmax : samples ≤ INT_MAX) :
    Renderbuffer.new width height components is_depth dtype samples d
        = (.error (.invalid_argument "The number of samples is invalid"), d)
      ↔ ¬ (samples = 0 ∨ ∃ k : Nat, samples = 2 ^ k) := by
  obtain ⟨hsub, hiff⟩ := samples_test_iff samples hmin hmax
  unfold Renderbuffer.new
  rw [if_neg (by omega), hsub]
  simp only
  by_cases hl : Int.land samples (samples - 1) = 0
  · rw [if_neg (not_not.mpr hl)]
    constructor
    · intro h
      exfalso
      have hfmt : dtype.format components = .ok (dtype.formats.get (components - 1).toNat) := by
        unfold ImageFormat.format
        rw [if_neg (by omega)]
      rw [hfmt] at h
      split_ifs at h <;> simp at h
    · intro h
      exact absurd (hiff.mp hl) h
  · rw [if_pos hl]
    exact ⟨fun _ => fun h => hl (hiff.mpr h), fun _ => rfl⟩

/-- Claim C19. The smallest `int`, -2147483648, is neither zero nor a power of
two, and the constructors of `Texture` and `Renderbuffer` do not reject it with
`std::invalid_argument`: the test `samples & (samples - 1)` overflows in
`samples - 1`, which is undefined behaviour.  Where the subtraction wraps to the
largest `int`, the conjunction is zero and the sample count passes the test. -/
theorem Texture.new_samples_int_min :
    INT_MIN = -2147483648 ∧
    ¬ ((-2147483648 : Int) = 0 ∨ ∃ k : Nat, (-2147483648 : Int) = 2 ^ k) ∧
    Texture.new_vector 2 2 1 ImageFormat.u8 ⟨0, []⟩ (-2147483648) 1 Device.init
      = (.error .undefined_behaviour, Device.init) ∧
    Texture.depth 2 2 (-2147483648) 1 Device.init
      = (.error .undefined_behaviour, Device.init) ∧
    Renderbuffer.new_color 2 2 1 ImageFormat.u8 (-2147483648) Device.init
      = (.error .undefined_behaviour, Device.init) ∧
    Int.land (-2147483648) 2147483647 = 0 := by
  refine ⟨by decide, ?_, rfl, rfl, rfl, ?_⟩
  · rintro (h | ⟨k, hk⟩)
    · exact absurd h (by decide)
    · have hpos : (0 : Int) < 2 ^ k := by positivity
      omega
  · show ((Nat.ldiff 2147483647 2147483647 : Nat) : Int) = 0
    have : Nat.ldiff 2147483647 2147483647 = 0 := by
      apply Nat.zero_of_testBit_eq_false
      intro i
      simp [Nat.testBit_ldiff]
    rw [this]
    rfl

/-- With a component count in `[1,4]` and a sample count above the smallest
`int`, the private constructor of `Texture` (and with it the public
constructors that pass their alignment on, and `Texture::depth`) throws
`std::invalid_argument` for an alignment outside `{1, 2, 4, 8}` and leaves the
device as it was. -/
theorem Texture.new_bad_alignment (width height components samples alignment : Int)
    (is_depth : Bool) (dtype : ImageFormat) (data : Pointer) (d : Device)
    (hc : 1 ≤ components ∧ components ≤ 4) (hmin : INT_MIN < samples)
    (hmax : samples ≤ INT_MAX) (ha : bad_alignment alignment) :
    ∃ what, Texture.new width height components is_depth dtype data samples alignment d
      = (.error (.invalid_argument what), d) := by
  obtain ⟨hsub, _⟩ := samples_test_iff samples hmin hmax
  unfold Texture.new
  rw [if_neg (by omega), hsub]
  simp only
  split_ifs
  · exact ⟨_, rfl⟩
  · exact ⟨_, rfl⟩
  · exact ⟨_, rfl⟩

/-- On a valid texture, `Texture::write` throws `std::invalid_argument` for an
alignment outside `{1, 2, 4, 8}` and leaves the device as it was. -/
theorem Texture.write_bad_alignment (t : Texture) (data : Pointer) (size : Nat)
    (level alignment : Int) (d : Device) (hv : t.valid = true) (ha : bad_alignment alignment) :
    t.write data size level alignment d
      = (.error (.invalid_argument "Alignment must be 1, 2, 4 or 8"), d) := by
  unfold Texture.write
  simp only [hv, Bool.not_true, Bool.false_eq_true, if_false]
  rw [if_pos ha]

/-- The public constructor of `Texture` taking a raw data pointer does not read
its alignment argument. -/
theorem Texture.new_pointer_ignores_alignment (width height components samples : Int)
    (dtype : ImageFormat) (data : Pointer) (alignment alignment2 : Int) (d : Device) :
    Texture.new_pointer width height components dtype data samples alignment d
      = Texture.new_pointer width height components dtype data samples alignment2 d := rfl

/-- Claim C20. The alignment 3 is outside `{1, 2, 4, 8}`; the public constructor
`Texture(width, height, components, dtype, alignment)` rejects it, and yet the
public constructor taking a raw data pointer, called with one component, no
samples and alignment 3, succeeds: it creates the texture and sets the pack and
unpack alignment of the device to 1. -/
theorem Texture.new_pointer_alignment_three :
    bad_alignment 3 ∧
    Texture.new_empty 2 2 1 ImageFormat.u8 3 Device.init
      = (.error (.invalid_argument "Alignment must be 1, 2, 4 or 8"), Device.init) ∧
    (Texture.new_pointer 2 2 1 ImageFormat.u8 none 0 3 Device.init).1
      = .ok ⟨1, 2, 2, 1, 0, false, 0, ImageFormat.u8⟩ ∧
    (Texture.new_pointer 2 2 1 ImageFormat.u8 none 0 3 Device.init).2.trace
      = [.glCreateTextures GL_TEXTURE_2D,
         .glPixelStorei GL_PACK_ALIGNMENT 1,
         .glPixelStorei GL_UNPACK_ALIGNMENT 1,
         .glTextureStorage2D 1 1 GL_R8UI 2 2,
         .glTextureParameteri 1 GL_TEXTURE_MIN_FILTER GL_LINEAR,
         .glTextureParameteri 1 GL_TEXTURE_MAG_FILTER GL_LINEAR] := by
  have hsub : int_sub 0 1 = some (0 - 1) := by decide
  have hland : ¬ Int.land 0 (0 - 1) ≠ 0 := not_not.mpr land_zero_minus_one
  refine ⟨by decide, ?_, ?_, ?_⟩
  · unfold Texture.new_empty Texture.new
    rw [if_neg (by decide), hsub]
    simp only
    rw [if_neg hland, if_neg (by decide), if_pos (by decide)]
  · unfold Texture.new_pointer Texture.new
    rw [if_neg (by decide), hsub]
    simp only
    rw [if_neg hland, if_neg (by decide), if_neg (by decide), if_neg (by decide)]
    rfl
  · unfold Texture.new_pointer Texture.new
    rw [if_neg (by decide), hsub]
    simp only
    rw [if_neg hland, if_neg (by decide), if_neg (by decide), if_neg (by decide)]
    rfl

/-! ## Element descriptors -/

/-- Claim C27. `ElementDescriptor::get<T>()` is `(type<T>(), sizeof(T), 1)` for
every arithmetic type `T` with a type id, and `(type<V>(), sizeof(V), N)` for
every vector type with component type `V` and `N` components, whatever its own
size; and `gl::type` gives the nine scalar host types pairwise distinct type
ids. -/
theorem ElementDescriptor.get_scalar_vector :
    (∀ t : Scalar, ElementDescriptor.get (.arithmetic t)
      = ⟨gl.type t, (HostType.arithmetic t).sizeof, 1⟩) ∧
    (∀ (V : Scalar) (N size : Nat), ElementDescriptor.get (.vector V N size)
      = ⟨gl.type V, (HostType.arithmetic V).sizeof, N⟩) ∧
    (∀ a b : Scalar, gl.type a = gl.type b → a = b) := by
  refine ⟨fun _ => rfl, fun _ _ _ => rfl, ?_⟩
  intro a b
  cases a <;> cases b <;> decide

/-- Claim C30. For every host type `T` whose vector form, if it has one, is
tightly packed, the descriptor `d = ElementDescriptor::get<T>()` satisfies
`d.size() * d.count() = sizeof(T)`: the scalar branch gives `(sizeof(T), 1)`,
the vector branch `(sizeof(value_type), length)`, and the fallback branch for
the other class types `(1, sizeof(T))` with the type id of `unsigned`. -/
theorem ElementDescriptor.get_covers_sizeof (T : HostType) (h : T.tightly_packed) :
    (ElementDescriptor.get T).size * (ElementDescriptor.get T).count = T.sizeof ∧
    (∀ t, T = .arithmetic t →
      (ElementDescriptor.get T).size = T.sizeof ∧ (ElementDescriptor.get T).count = 1) ∧
    (∀ V N size, T = .vector V N size →
      (ElementDescriptor.get T).size = (HostType.arithmetic V).sizeof ∧
      (ElementDescriptor.get T).count = N) ∧
    (∀ size, T = .record size →
      (ElementDescriptor.get T).size = 1 ∧ (ElementDescriptor.get T).count = T.sizeof ∧
      (ElementDescriptor.get T).type = gl.type .uint32_t ∧
      gl.type .uint32_t = GL_UNSIGNED_INT) := by
  cases T with
  | arithmetic t =>
    refine ⟨?_, ?_, ?_, ?_⟩
    · simp [ElementDescriptor.get, ElementDescriptor.size, ElementDescriptor.count,
        HostType.sizeof]
    · intro t2 _; exact ⟨rfl, rfl⟩
    · intro V N size hT; cases hT
    · intro size hT; cases hT
  | vector V N size =>
    refine ⟨?_, ?_, ?_, ?_⟩
    · exact h
    · intro t2 hT; cases hT
    · intro V2 N2 size2 hT
      cases hT
      exact ⟨rfl, rfl⟩
    · intro size2 hT; cases hT
  | record size =>
    refine ⟨?_, ?_, ?_, ?_⟩
    · simp [ElementDescriptor.get, ElementDescriptor.size, ElementDescriptor.count,
        HostType.sizeof]
    · intro t2 hT; cases hT
    · intro V N size2 hT; cases hT
    · intro size2 _
      exact ⟨rfl, rfl, rfl, rfl⟩

theorem ElementDescriptor.get_covers_sizeof_witness :
    (HostType.vector .float 3 12).tightly_packed ∧
    (ElementDescriptor.get (.vector .float 3 12)).size
      * (ElementDescriptor.get (.vector .float 3 12)).count = 12 :=
  ⟨by decide, (ElementDescriptor.get_covers_sizeof (.vector .float 3 12) (by decide)).1⟩


/-! ## Framebuffers: a device that reports the framebuffer incomplete -/

/-- The two tests of the constructor pass on an attachment set without a
mismatch. -/
theorem Framebuffer.checks_pass (color_attachments : List ColorAttachment)
    (depth_attachment : DepthAttachment)
    (hm : ¬ Framebuffer.mismatch color_attachments depth_attachment) :
    ∃ reference dims,
      Framebuffer.check_color_attachments 0 color_attachments (0, 0, 0) = .ok reference ∧
      Framebuffer.check_depth_attachment color_attachments depth_attachment reference
        = .ok dims := by
  cases color_attachments with
  | nil =>
    refine ⟨(0, 0, 0), ?_⟩
    cases depth_attachment with
    | monostate => exact ⟨_, rfl, rfl⟩
    | texture t => exact ⟨_, rfl, rfl⟩
    | renderbuffer r => exact ⟨_, rfl, rfl⟩
  | cons first rest =>
    have hall : ∀ a ∈ rest, a.dimensions = first.dimensions := by
      intro a ha
      by_contra hne2
      exact hm ⟨first, rest, rfl, Or.inl ⟨a, ha, hne2⟩⟩
    have hdepth : ∀ dims, depth_attachment.dimensions = some dims →
        dims = first.dimensions := by
      intro dims hd
      by_contra hne2
      exact hm ⟨first, rest, rfl, Or.inr ⟨dims, hd, hne2⟩⟩
    refine ⟨first.dimensions, first.dimensions, ?_, ?_⟩
    · rw [Framebuffer.check_color_attachments_cons]
      exact (Framebuffer.check_color_attachments_succ rest 1 first.dimensions
        (by decide)).1 hall
    · unfold Framebuffer.check_depth_attachment
      cases depth_attachment with
      | monostate => rfl
      | texture t =>
        have := hdepth _ rfl
        simp only [ColorAttachment.dimensions, Prod.mk.injEq] at this
        simp [ColorAttachment.dimensions, this.1, this.2.1, this.2.2]
      | renderbuffer r =>
        have := hdepth _ rfl
        simp only [ColorAttachment.dimensions, Prod.mk.injEq] at this
        simp [ColorAttachment.dimensions, this.1, this.2.1, this.2.2]

/-- The second loop of the constructor only appends calls to the trace, none of
them a `glDeleteFramebuffers`. -/
theorem Framebuffer.attach_colors_trace (m_handle : Handle)
    (color_attachments : List ColorAttachment) :
    ∀ (i : Nat) (d : Device), ∃ calls,
      Framebuffer.attach_colors m_handle i color_attachments d
        = { d with trace := d.trace ++ calls } ∧
      ∀ h, GLCall.glDeleteFramebuffers h ∉ calls := by
  induction color_attachments with
  | nil =>
    intro i d
    exact ⟨[], by simp [Framebuffer.attach_colors], by simp⟩
  | cons x xs ih =>
    intro i d
    cases x with
    | texture t =>
      unfold Framebuffer.attach_colors
      obtain ⟨calls, hc, hn⟩ := ih (i + 1) (d.log (.glNamedFramebufferTexture2DEXT m_handle
        (color_slot i) (if t.samples ≠ 0 then GL_TEXTURE_2D_MULTISAMPLE else GL_TEXTURE_2D)
        t.native_handle 0))
      refine ⟨GLCall.glNamedFramebufferTexture2DEXT m_handle (color_slot i)
        (if t.samples ≠ 0 then GL_TEXTURE_2D_MULTISAMPLE else GL_TEXTURE_2D)
        t.native_handle 0 :: calls, ?_, ?_⟩
      · rw [hc]; simp [Device.log]
      · intro h hmem
        rcases List.mem_cons.mp hmem with h1 | h1
        · cases h1
        · exact hn h h1
    | renderbuffer r =>
      unfold Framebuffer.attach_colors
      obtain ⟨calls, hc, hn⟩ := ih (i + 1) (d.log (.glNamedFramebufferRenderbuffer m_handle
        (color_slot i) GL_RENDERBUFFER r.native_handle))
      refine ⟨GLCall.glNamedFramebufferRenderbuffer m_handle (color_slot i) GL_RENDERBUFFER
        r.native_handle :: calls, ?_, ?_⟩
      · rw [hc]; simp [Device.log]
      · intro h hmem
        rcases List.mem_cons.mp hmem with h1 | h1
        · cases h1
        · exact hn h h1

/-- The binding of the depth attachment only appends calls to the trace, none of
them a `glDeleteFramebuffers`. -/
theorem Framebuffer.attach_depth_trace (m_handle : Handle) (depth_attachment : DepthAttachment)
    (d : Device) : ∃ calls,
      Framebuffer.attach_depth m_handle depth_attachment d
        = { d with trace := d.trace ++ calls } ∧
      ∀ h, GLCall.glDeleteFramebuffers h ∉ calls := by
  cases depth_attachment with
  | texture t =>
    exact ⟨[_], rfl, by intro h hmem; rcases List.mem_singleton.mp hmem with h1; cases h1⟩
  | renderbuffer r =>
    exact ⟨[_], rfl, by intro h hmem; rcases List.mem_singleton.mp hmem with h1; cases h1⟩
  | monostate => exact ⟨[], by simp [Framebuffer.attach_depth], by simp⟩

/-- Claim C29. When the attachment set is not empty and has no mismatch, and the
device reports a status other than `GL_FRAMEBUFFER_COMPLETE`, the constructor
of `Framebuffer` throws `std::runtime_error` with the message of the status; it
has called `glCreateFramebuffers` before, and no call it has made after that is
a `glDeleteFramebuffers`.  The message names the status for each of the eight
known statuses and is the generic message for every other status. -/
theorem Framebuffer.new_incomplete (color_attachments : List ColorAttachment)
    (depth_attachment : DepthAttachment) (d : Device)
    (hne : color_attachments ≠ [] ∨ depth_attachment ≠ .monostate)
    (hm : ¬ Framebuffer.mismatch color_attachments depth_attachment)
    (hs : d.framebuffer_status ≠ GL_FRAMEBUFFER_COMPLETE) :
    (∃ calls d2, Framebuffer.new color_attachments depth_attachment d
        = (.error (.runtime_error (Framebuffer.status_message d.framebuffer_status)), d2) ∧
      d2.trace = d.trace ++ GLCall.glCreateFramebuffers :: calls ∧
      ∀ h, GLCall.glDeleteFramebuffers h ∉ calls) ∧
    Framebuffer.known_statuses.map Framebuffer.status_message
      = ["The framebuffer is not complete (UNDEFINED)",
         "The framebuffer is not complete (INCOMPLETE_ATTACHMENT)",
         "The framebuffer is not complete (INCOMPLETE_MISSING_ATTACHMENT)",
         "The framebuffer is not complete (INCOMPLETE_DRAW_BUFFER)",
         "The framebuffer is not complete (INCOMPLETE_READ_BUFFER)",
         "The framebuffer is not complete (UNSUPPORTED)",
         "The framebuffer is not complete (INCOMPLETE_MULTISAMPLE)",
         "The framebuffer is not complete (INCOMPLETE_LAYER_TARGETS)"] ∧
    (∀ status, status ∉ Framebuffer.known_statuses →
      Framebuffer.status_message status = "The framebuffer is not complete") := by
  refine ⟨?_, by decide, ?_⟩
  · obtain ⟨reference, ⟨width, height, samples⟩, href, hdepth⟩ :=
      Framebuffer.checks_pass color_attachments depth_attachment hm
    have hempty : ¬ (color_attachments.isEmpty = true ∧ depth_attachment = .monostate) := by
      rintro ⟨h1, h2⟩
      rcases hne with h | h
      · cases color_attachments with
        | nil => exact h rfl
        | cons x xs => simp at h1
      · exact h h2
    have key : ∀ d1 : Device, d1.framebuffer_status = d.framebuffer_status →
        ∀ pre : List GLCall, d1.trace = d.trace ++ GLCall.glCreateFramebuffers :: pre →
        (∀ h, GLCall.glDeleteFramebuffers h ∉ pre) →
        ∀ m_handle : Handle, ∃ calls d2,
          (if (glCheckNamedFramebufferStatus m_handle GL_FRAMEBUFFER
                (Framebuffer.attach_depth m_handle depth_attachment
                  (Framebuffer.attach_colors m_handle 0 color_attachments d1))).1
                ≠ GL_FRAMEBUFFER_COMPLETE then
              ((Except.error (Error.runtime_error (Framebuffer.status_message
                (glCheckNamedFramebufferStatus m_handle GL_FRAMEBUFFER
                  (Framebuffer.attach_depth m_handle depth_attachment
                    (Framebuffer.attach_colors m_handle 0 color_attachments d1))).1)) :
                  Except Error Framebuffer),
                (glCheckNamedFramebufferStatus m_handle GL_FRAMEBUFFER
                  (Framebuffer.attach_depth m_handle depth_attachment
                    (Framebuffer.attach_colors m_handle 0 color_attachments d1))).2)
            else
              (Except.ok ⟨m_handle, color_attachments, depth_attachment, width, height, samples,
                ⟨0, 0, width, height⟩, none, Framebuffer.draw_buffers color_attachments.length,
                Framebuffer.fill_color_mask 0 color_attachments
                  (List.replicate (color_attachments.length * 4 + 1) false)⟩,
                (glCheckNamedFramebufferStatus m_handle GL_FRAMEBUFFER
                  (Framebuffer.attach_depth m_handle depth_attachment
                    (Framebuffer.attach_colors m_handle 0 color_attachments d1))).2))
            = (.error (.runtime_error (Framebuffer.status_message d.framebuffer_status)), d2) ∧
          d2.trace = d.trace ++ GLCall.glCreateFramebuffers :: calls ∧
          ∀ h, GLCall.glDeleteFramebuffers h ∉ calls := by
      intro d1 hd1 pre hpre hnodel m_handle
      obtain ⟨c1, hc1, hn1⟩ := Framebuffer.attach_colors_trace m_handle color_attachments 0 d1
      obtain ⟨c2, hc2, hn2⟩ := Framebuffer.attach_depth_trace m_handle depth_attachment
        (Framebuffer.attach_colors m_handle 0 color_attachments d1)
      have hst : (glCheckNamedFramebufferStatus m_handle GL_FRAMEBUFFER
          (Framebuffer.attach_depth m_handle depth_attachment
            (Framebuffer.attach_colors m_handle 0 color_attachments d1))).1
          = d.framebuffer_status := by
        show (Framebuffer.attach_depth m_handle depth_attachment
          (Framebuffer.attach_colors m_handle 0 color_attachments d1)).framebuffer_status = _
        rw [Framebuffer.attach_depth_status, Framebuffer.attach_colors_status, hd1]
      rw [if_pos (by rw [hst]; exact hs), hst]
      refine ⟨pre ++ c1 ++ c2 ++ [GLCall.glCheckNamedFramebufferStatus m_handle GL_FRAMEBUFFER],
        _, rfl, ?_, ?_⟩
      · show ((Framebuffer.attach_depth m_handle depth_attachment
          (Framebuffer.attach_colors m_handle 0 color_attachments d1)).log _).trace = _
        rw [hc2, hc1]
        simp [Device.log, hpre]
      · intro h hmem
        simp only [List.mem_append, List.mem_singleton] at hmem
        rcases hmem with ((h1 | h1) | h1) | h1
        · exact hnodel h h1
        · exact hn1 h h1
        · exact hn2 h h1
        · cases h1
    unfold Framebuffer.new
    rw [if_neg hempty, href]
    simp only
    rw [hdepth]
    simp only
    by_cases hemp : color_attachments.isEmpty = true
    · rw [if_pos hemp]
      exact key ((glCreateFramebuffers d).2.log
          (.glNamedFramebufferDrawBuffer (glCreateFramebuffers d).1 GL_NONE)) rfl
        [GLCall.glNamedFramebufferDrawBuffer (glCreateFramebuffers d).1 GL_NONE]
        (by simp [glCreateFramebuffers, Device.log])
        (by intro h hmem; rcases List.mem_singleton.mp hmem with h1; cases h1)
        (glCreateFramebuffers d).1
    · rw [if_neg hemp]
      exact key (glCreateFramebuffers d).2 rfl [] (by simp [glCreateFramebuffers, Device.log])
        (by simp) (glCreateFramebuffers d).1
  · intro status hst
    simp only [Framebuffer.known_statuses, List.mem_cons, List.mem_singleton, not_or,
      List.not_mem_nil, or_false] at hst
    unfold Framebuffer.status_message
    simp only [hst.1, hst.2.1, hst.2.2.1, hst.2.2.2.1, hst.2.2.2.2.1, hst.2.2.2.2.2.1,
      hst.2.2.2.2.2.2.1, hst.2.2.2.2.2.2.2, if_false]

theorem Framebuffer.new_incomplete_witness :
    ∃ calls d2, Framebuffer.new [.texture example_texture] .monostate example_unsupported_device
        = (.error (.runtime_error "The framebuffer is not complete (UNSUPPORTED)"), d2) ∧
      d2.trace = GLCall.glCreateFramebuffers :: calls ∧
      ∀ h, GLCall.glDeleteFramebuffers h ∉ calls :=
  (Framebuffer.new_incomplete [.texture example_texture] .monostate example_unsupported_device
    (Or.inl (by simp))
    (by
      rintro ⟨first, rest, hl, h⟩
      cases hl
      rcases h with ⟨a, ha, _⟩ | ⟨dims, hd, _⟩
      · simp at ha
      · simp [DepthAttachment.dimensions] at hd)
    (by decide)).1


/-! ## Image resources: uploads -/

/-- The private constructor of `Texture`, given data and a sample count other
than zero, ends in an error and leaves the device as it was. -/
theorem Texture.new_data_samples (width height components samples alignment : Int)
    (is_depth : Bool) (dtype : ImageFormat) (bytes : List Nat) (d : Device)
    (hs : samples ≠ 0) :
    ∃ e, Texture.new width height components is_depth dtype (some bytes) samples alignment d
        = (.error e, d) ∧
      (INT_MIN < samples → samples ≤ INT_MAX → ∃ what, e = .invalid_argument what) := by
  unfold Texture.new
  by_cases h1 : components < 1 ∨ components > 4
  · rw [if_pos h1]
    exact ⟨_, rfl, fun _ _ => ⟨_, rfl⟩⟩
  · rw [if_neg h1]
    cases hsub : int_sub samples 1 with
    | none =>
      refine ⟨_, rfl, ?_⟩
      intro hmin hmax
      have := (samples_test_iff samples hmin hmax).1
      rw [this] at hsub
      cases hsub
    | some m =>
      simp only
      by_cases h2 : Int.land samples m ≠ 0
      · rw [if_pos h2]
        exact ⟨_, rfl, fun _ _ => ⟨_, rfl⟩⟩
      · rw [if_neg h2, if_pos ⟨rfl, hs⟩]
        exact ⟨_, rfl, fun _ _ => ⟨_, rfl⟩⟩

/-- Claim C21. A multisampled texture rejects direct upload.  Construction with
data that is not null and a sample count other than zero ends in an error and
leaves the device as it was, so that no `glTextureSubImage2D` is issued; the
error is `std::invalid_argument` for every sample count above the smallest
`int`, where the subtraction of the sample test is defined.  `Texture::write` on
a texture whose sample count is not zero ends in an error for every data, size,
level and alignment and leaves the device as it was; on a valid texture and
with an alignment of 1, 2, 4 or 8 the error is the `std::invalid_argument` of
the level test or the `std::logic_error` "Multisample textures are not writable
directly". -/
theorem Texture.multisample_rejects_upload (width height components samples alignment : Int)
    (is_depth : Bool) (dtype : ImageFormat) (bytes : List Nat) (v : vector)
    (t : Texture) (data : Pointer) (size : Nat) (level write_alignment : Int) (d : Device)
    (hs : samples ≠ 0) (hv : v.size ≠ 0) (ht : t.m_samples ≠ 0) :
    (∃ e, Texture.new width height components is_depth dtype (some bytes) samples alignment d
        = (.error e, d) ∧
      (INT_MIN < samples → samples ≤ INT_MAX → ∃ what, e = .invalid_argument what)) ∧
    (∃ e, Texture.new_pointer width height components dtype (some bytes) samples alignment d
        = (.error e, d) ∧
      (INT_MIN < samples → samples ≤ INT_MAX → ∃ what, e = .invalid_argument what)) ∧
    (∃ e, Texture.new_vector width height components dtype v samples alignment d
        = (.error e, d) ∧
      (INT_MIN < samples → samples ≤ INT_MAX → ∃ what, e = .invalid_argument what)) ∧
    (∃ e, t.write data size level write_alignment d = (.error e, d) ∧
      (t.valid = true → ¬ bad_alignment write_alignment →
        e = .invalid_argument "Invalid level" ∨
        e = .logic_error "Multisample textures are not writable directly")) := by
  refine ⟨Texture.new_data_samples _ _ _ _ _ _ _ _ _ hs,
    Texture.new_data_samples _ _ _ _ _ _ _ _ _ hs, ?_, ?_⟩
  · unfold Texture.new_vector vector.data_pointer
    rw [if_neg hv]
    exact Texture.new_data_samples _ _ _ _ _ _ _ _ _ hs
  · unfold Texture.write
    split_ifs with h1 h2 h3
    · refine ⟨_, rfl, ?_⟩
      intro hvalid
      simp [hvalid] at h1
    · exact ⟨_, rfl, fun _ hb => absurd h2 hb⟩
    · exact ⟨_, rfl, fun _ _ => Or.inl rfl⟩
    · exact ⟨_, rfl, fun _ _ => Or.inr rfl⟩

theorem Texture.multisample_rejects_upload_witness :
    (∃ e, Texture.new_pointer 2 2 3 ImageFormat.u8 (some [1, 2, 3]) 4 1 Device.init
        = (.error e, Device.init) ∧
      (INT_MIN < 4 → 4 ≤ INT_MAX → ∃ what, e = .invalid_argument what)) ∧
    (∃ e, example_multisample_texture.write (some [1, 2, 3]) 3 0 1 Device.init
        = (.error e, Device.init) ∧
      (example_multisample_texture.valid = true → ¬ bad_alignment 1 →
        e = .invalid_argument "Invalid level" ∨
        e = .logic_error "Multisample textures are not writable directly")) :=
  ⟨(Texture.multisample_rejects_upload 2 2 3 4 1 false ImageFormat.u8 [1, 2, 3]
      ⟨1, [1, 2, 3]⟩ example_multisample_texture (some [1, 2, 3]) 3 0 1 Device.init
      (by decide) (by decide) (by decide)).2.1,
    (Texture.multisample_rejects_upload 2 2 3 4 1 false ImageFormat.u8 [1, 2, 3]
      ⟨1, [1, 2, 3]⟩ example_multisample_texture (some [1, 2, 3]) 3 0 1 Device.init
      (by decide) (by decide) (by decide)).2.2.2⟩


/-- The loop over the layers appends to the trace one upload for each layer
whose pointer is not null, in the order of the layers. -/
theorem TextureArray.upload_layers_trace (m_handle : Handle) (width height : Int)
    (base_format pixel_type : Nat) (data : List Pointer) :
    ∀ (count layer : Nat) (d : Device),
      TextureArray.upload_layers m_handle width height base_format pixel_type data count layer d
        = { d with trace := d.trace ++ (List.range' layer count).filterMap (fun layer =>
            match data.get? layer with
            | some (some _) =>
              some (.glTextureSubImage3D m_handle 0 0 0 layer width height 1 base_format
                pixel_type)
            | _ => none) } := by
  intro count
  induction count with
  | zero => intro layer d; simp [TextureArray.upload_layers]
  | succ n ih =>
    intro layer d
    unfold TextureArray.upload_layers
    simp only [List.range'_succ, List.filterMap_cons]
    rw [ih]
    cases hdata : data.get? layer with
    | none => simp
    | some p =>
      cases p with
      | none => simp
      | some bytes => simp [Device.log]

/-- In the test `data.size() != layers` of the constructor of `TextureArray`, the
converted layer count equals the number of data pointers exactly when the layer
count does, for a vector within `max_size()`. -/
theorem TextureArray.count_test_iff (layers : Int) (n : Nat) (hmin : INT_MIN ≤ layers)
    (hmax : layers ≤ INT_MAX)
    (hn : n ≤ PTRDIFF_MAX) : n = int_to_size_t layers ↔ (n : Int) = layers := by
  unfold int_to_size_t SIZE_MOD SIZE_BITS
  unfold PTRDIFF_MAX at hn
  unfold INT_MIN at hmin
  unfold INT_MAX at hmax
  norm_num at hn hmin hmax ⊢
  omega

/-- Claim C22. Construction of a `TextureArray` with a component count in
`[1,4]` and an alignment of 1, 2, 4 or 8 throws `std::invalid_argument` exactly
when the number of data pointers is neither 1 nor the layer count, and then
leaves the device as it was.  Otherwise it returns the texture array, and after
the creation of the texture and of its storage it issues the uploads of
`expected_uploads` and nothing else: with one pointer a single upload of all
layers if the pointer is not null, otherwise one upload for each layer whose
pointer is not null. -/
theorem TextureArray.new_data_count (width height layers components alignment : Int)
    (dtype : ImageFormat) (data : List Pointer) (d : Device)
    (hc : 1 ≤ components ∧ components ≤ 4) (ha : ¬ bad_alignment alignment)
    (hl : INT_MIN ≤ layers ∧ layers ≤ INT_MAX) (hn : data.length ≤ PTRDIFF_MAX) :
    ((∃ what, (TextureArray.new width height layers components dtype data alignment d).1
        = .error (.invalid_argument what))
      ↔ (data.length ≠ 1 ∧ (data.length : Int) ≠ layers)) ∧
    ((data.length ≠ 1 ∧ (data.length : Int) ≠ layers) →
      TextureArray.new width height layers components dtype data alignment d
        = (.error (.invalid_argument "Data not given for all layers"), d)) ∧
    (¬ (data.length ≠ 1 ∧ (data.length : Int) ≠ layers) →
      ∃ base_format internal_format,
        dtype.format components = .ok (base_format, internal_format) ∧
        (TextureArray.new width height layers components dtype data alignment d).1
          = .ok ⟨d.next, width, height, layers, components, dtype⟩ ∧
        (TextureArray.new width height layers components dtype data alignment d).2.trace
          = d.trace ++
            [.glCreateTextures GL_TEXTURE_2D_ARRAY,
             .glPixelStorei GL_PACK_ALIGNMENT alignment,
             .glPixelStorei GL_UNPACK_ALIGNMENT alignment,
             .glTextureStorage3D d.next 1 internal_format width height layers,
             .glTextureParameteri d.next GL_TEXTURE_MIN_FILTER GL_LINEAR,
             .glTextureParameteri d.next GL_TEXTURE_MAG_FILTER GL_LINEAR] ++
            TextureArray.expected_uploads d.next width height layers base_format dtype.type
              data) := by
  have hfmt : dtype.format components
      = .ok ((dtype.formats.get (components - 1).toNat).1,
          (dtype.formats.get (components - 1).toNat).2) := by
    unfold ImageFormat.format
    rw [if_neg (by omega)]
  have htest : (data.length ≠ 1 ∧ data.length ≠ int_to_size_t layers)
      ↔ (data.length ≠ 1 ∧ (data.length : Int) ≠ layers) := by
    rw [Ne, Ne, TextureArray.count_test_iff layers data.length hl.1 hl.2 hn]
  have hthrow : (data.length ≠ 1 ∧ (data.length : Int) ≠ layers) →
      TextureArray.new width height layers components dtype data alignment d
        = (.error (.invalid_argument "Data not given for all layers"), d) := by
    intro h
    unfold TextureArray.new
    rw [if_neg (by omega), if_neg ha, if_pos (htest.mpr h)]
  have hok : ¬ (data.length ≠ 1 ∧ (data.length : Int) ≠ layers) →
      (TextureArray.new width height layers components dtype data alignment d).1
          = .ok ⟨d.next, width, height, layers, components, dtype⟩ ∧
      (TextureArray.new width height layers components dtype data alignment d).2.trace
          = d.trace ++
            [.glCreateTextures GL_TEXTURE_2D_ARRAY,
             .glPixelStorei GL_PACK_ALIGNMENT alignment,
             .glPixelStorei GL_UNPACK_ALIGNMENT alignment,
             .glTextureStorage3D d.next 1 (dtype.formats.get (components - 1).toNat).2 width
               height layers,
             .glTextureParameteri d.next GL_TEXTURE_MIN_FILTER GL_LINEAR,
             .glTextureParameteri d.next GL_TEXTURE_MAG_FILTER GL_LINEAR] ++
            TextureArray.expected_uploads d.next width height layers
              (dtype.formats.get (components - 1).toNat).1 dtype.type data := by
    intro h
    unfold TextureArray.new
    rw [if_neg (by omega), if_neg ha, if_neg (fun hh => h (htest.mp hh)), hfmt]
    simp only
    refine ⟨rfl, ?_⟩
    unfold TextureArray.expected_uploads
    by_cases h1 : data.length = 1
    · rw [if_pos h1, if_pos h1]
      cases data with
      | nil => simp at h1
      | cons p rest =>
        cases p with
        | none => simp [glCreateTextures, Device.log]
        | some bytes => simp [glCreateTextures, Device.log]
    · rw [if_neg h1, if_neg h1, TextureArray.upload_layers_trace, List.range_eq_range']
      simp [glCreateTextures, Device.log]
  refine ⟨?_, hthrow, ?_⟩
  · constructor
    · rintro ⟨what, hw⟩
      by_contra hnot
      rw [(hok hnot).1] at hw
      cases hw
    · intro h
      exact ⟨_, by rw [hthrow h]⟩
  · intro h
    exact ⟨_, _, hfmt, hok h⟩

theorem TextureArray.new_data_count_witness :
    TextureArray.new 2 2 3 1 ImageFormat.u8 [some [1], none] 1 Device.init
      = (.error (.invalid_argument "Data not given for all layers"), Device.init) ∧
    ∃ base_format internal_format,
      ImageFormat.u8.format 1 = .ok (base_format, internal_format) ∧
      (TextureArray.new 2 2 3 1 ImageFormat.u8 [some [1], none, some [2]] 1 Device.init).1
        = .ok ⟨1, 2, 2, 3, 1, ImageFormat.u8⟩ ∧
      (TextureArray.new 2 2 3 1 ImageFormat.u8 [some [1], none, some [2]] 1 Device.init).2.trace
        = [] ++
          [.glCreateTextures GL_TEXTURE_2D_ARRAY,
           .glPixelStorei GL_PACK_ALIGNMENT 1,
           .glPixelStorei GL_UNPACK_ALIGNMENT 1,
           .glTextureStorage3D 1 1 internal_format 2 2 3,
           .glTextureParameteri 1 GL_TEXTURE_MIN_FILTER GL_LINEAR,
           .glTextureParameteri 1 GL_TEXTURE_MAG_FILTER GL_LINEAR] ++
          TextureArray.expected_uploads 1 2 2 3 base_format ImageFormat.u8.type
            [some [1], none, some [2]] :=
  ⟨(TextureArray.new_data_count 2 2 3 1 1 ImageFormat.u8 [some [1], none] Device.init
      (by decide) (by decide) (by decide) (by decide)).2.1 (by decide),
    (TextureArray.new_data_count 2 2 3 1 1 ImageFormat.u8 [some [1], none, some [2]] Device.init
      (by decide) (by decide) (by decide) (by decide)).2.2 (by decide)⟩

/-! ## Uniforms: assignment -/

/-- Every overload but that for `glm::mat2x4` calls the entry point that matches
its value type. -/
theorem Uniform.device_call_matches (u : Uniform) (T : UniformValue) (value : List Nat)
    (hT : T ≠ .mat2x4) : u.device_call T value = u.matching_call T value := by
  cases T <;> first | rfl | exact absurd rfl hT

/-- An assignment to an invalid uniform issues no device call. -/
theorem Uniform.assign_invalid (u : Uniform) (T : UniformValue) (value : List Nat) (d : Device)
    (h : u.valid = false) : u.assign T value d = d := by
  simp [Uniform.assign, h]

/-- Claim C26, at the input where it fails.  The assignment of a `glm::mat2x4`
to a valid uniform issues one device write, through the entry point
`glProgramUniformMatrix2x3fv` of the float matrices with 2 columns and 3 rows,
and not through `glProgramUniformMatrix2x4fv`, the entry point that matches the
value type; the assignment of a `glm::dmat2x4` goes through
`glProgramUniformMatrix2x4dv`. -/
theorem Uniform.assign_mat2x4 :
    example_uniform.valid = true ∧
    (example_uniform.assign .mat2x4 [1, 2, 3, 4, 5, 6, 7, 8] Device.init).trace
      = [.glProgramUniformMatrix 2 3 .f 3 5 1 false [1, 2, 3, 4, 5, 6, 7, 8]] ∧
    example_uniform.matching_call .mat2x4 [1, 2, 3, 4, 5, 6, 7, 8]
      = .glProgramUniformMatrix 2 4 .f 3 5 1 false [1, 2, 3, 4, 5, 6, 7, 8] ∧
    (example_uniform.assign .dmat2x4 [1, 2, 3, 4, 5, 6, 7, 8] Device.init).trace
      = [.glProgramUniformMatrix 2 4 .d 3 5 1 false [1, 2, 3, 4, 5, 6, 7, 8]] := by
  decide

/-! ## Programs: lemmas on the enumeration of the active variables -/

/-- A call recorded in the trace leaves the programs of the device as they were. -/
theorem Device.program_log (d : Device) (c : GLCall) (name : Handle) :
    (d.log c).program name = d.program name := rfl

/-- An error recorded leaves the programs of the device as they were. -/
theorem Device.program_raise (d : Device) (code : Nat) (name : Handle) :
    (d.raise code).program name = d.program name := by
  unfold Device.raise Device.program
  split_ifs <;> rfl

/-- Removing the entries of one key leaves the entry of every other key. -/
theorem lookup_filter_ne {α : Type} (m : unordered_map α) (key k : String) (h : k ≠ key) :
    List.lookup k (m.filter (fun e => e.1 != key)) = List.lookup k m := by
  induction m with
  | nil => rfl
  | cons e rest ih =>
    obtain ⟨ek, ev⟩ := e
    by_cases hek : ek = key
    · subst hek
      have hne : (k == ek) = false := by simpa using h
      simp [List.filter, List.lookup, hne, ih]
    · have hf : (ek != key) = true := by simpa using hek
      simp only [List.filter, hf, List.lookup]
      rw [ih]

/-- After `m[key] = value` the key holds the value and every other key holds what it
held. -/
theorem unordered_map.find_assign {α : Type} (m : unordered_map α) (key k : String) (value : α) :
    (m.assign key value).find k = if k = key then some value else m.find k := by
  unfold unordered_map.assign unordered_map.find
  by_cases h : k = key
  · subst h
    simp [List.lookup]
  · have hne : (k == key) = false := by simpa using h
    rw [if_neg h]
    simp only [List.lookup, hne]
    exact lookup_filter_ne m key k h

/-- The entry of a name after the fold of `Program.entries`: it is there when it
was there before or some variable of this name resolves to a location that is
not negative, and it is the old entry or the entry made from such a variable. -/
theorem Program.entries_find {α : Type} (make : Handle → String → GLType → Int → Int → α)
    (m_handle : Handle) (resolve : String → Int) (name : String) :
    ∀ (vars : List ActiveVariable) (map : unordered_map α),
      (((Program.entries make m_handle resolve vars map).find name).isSome
        ↔ ((map.find name).isSome ∨ ∃ v ∈ vars, v.name = name ∧ 0 ≤ resolve name)) ∧
      (∀ x, (Program.entries make m_handle resolve vars map).find name = some x →
        map.find name = some x ∨
        ∃ v ∈ vars, v.name = name ∧ 0 ≤ resolve name ∧
          x = make m_handle name v.type (resolve name) v.size) := by
  intro vars
  induction vars with
  | nil =>
    intro map
    simp [Program.entries]
  | cons v rest ih =>
    intro map
    unfold Program.entries
    by_cases hneg : resolve v.name < 0
    · rw [if_pos hneg]
      obtain ⟨h1, h2⟩ := ih map
      constructor
      · rw [h1]
        constructor
        · rintro (h | ⟨w, hw, hn, hl⟩)
          · exact Or.inl h
          · exact Or.inr ⟨w, List.mem_cons_of_mem _ hw, hn, hl⟩
        · rintro (h | ⟨w, hw, hn, hl⟩)
          · exact Or.inl h
          · rcases List.mem_cons.mp hw with rfl | hw
            · rw [hn] at hneg; omega
            · exact Or.inr ⟨w, hw, hn, hl⟩
      · intro x hx
        rcases h2 x hx with h | ⟨w, hw, hn, hl, hx⟩
        · exact Or.inl h
        · exact Or.inr ⟨w, List.mem_cons_of_mem _ hw, hn, hl, hx⟩
    · rw [if_neg hneg]
      obtain ⟨h1, h2⟩ := ih (map.assign v.name (make m_handle v.name v.type (resolve v.name) v.size))
      constructor
      · rw [h1, unordered_map.find_assign]
        by_cases hname : name = v.name
        · rw [if_pos hname]
          simp only [Option.isSome_some, true_or, true_iff]
          exact Or.inr ⟨v, List.mem_cons_self _ _, hname.symm, by rw [hname]; omega⟩
        · rw [if_neg hname]
          constructor
          · rintro (h | ⟨w, hw, hn, hl⟩)
            · exact Or.inl h
            · exact Or.inr ⟨w, List.mem_cons_of_mem _ hw, hn, hl⟩
          · rintro (h | ⟨w, hw, hn, hl⟩)
            · exact Or.inl h
            · rcases List.mem_cons.mp hw with rfl | hw
              · exact absurd hn.symm hname
              · exact Or.inr ⟨w, hw, hn, hl⟩
      · intro x hx
        rcases h2 x hx with h | ⟨w, hw, hn, hl, hx⟩
        · rw [unordered_map.find_assign] at h
          by_cases hname : name = v.name
          · rw [if_pos hname] at h
            right
            refine ⟨v, List.mem_cons_self _ _, hname.symm, by rw [hname]; omega, ?_⟩
            rw [← Option.some.inj h, hname]
          · rw [if_neg hname] at h
            exact Or.inl h
        · exact Or.inr ⟨w, List.mem_cons_of_mem _ hw, hn, hl, hx⟩

/-- The longest name is at least as long as each name. -/
theorem max_name_length_mem (vars : List ActiveVariable) (v : ActiveVariable) (h : v ∈ vars) :
    v.name.length + 1 ≤ max_name_length vars := by
  induction vars with
  | nil => simp at h
  | cons w rest ih =>
    unfold max_name_length
    simp only [List.foldr]
    rcases List.mem_cons.mp h with rfl | h
    · exact le_max_left _ _
    · exact le_trans (ih h) (le_max_right _ _)

/-- With a name buffer that holds the longest name, the device writes the name of
the variable in full. -/
theorem active_info_fits (vars : List ActiveVariable) (i : Nat) (v : ActiveVariable)
    (hv : vars.get? i = some v) (n : Int) (hn : (max_name_length vars : Int) ≤ n) :
    active_info vars i n = some ⟨(v.name.length : Int), v.size, v.type, v.name⟩ := by
  have hmem : v ∈ vars := List.get?_mem hv
  have hlen := max_name_length_mem vars v hmem
  unfold active_info
  rw [hv]
  simp only
  rw [if_neg (by omega)]
  have htake : v.name.data.take (n.toNat - 1) = v.name.data := by
    apply List.take_of_length_le
    have : v.name.data.length = v.name.length := rfl
    omega
  rw [htake]


/-- On a device whose answers are those on the variables `vars`, with a name
buffer that holds the longest name, the loop of the constructor leaves the
entries of `Program.entries` in the map. -/
theorem Program.enumerate_eq_entries {α : Type} (m_handle : Handle)
    (get_active : Handle → Nat → Int → Device → Option ActiveInfo × Device)
    (get_location : Handle → String → Device → Int × Device)
    (make : Handle → String → GLType → Int → Int → α) (vars : List ActiveVariable)
    (p : ProgramObject)
    (hga : ∀ i n d, d.program m_handle = some p →
      (get_active m_handle i n d).1 = active_info vars i n ∧
      (get_active m_handle i n d).2.program m_handle = some p)
    (hgl : ∀ name d, d.program m_handle = some p →
      (get_location m_handle name d).1 = resolve_location vars name ∧
      (get_location m_handle name d).2.program m_handle = some p)
    (n : Int) (hn : (max_name_length vars : Int) ≤ n) :
    ∀ (remaining i : Nat) (info : ActiveInfo) (map : unordered_map α) (d : Device),
      d.program m_handle = some p → i + remaining ≤ vars.length →
      (Program.enumerate m_handle get_active get_location make n remaining i info map d).1
        = Program.entries make m_handle (resolve_location vars)
            ((vars.drop i).take remaining) map ∧
      (Program.enumerate m_handle get_active get_location make n remaining i info map
        d).2.program m_handle = some p := by
  intro remaining
  induction remaining with
  | zero =>
    intro i info map d hd _
    simp [Program.enumerate, Program.entries, hd]
  | succ k ih =>
    intro i info map d hd hi
    have hlt : i < vars.length := by omega
    have hv : vars.get? i = some vars[i] := by
      rw [List.get?_eq_getElem?]; exact List.getElem?_eq_getElem hlt
    obtain ⟨ha1, ha2⟩ := hga i n d hd
    rw [active_info_fits vars i vars[i] hv n hn] at ha1
    obtain ⟨hl1, hl2⟩ := hgl vars[i].name (get_active m_handle i n d).2 ha2
    have hseg : (vars.drop i).take (k + 1) = vars[i] :: (vars.drop (i + 1)).take k := by
      rw [List.drop_eq_getElem_cons hlt, List.take_succ_cons]
    have hstr : String.mk (vars[i].name.data.take (vars[i].name.length : Int).toNat)
        = vars[i].name := by
      have : vars[i].name.data.take (vars[i].name.length : Int).toNat = vars[i].name.data := by
        apply List.take_of_length_le
        have : vars[i].name.data.length = vars[i].name.length := rfl
        simp [this]
      rw [this]
    unfold Program.enumerate
    simp only [ha1, hl1]
    rw [hseg]
    unfold Program.entries
    by_cases hneg : resolve_location vars vars[i].name < 0
    · rw [if_pos hneg, if_pos hneg]
      exact ih (i + 1) _ map _ hl2 (by omega)
    · rw [if_neg hneg, if_neg hneg, hstr]
      exact ih (i + 1) _ _ _ hl2 (by omega)

/-- The answer of `glGetActiveUniform` on a device that holds the program. -/
theorem glGetActiveUniform_of_program (m_handle : Handle) (p : ProgramObject) (i : Nat) (n : Int)
    (d : Device) (hd : d.program m_handle = some p) :
    (glGetActiveUniform m_handle i n d).1 = active_info p.uniforms i n ∧
    (glGetActiveUniform m_handle i n d).2.program m_handle = some p := by
  unfold glGetActiveUniform
  simp only [Device.program_log, hd]
  cases active_info p.uniforms i n with
  | none => exact ⟨rfl, by rw [Device.program_raise, Device.program_log, hd]⟩
  | some info => exact ⟨rfl, by rw [Device.program_log, hd]⟩

/-- The answer of `glGetActiveAttrib` on a device that holds the program. -/
theorem glGetActiveAttrib_of_program (m_handle : Handle) (p : ProgramObject) (i : Nat) (n : Int)
    (d : Device) (hd : d.program m_handle = some p) :
    (glGetActiveAttrib m_handle i n d).1 = active_info p.attributes i n ∧
    (glGetActiveAttrib m_handle i n d).2.program m_handle = some p := by
  unfold glGetActiveAttrib
  simp only [Device.program_log, hd]
  cases active_info p.attributes i n with
  | none => exact ⟨rfl, by rw [Device.program_raise, Device.program_log, hd]⟩
  | some info => exact ⟨rfl, by rw [Device.program_log, hd]⟩

/-- The answer of `glGetUniformLocation` on a device that holds the program. -/
theorem glGetUniformLocation_of_program (m_handle : Handle) (p : ProgramObject) (name : String)
    (d : Device) (hd : d.program m_handle = some p) :
    (glGetUniformLocation m_handle name d).1 = resolve_location p.uniforms name ∧
    (glGetUniformLocation m_handle name d).2.program m_handle = some p := by
  unfold glGetUniformLocation
  simp [Device.program_log, hd]

/-- The answer of `glGetAttribLocation` on a device that holds the program. -/
theorem glGetAttribLocation_of_program (m_handle : Handle) (p : ProgramObject) (name : String)
    (d : Device) (hd : d.program m_handle = some p) :
    (glGetAttribLocation m_handle name d).1 = resolve_location p.attributes name ∧
    (glGetAttribLocation m_handle name d).2.program m_handle = some p := by
  unfold glGetAttribLocation
  simp [Device.program_log, hd]

/-- The query `glGetProgramiv` leaves the programs of the device as they were. -/
theorem glGetProgramiv_program (m_handle : Handle) (pname : Nat) (p : ProgramObject)
    (d : Device) (hd : d.program m_handle = some p) :
    (glGetProgramiv m_handle pname d).2.program m_handle = some p := by
  unfold glGetProgramiv
  simp only [Device.program_log, hd]
  split_ifs <;> first
    | (rw [Device.program_log, hd])
    | (rw [Device.program_raise, Device.program_log, hd])


/-- Either block of the constructor of `Program`, on a device that holds the
program and reports its variables `vars` through the entry points of the block:
the map holds the entries of `Program.entries` over all the variables. -/
theorem Program.collect_eq_entries {α : Type} (m_handle : Handle) (pname_count pname_max : Nat)
    (get_active : Handle → Nat → Int → Device → Option ActiveInfo × Device)
    (get_location : Handle → String → Device → Int × Device)
    (make : Handle → String → GLType → Int → Int → α) (vars : List ActiveVariable)
    (p : ProgramObject) (d : Device) (map : unordered_map α)
    (hd : d.program m_handle = some p)
    (hcount : ∀ d1, d1.program m_handle = some p →
      (glGetProgramiv m_handle pname_count d1).1 = some (vars.length : Int))
    (hmax : ∀ d1, d1.program m_handle = some p →
      (glGetProgramiv m_handle pname_max d1).1 = some (max_name_length vars : Int))
    (hga : ∀ i n d, d.program m_handle = some p →
      (get_active m_handle i n d).1 = active_info vars i n ∧
      (get_active m_handle i n d).2.program m_handle = some p)
    (hgl : ∀ name d, d.program m_handle = some p →
      (get_location m_handle name d).1 = resolve_location vars name ∧
      (get_location m_handle name d).2.program m_handle = some p)
    (hlen : (vars.length : Int) ≤ INT_MAX) :
    (Program.collect m_handle pname_count pname_max get_active get_location make map d).1
        = Program.entries make m_handle (resolve_location vars) vars map ∧
    (Program.collect m_handle pname_count pname_max get_active get_location make map d).2.program
        m_handle = some p := by
  have hd1 := glGetProgramiv_program m_handle pname_count p d hd
  have hd2 := glGetProgramiv_program m_handle pname_max p _ hd1
  unfold Program.collect
  simp only [hcount d hd, hmax _ hd1, Option.getD_some]
  by_cases hzero : (vars.length : Int) = 0
  · rw [if_neg (not_not.mpr hzero)]
    have : vars = [] := List.eq_nil_of_length_eq_zero (by exact_mod_cast hzero)
    subst this
    exact ⟨rfl, hd1⟩
  · rw [if_pos hzero]
    have hrem : ((vars.length : Int) % (UINT_MOD : Int)).toNat = vars.length := by
      unfold INT_MAX at hlen
      unfold UINT_MOD
      norm_num at hlen ⊢
      omega
    rw [hrem]
    have h := Program.enumerate_eq_entries m_handle get_active get_location make vars p hga hgl
      (max_name_length vars : Int) (le_refl _) vars.length 0 ⟨0, 0, GL_NONE, ""⟩ map _ hd2
      (by omega)
    rw [List.drop_zero, List.take_length] at h
    exact h


/-- The location a name resolves to is within the range of `int` when every
location is. -/
theorem resolve_location_le (vars : List ActiveVariable) (name : String)
    (h : ∀ v ∈ vars, v.location ≤ INT_MAX) : resolve_location vars name ≤ INT_MAX := by
  unfold resolve_location
  cases hf : vars.find? (fun v => v.name == name) with
  | none => decide
  | some v => exact h v (List.mem_of_find?_eq_some hf)

/-- The constructor of `Program` on a device that holds the program: both maps
are the entries of `Program.entries` over the variables the device reports. -/
theorem Program.new_eq_entries (handle : Handle) (d : Device) (p : ProgramObject)
    (hp : d.program handle = some p) (hr : p.reportable) :
    (Program.new handle d).1.uniforms
        = Program.entries Uniform.new handle (resolve_location p.uniforms) p.uniforms [] ∧
    (Program.new handle d).1.attributes
        = Program.entries Attribute.new handle (resolve_location p.attributes) p.attributes
            [] := by
  have hquery : ∀ (pname : Nat) (d1 : Device), d1.program handle = some p →
      (pname = GL_ACTIVE_UNIFORMS →
        (glGetProgramiv handle pname d1).1 = some (p.uniforms.length : Int)) ∧
      (pname = GL_ACTIVE_UNIFORM_MAX_LENGTH →
        (glGetProgramiv handle pname d1).1 = some (max_name_length p.uniforms : Int)) ∧
      (pname = GL_ACTIVE_ATTRIBUTES →
        (glGetProgramiv handle pname d1).1 = some (p.attributes.length : Int)) ∧
      (pname = GL_ACTIVE_ATTRIBUTE_MAX_LENGTH →
        (glGetProgramiv handle pname d1).1 = some (max_name_length p.attributes : Int)) := by
    intro pname d1 hd1
    unfold glGetProgramiv
    simp only [Device.program_log, hd1]
    refine ⟨?_, ?_, ?_, ?_⟩ <;> intro h <;> subst h <;> rfl
  have hu := Program.collect_eq_entries handle GL_ACTIVE_UNIFORMS GL_ACTIVE_UNIFORM_MAX_LENGTH
    glGetActiveUniform glGetUniformLocation Uniform.new p.uniforms p d [] hp
    (fun d1 hd1 => (hquery _ d1 hd1).1 rfl) (fun d1 hd1 => (hquery _ d1 hd1).2.1 rfl)
    (fun i n d1 hd1 => glGetActiveUniform_of_program handle p i n d1 hd1)
    (fun name d1 hd1 => glGetUniformLocation_of_program handle p name d1 hd1) hr.1
  have ha := Program.collect_eq_entries handle GL_ACTIVE_ATTRIBUTES
    GL_ACTIVE_ATTRIBUTE_MAX_LENGTH glGetActiveAttrib glGetAttribLocation Attribute.new
    p.attributes p _ [] hu.2
    (fun d1 hd1 => (hquery _ d1 hd1).2.2.1 rfl) (fun d1 hd1 => (hquery _ d1 hd1).2.2.2 rfl)
    (fun i n d1 hd1 => glGetActiveAttrib_of_program handle p i n d1 hd1)
    (fun name d1 hd1 => glGetAttribLocation_of_program handle p name d1 hd1) hr.2.2.1
  exact ⟨hu.1, ha.1⟩

/-! ## Programs: the maps of uniforms and attributes -/

/-- Claim C25. On a device that holds the linked program and reports its active
uniforms and attributes, after the construction of the `Program` the map
`uniforms` has an entry for a name exactly when some reported uniform has this
name and the device resolves the name to a location that is not negative, and
the entry stored for the name carries the handle of the program, the name, the
type and the array count of a reported uniform of this name and the resolved
location; the same holds of the map `attributes` and the reported attributes. -/
theorem Program.new_maps (handle : Handle) (d : Device) (p : ProgramObject) (name : String)
    (hp : d.program handle = some p) (hr : p.reportable) :
    (((Program.new handle d).1.uniforms.find name).isSome
      ↔ ∃ v ∈ p.uniforms, v.name = name ∧ 0 ≤ (glGetUniformLocation handle name d).1) ∧
    (∀ u, (Program.new handle d).1.uniforms.find name = some u →
      ∃ v ∈ p.uniforms, v.name = name ∧ 0 ≤ (glGetUniformLocation handle name d).1 ∧
        u.member = ⟨handle, name⟩ ∧ u.type = v.type ∧ u.count = v.size ∧
        u.location = (glGetUniformLocation handle name d).1) ∧
    (((Program.new handle d).1.attributes.find name).isSome
      ↔ ∃ v ∈ p.attributes, v.name = name ∧ 0 ≤ (glGetAttribLocation handle name d).1) ∧
    (∀ a, (Program.new handle d).1.attributes.find name = some a →
      ∃ v ∈ p.attributes, v.name = name ∧ 0 ≤ (glGetAttribLocation handle name d).1 ∧
        a.member = ⟨handle, name⟩ ∧ a.type = v.type ∧ a.count = v.size ∧
        (a.location : Int) = (glGetAttribLocation handle name d).1) := by
  obtain ⟨hu, ha⟩ := Program.new_eq_entries handle d p hp hr
  rw [hu, ha, (glGetUniformLocation_of_program handle p name d hp).1,
    (glGetAttribLocation_of_program handle p name d hp).1]
  obtain ⟨hu1, hu2⟩ := Program.entries_find Uniform.new handle (resolve_location p.uniforms)
    name p.uniforms []
  obtain ⟨ha1, ha2⟩ := Program.entries_find Attribute.new handle
    (resolve_location p.attributes) name p.attributes []
  have hnil : ∀ {α : Type}, (unordered_map.find ([] : unordered_map α) name) = none :=
    fun {α} => rfl
  refine ⟨?_, ?_, ?_, ?_⟩
  · rw [hu1, hnil]
    simp
  · intro u hfound
    rcases hu2 u hfound with h | ⟨v, hv, hn, hl, hx⟩
    · rw [hnil] at h; cases h
    · exact ⟨v, hv, hn, hl, by rw [hx]; exact ⟨rfl, rfl, rfl, rfl⟩⟩
  · rw [ha1, hnil]
    simp
  · intro a hfound
    rcases ha2 a hfound with h | ⟨v, hv, hn, hl, hx⟩
    · rw [hnil] at h; cases h
    · refine ⟨v, hv, hn, hl, ?_⟩
      rw [hx]
      refine ⟨rfl, rfl, rfl, ?_⟩
      show (((resolve_location p.attributes name) % (UINT_MOD : Int)).toNat : Int) = _
      have hmax := resolve_location_le p.attributes name hr.2.2.2.2.2
      unfold INT_MAX at hmax
      unfold UINT_MOD
      norm_num at hmax ⊢
      omega

theorem Program.new_maps_witness :
    (((Program.new 3 example_program_device).1.uniforms.find "color").isSome
      ↔ ∃ v ∈ example_program_object.uniforms, v.name = "color" ∧
          0 ≤ (glGetUniformLocation 3 "color" example_program_device).1) ∧
    (Program.new 3 example_program_device).1
      = ⟨3, [("position", Attribute.new 3 "position" 0x8B51 2 1)],
          [("color", Uniform.new 3 "color" 0x8B52 0 1)]⟩ :=
  ⟨(Program.new_maps 3 example_program_device example_program_object "color" (by decide)
    (by decide)).1, by decide⟩

/-! ## Vertex arrays -/

/-- A key is counted in a map exactly when it has an entry. -/
theorem unordered_map.count_eq_zero_iff {α : Type} (m : unordered_map α) (key : String) :
    m.count key = 0 ↔ m.find key = none := by
  unfold unordered_map.count unordered_map.find
  cases List.lookup key m <;> simp

/-- The loop of the constructor of `VertexArray`, over views that own a buffer
where they are bound: it appends the bindings of `expected_bindings` to the
trace and changes nothing else. -/
theorem VertexArray.bind_attributes_trace (m_handle : Handle) (program : Program) (h : Heap) :
    ∀ (data : unordered_map Data) (d : Device),
      (∀ entry ∈ data, (program.attributes.find entry.1).isSome →
        (h.deref entry.2.m_buffer).isSome) →
      VertexArray.bind_attributes m_handle program h data d
        = (.ok (), { d with trace := d.trace
            ++ VertexArray.expected_bindings m_handle program h data }) := by
  intro data
  induction data with
  | nil =>
    intro d _
    simp [VertexArray.bind_attributes, VertexArray.expected_bindings]
  | cons entry rest ih =>
    intro d hviews
    obtain ⟨name, view⟩ := entry
    have hrest : ∀ entry ∈ rest, (program.attributes.find entry.1).isSome →
        (h.deref entry.2.m_buffer).isSome :=
      fun e he => hviews e (List.mem_cons_of_mem _ he)
    have hcons : VertexArray.expected_bindings m_handle program h ((name, view) :: rest)
        = (match program.attributes.find name, h.deref view.m_buffer with
            | some attrib, some buffer => VertexArray.binding m_handle attrib buffer view
            | _, _ => [])
          ++ VertexArray.expected_bindings m_handle program h rest := by
      simp [VertexArray.expected_bindings, List.flatMap_cons]
    unfold VertexArray.bind_attributes
    rw [hcons]
    cases hfind : program.attributes.find name with
    | none =>
      rw [if_pos ((unordered_map.count_eq_zero_iff _ _).mpr hfind), ih d hrest]
      simp
    | some attrib =>
      have hcount : ¬ program.attributes.count name = 0 := by
        rw [unordered_map.count_eq_zero_iff, hfind]; simp
      rw [if_neg hcount]
      have hlive := hviews (name, view) (List.mem_cons_self _ _) (by simp [hfind])
      cases hderef : h.deref view.m_buffer with
      | none => simp [hderef] at hlive
      | some buffer =>
        simp only [Option.getD_some]
        rw [ih _ hrest]
        simp [Device.log, VertexArray.binding, Data.slice, Data.descriptor]

/-- Claim C23, at an input where it fails.  The view bound to `position` has the
slice stride 4294967312; the constructor converts the stride to `GLsizei`, and
the buffer binding it issues has the byte stride 16. -/
theorem VertexArray.new_wide_stride :
    example_wide_stride_view.slice.stride = 4294967312 ∧
    (VertexArray.new example_program [("position", example_wide_stride_view)] none example_heap
        Device.init).2.trace
      = [.glCreateVertexArrays,
         .glVertexArrayVertexBuffer 1 2 1 0 16,
         .glVertexArrayAttribFormat 1 2 1 GL_FLOAT false 0,
         .glEnableVertexArrayAttrib 1 2] := by
  decide

/-- Claim C23, amended.  For every attribute map of the program and every data
mapping whose views own a buffer where their name is a key of the attribute
map, with an index view, if there is one, whose element count is defined, the
construction of a `VertexArray` returns the vertex array; after
`glCreateVertexArrays` and the binding of the index view it issues the calls of
`expected_bindings` and no other: the three calls of `binding` for each entry
of the data mapping whose name is a key of the attribute map, none for the
other entries.  The buffer binding is at the location of the attribute, at
offset 0 and with the slice stride converted to `GLsizei`; the attribute format
is at the same location, with `descriptor.count()` converted to `GLint`,
`descriptor.type()`, no normalisation and the slice start converted to
`GLuint`.  The conversions leave a stride and a count below `2 ^ 31` and a
start below `2 ^ 32` as they are. -/
theorem VertexArray.new_bindings (program : Program) (data : unordered_map Data)
    (indices : Option Data) (h : Heap) (d : Device)
    (hviews : ∀ entry ∈ data, (program.attributes.find entry.1).isSome →
      (h.deref entry.2.m_buffer).isSome)
    (hindices : ∀ view, indices = some view → (view.size h).isSome) :
    (∃ m_num_vertices, VertexArray.new program data indices h d
      = (.ok ⟨d.next, program, indices, data, m_num_vertices⟩,
          { d with
            next := d.next + 1,
            trace := d.trace ++ [.glCreateVertexArrays]
              ++ VertexArray.expected_element_buffer d.next h indices
              ++ VertexArray.expected_bindings d.next program h data })) ∧
    (∀ (vaobj : Handle) (attrib : Attribute) (buffer : Buffer) (view : Data),
      VertexArray.binding vaobj attrib buffer view
        = [.glVertexArrayVertexBuffer vaobj attrib.location buffer.native_handle 0
             (size_t_to_int view.slice.stride),
           .glVertexArrayAttribFormat vaobj attrib.location
             (size_t_to_int view.descriptor.count) view.descriptor.type false
             (to_GLuint (size_t_to_GLintptr view.slice.start)),
           .glEnableVertexArrayAttrib vaobj attrib.location]) ∧
    (∀ n : Nat, n < 2 ^ 31 → size_t_to_int n = n) ∧
    (∀ n : Nat, n < 2 ^ 32 → to_GLuint (size_t_to_GLintptr n) = n) := by
  refine ⟨?_, fun _ _ _ _ => rfl, ?_, ?_⟩
  · unfold VertexArray.new
    cases indices with
    | none =>
      simp only
      rw [VertexArray.bind_attributes_trace _ _ _ _ _ hviews]
      exact ⟨0, by simp [glCreateVertexArrays, Device.log, VertexArray.expected_element_buffer]⟩
    | some view =>
      have hsize := hindices view rfl
      cases hs : view.size h with
      | none => simp [hs] at hsize
      | some n =>
        have hderef : ∃ buffer, h.deref view.m_buffer = some buffer := by
          unfold Data.size at hs
          cases hb : h.deref view.m_buffer with
          | none => simp [hb] at hs
          | some buffer => exact ⟨buffer, rfl⟩
        obtain ⟨buffer, hb⟩ := hderef
        simp only [hb, hs]
        rw [VertexArray.bind_attributes_trace _ _ _ _ _ hviews]
        exact ⟨n, by simp [glCreateVertexArrays, Device.log, VertexArray.expected_element_buffer,
          hb]⟩
  · intro n hn
    unfold size_t_to_int UINT_MOD
    have : n % 2 ^ 32 = n := Nat.mod_eq_of_lt (by omega)
    rw [this, if_pos hn]
  · intro n hn
    unfold to_GLuint size_t_to_GLintptr SIZE_MOD SIZE_BITS PTRDIFF_MAX UINT_MOD
    have h1 : n % 2 ^ 64 = n := Nat.mod_eq_of_lt (by omega)
    rw [h1, if_pos (by omega)]
    norm_num at hn ⊢
    omega

theorem VertexArray.new_bindings_witness :
    ∃ m_num_vertices, VertexArray.new example_program
        [("position", example_view), ("normal", example_view)] (some example_view)
        example_heap Device.init
      = (.ok ⟨1, example_program, some example_view,
            [("position", example_view), ("normal", example_view)], m_num_vertices⟩,
          { Device.init with
            next := 2,
            trace := [] ++ [.glCreateVertexArrays]
              ++ VertexArray.expected_element_buffer 1 example_heap (some example_view)
              ++ VertexArray.expected_bindings 1 example_program example_heap
                  [("position", example_view), ("normal", example_view)] }) :=
  (VertexArray.new_bindings example_program
    [("position", example_view), ("normal", example_view)] (some example_view) example_heap
    Device.init (by decide) (by intro view hview; cases hview; decide)).1

/-- The handle an object contributes to the handles held. -/
theorem held_handles_singleton (o : Option Buffer) :
    held_handles [o] = match o with
      | some b => if b.m_handle ≠ INVALID then [b.m_handle] else []
      | none => [] := by
  cases o with
  | none => rfl
  | some b =>
    by_cases h : b.m_handle = INVALID
    · simp [held_handles, Buffer.valid, h]
    · simp [held_handles, Buffer.valid, h]

/-- The handles held by a list of objects: those of the first object, then those
of the others. -/
theorem held_handles_cons (o : Option Buffer) (rest : List (Option Buffer)) :
    held_handles (o :: rest) = held_handles [o] ++ held_handles rest := by
  unfold held_handles
  rw [← List.filterMap_append]
  rfl

/-- The handles held by two lists of objects. -/
theorem held_handles_append (l1 l2 : List (Option Buffer)) :
    held_handles (l1 ++ l2) = held_handles l1 ++ held_handles l2 := by
  unfold held_handles
  rw [List.filterMap_append]

/-- Replacing an object changes the handles held by the handle of the object
replaced and that of the object put in its place. -/
theorem held_handles_set (h : Handle) :
    ∀ (objects : List (Option Buffer)) (i : Nat) (o x : Option Buffer),
      objects.get? i = some o →
      (held_handles (objects.set i x)).count h + (held_handles [o]).count h
        = (held_handles objects).count h + (held_handles [x]).count h := by
  intro objects
  induction objects with
  | nil => intro i o x hget; simp at hget
  | cons a rest ih =>
    intro i o x hget
    cases i with
    | zero =>
      simp only [List.get?_cons_zero, Option.some.injEq] at hget
      subst hget
      rw [List.set_cons_zero, held_handles_cons, held_handles_cons a rest]
      simp only [List.count_append]
      omega
    | succ j =>
      simp only [List.get?_cons_succ] at hget
      rw [List.set_cons_succ, held_handles_cons, held_handles_cons a rest]
      simp only [List.count_append]
      have := ih j o x hget
      omega

/-- The handles deleted by two lists of calls. -/
theorem deleted_buffers_append (l1 l2 : List GLCall) :
    deleted_buffers (l1 ++ l2) = deleted_buffers l1 ++ deleted_buffers l2 := by
  unfold deleted_buffers
  rw [List.filterMap_append]

/-- The constructor of `Buffer` takes the next name of the device for its handle
and issues two calls, neither of them a `glDeleteBuffers`. -/
theorem Buffer.new_device (data : List Nat) (size : Nat) (type : BufferType) (d : Device) :
    (Buffer.new data size type d).1.m_handle = d.next ∧
    (Buffer.new data size type d).2.next = d.next + 1 ∧
    ∃ calls, (Buffer.new data size type d).2.trace = d.trace ++ calls ∧
      deleted_buffers calls = [] := by
  refine ⟨rfl, ?_, ?_⟩
  · unfold Buffer.new glNamedBufferData
    simp only
    split
    · unfold Device.raise
      split_ifs <;> rfl
    · split_ifs
      · unfold Device.raise
        split_ifs <;> rfl
      · rfl
  · refine ⟨[.glCreateBuffers, .glNamedBufferData d.next size
      (match type with
        | .STATIC => GL_STATIC_DRAW
        | .DYNAMIC => GL_DYNAMIC_DRAW
        | .STREAM => GL_STREAM_DRAW)], ?_, rfl⟩
    cases type <;>
    · unfold Buffer.new glNamedBufferData
      simp only
      split
      · unfold Device.raise
        split_ifs <;> simp [glCreateBuffers, Device.log]
      · split_ifs
        · unfold Device.raise
          split_ifs <;> simp [glCreateBuffers, Device.log]
        · simp [glCreateBuffers, Device.log, Device.update]

/-- The function `reset()` on a valid object issues one `glDeleteBuffers` of its
handle and makes the object invalid; on an invalid object it does nothing. -/
theorem Buffer.reset_device (b : Buffer) (d : Device) :
    (b.m_handle ≠ INVALID →
      (b.reset d).1 = { b with m_handle := INVALID } ∧
      (b.reset d).2.trace = d.trace ++ [.glDeleteBuffers b.m_handle] ∧
      (b.reset d).2.next = d.next) ∧
    (b.m_handle = INVALID → b.reset d = (b, d)) := by
  constructor
  · intro h
    have hv : b.valid = true := by simp [Buffer.valid, h]
    simp [Buffer.reset, hv, glDeleteBuffers, Device.log]
  · intro h
    have hv : b.valid = false := by simp [Buffer.valid, h]
    simp [Buffer.reset, hv]


/-- The handle a buffer contributes to the handles held depends on its handle
only. -/
theorem held_handles_of_handle (b c : Buffer) (h : b.m_handle = c.m_handle) :
    held_handles [some b] = held_handles [some c] := by
  rw [held_handles_singleton, held_handles_singleton]
  simp only [h]

/-- Every step of a program keeps the invariant. -/
theorem BufferStore.step_invariant (d0 : Device) (s : BufferStore) (op : BufferOp)
    (calls : List GLCall) (hinv : s.invariant d0 calls) :
    ∃ calls2, (s.step op).invariant d0 calls2 := by
  obtain ⟨htrace, hfresh, hnodup, hbal⟩ := hinv
  cases op with
  | construct data size type =>
    obtain ⟨hh, hn, c, hc, hdel⟩ := Buffer.new_device data size type s.dev
    refine ⟨calls ++ c, ?_, ?_, ?_, ?_⟩
    · show (Buffer.new data size type s.dev).2.trace = _
      rw [hc, htrace, List.append_assoc]
    · intro h hmem
      show h < (Buffer.new data size type s.dev).2.next
      rw [hn]
      have hmem2 : h ∈ s.created ++ [(Buffer.new data size type s.dev).1.m_handle] := hmem
      rw [hh] at hmem2
      rcases List.mem_append.mp hmem2 with h1 | h1
      · exact Nat.lt_succ_of_lt (hfresh h h1)
      · rw [List.mem_singleton.mp h1]; exact Nat.lt_succ_self _
    · show (s.created ++ [(Buffer.new data size type s.dev).1.m_handle]).Nodup
      rw [hh]
      refine List.Nodup.append hnodup (List.nodup_singleton _) ?_
      intro a ha hb
      rw [List.mem_singleton.mp hb] at ha
      exact absurd (hfresh _ ha) (Nat.lt_irrefl _)
    · intro h
      show (held_handles (s.objects ++ [some (Buffer.new data size type s.dev).1])).count h
          + (deleted_buffers (calls ++ c)).count h
        = ((s.created ++ [(Buffer.new data size type s.dev).1.m_handle]).filter
            (fun c => c != INVALID)).count h
      rw [held_handles_append, deleted_buffers_append, hdel, List.filter_append,
        held_handles_singleton]
      simp only [List.count_append, List.append_nil]
      have := hbal h
      by_cases hinvalid : (Buffer.new data size type s.dev).1.m_handle = INVALID
      · simp only [hinvalid, ne_eq, not_true_eq_false, if_false, List.filter, bne_self_eq_false,
          List.count_nil]
        omega
      · have hb : ((Buffer.new data size type s.dev).1.m_handle != INVALID) = true := by
          simpa using hinvalid
        simp only [ne_eq, hinvalid, not_false_eq_true, if_true, List.filter, hb]
        omega
  | move_construct source =>
    cases hget : s.objects.get? source with
    | none => exact ⟨calls, by simp only [BufferStore.step, hget]; exact ⟨htrace, hfresh, hnodup, hbal⟩⟩
    | some o =>
      cases o with
      | none => exact ⟨calls, by simp only [BufferStore.step, hget]; exact ⟨htrace, hfresh, hnodup, hbal⟩⟩
      | some other =>
        refine ⟨calls, ?_⟩
        simp only [BufferStore.step, hget]
        refine ⟨htrace, hfresh, hnodup, ?_⟩
        intro h
        show (held_handles (s.objects.set source (some (Buffer.move other).2)
            ++ [some (Buffer.move other).1])).count h + (deleted_buffers calls).count h
              = (s.created.filter (fun c => c != INVALID)).count h
        rw [held_handles_append, List.count_append]
        have h1 := held_handles_set h s.objects source (some other)
          (some (Buffer.move other).2) hget
        have h2 : held_handles [some (Buffer.move other).1] = held_handles [some other] :=
          held_handles_of_handle _ _ rfl
        have h3 : held_handles [some (Buffer.move other).2] = [] := by
          rw [held_handles_singleton]
          simp [Buffer.move, Buffer.swap]
        rw [h2]
        rw [h3] at h1
        have := hbal h
        simp only [List.count_nil] at h1
        omega
  | move_assign target source =>
    cases hget : s.objects.get? target with
    | none => exact ⟨calls, by simp only [BufferStore.step, hget]; exact ⟨htrace, hfresh, hnodup, hbal⟩⟩
    | some o =>
      cases o with
      | none => exact ⟨calls, by simp only [BufferStore.step, hget]; exact ⟨htrace, hfresh, hnodup, hbal⟩⟩
      | some b =>
        cases hget2 : s.objects.get? source with
        | none => exact ⟨calls, by simp only [BufferStore.step, hget, hget2]; exact ⟨htrace, hfresh, hnodup, hbal⟩⟩
        | some o2 =>
          cases o2 with
          | none => exact ⟨calls, by simp only [BufferStore.step, hget, hget2]; exact ⟨htrace, hfresh, hnodup, hbal⟩⟩
          | some other =>
            refine ⟨calls, ?_⟩
            simp only [BufferStore.step, hget, hget2]
            refine ⟨htrace, hfresh, hnodup, ?_⟩
            intro h
            show (held_handles ((s.objects.set target (some (Buffer.move_assign b other).1)).set
              source (some (Buffer.move_assign b other).2))).count h + (deleted_buffers calls).count h
              = (s.created.filter (fun c => c != INVALID)).count h
            have h1 := held_handles_set h s.objects target (some b)
              (some (Buffer.move_assign b other).1) hget
            have e1 : held_handles [some (Buffer.move_assign b other).1]
                = held_handles [some other] := held_handles_of_handle _ _ rfl
            have e2 : held_handles [some (Buffer.move_assign b other).2]
                = held_handles [some b] := held_handles_of_handle _ _ rfl
            have := hbal h
            by_cases hst : source = target
            · subst hst
              have hbo : b = other := by
                rw [hget] at hget2
                exact Option.some.inj (Option.some.inj hget2)
              subst hbo
              have hget3 : (s.objects.set source (some (Buffer.move_assign b b).1)).get? source
                  = some (some (Buffer.move_assign b b).1) := by
                have hlt : source < s.objects.length := by
                  rw [List.get?_eq_getElem?] at hget
                  exact (List.getElem?_eq_some_iff.mp hget).1
                rw [List.get?_eq_getElem?, List.getElem?_set_self hlt]
              have h2 := held_handles_set h _ source (some (Buffer.move_assign b b).1)
                (some (Buffer.move_assign b b).2) hget3
              rw [e1] at h1 h2
              rw [e2] at h2
              omega
            · have hget3 : (s.objects.set target (some (Buffer.move_assign b other).1)).get?
                  source = some (some other) := by
                rw [List.get?_eq_getElem?, List.getElem?_set_ne (Ne.symm hst),
                  ← List.get?_eq_getElem?]
                exact hget2
              have h2 := held_handles_set h _ source (some other)
                (some (Buffer.move_assign b other).2) hget3
              rw [e1] at h1
              rw [e2] at h2
              omega
  | reset object =>
    cases hget : s.objects.get? object with
    | none => exact ⟨calls, by simp only [BufferStore.step, hget]; exact ⟨htrace, hfresh, hnodup, hbal⟩⟩
    | some o =>
      cases o with
      | none => exact ⟨calls, by simp only [BufferStore.step, hget]; exact ⟨htrace, hfresh, hnodup, hbal⟩⟩
      | some b =>
        obtain ⟨hvalid, hinvalid⟩ := Buffer.reset_device b s.dev
        by_cases hb : b.m_handle = INVALID
        · refine ⟨calls, ?_⟩
          simp only [BufferStore.step, hget, hinvalid hb]
          refine ⟨htrace, hfresh, hnodup, ?_⟩
          intro h
          have h1 := held_handles_set h s.objects object (some b) (some b) hget
          have := hbal h
          show (held_handles (s.objects.set object (some b))).count h + (deleted_buffers calls).count h
              = (s.created.filter (fun c => c != INVALID)).count h
          omega
        · obtain ⟨hr1, hr2, hr3⟩ := hvalid hb
          refine ⟨calls ++ [.glDeleteBuffers b.m_handle], ?_⟩
          simp only [BufferStore.step, hget]
          refine ⟨?_, ?_, hnodup, ?_⟩
          · show (b.reset s.dev).2.trace = _
            rw [hr2, htrace, List.append_assoc]
          · intro h hmem
            show h < (b.reset s.dev).2.next
            rw [hr3]
            exact hfresh h hmem
          · intro h
            show (held_handles (s.objects.set object (some (b.reset s.dev).1))).count h
              + (deleted_buffers (calls ++ [.glDeleteBuffers b.m_handle])).count h
              = (s.created.filter (fun c => c != INVALID)).count h
            have h1 := held_handles_set h s.objects object (some b) (some (b.reset s.dev).1) hget
            have e1 : held_handles [some (b.reset s.dev).1] = [] := by
              rw [hr1, held_handles_singleton]
              simp
            have e2 : held_handles [some b] = [b.m_handle] := by
              rw [held_handles_singleton]
              simp [hb]
            have e3 : deleted_buffers [GLCall.glDeleteBuffers b.m_handle] = [b.m_handle] := rfl
            rw [deleted_buffers_append, List.count_append, e3]
            rw [e1, e2] at h1
            have := hbal h
            simp only [List.count_nil] at h1
            omega
  | destroy object =>
    cases hget : s.objects.get? object with
    | none => exact ⟨calls, by simp only [BufferStore.step, hget]; exact ⟨htrace, hfresh, hnodup, hbal⟩⟩
    | some o =>
      cases o with
      | none => exact ⟨calls, by simp only [BufferStore.step, hget]; exact ⟨htrace, hfresh, hnodup, hbal⟩⟩
      | some b =>
        obtain ⟨hvalid, hinvalid⟩ := Buffer.reset_device b s.dev
        have e0 : held_handles [(none : Option Buffer)] = [] := rfl
        by_cases hb : b.m_handle = INVALID
        · refine ⟨calls, ?_⟩
          simp only [BufferStore.step, hget, Buffer.destroy, hinvalid hb]
          refine ⟨htrace, hfresh, hnodup, ?_⟩
          intro h
          have h1 := held_handles_set h s.objects object (some b) none hget
          have e2 : held_handles [some b] = [] := by
            rw [held_handles_singleton]
            simp [hb]
          rw [e0, e2] at h1
          have := hbal h
          show (held_handles (s.objects.set object none)).count h + (deleted_buffers calls).count h
              = (s.created.filter (fun c => c != INVALID)).count h
          omega
        · obtain ⟨hr1, hr2, hr3⟩ := hvalid hb
          refine ⟨calls ++ [.glDeleteBuffers b.m_handle], ?_⟩
          simp only [BufferStore.step, hget, Buffer.destroy]
          refine ⟨?_, ?_, hnodup, ?_⟩
          · show (b.reset s.dev).2.trace = _
            rw [hr2, htrace, List.append_assoc]
          · intro h hmem
            show h < (b.reset s.dev).2.next
            rw [hr3]
            exact hfresh h hmem
          · intro h
            show (held_handles (s.objects.set object none)).count h
              + (deleted_buffers (calls ++ [.glDeleteBuffers b.m_handle])).count h
              = (s.created.filter (fun c => c != INVALID)).count h
            have h1 := held_handles_set h s.objects object (some b) none hget
            have e2 : held_handles [some b] = [b.m_handle] := by
              rw [held_handles_singleton]
              simp [hb]
            have e3 : deleted_buffers [GLCall.glDeleteBuffers b.m_handle] = [b.m_handle] := rfl
            rw [deleted_buffers_append, List.count_append, e3]
            rw [e0, e2] at h1
            have := hbal h
            simp only [List.count_nil] at h1
            omega


/-- Every run keeps the invariant. -/
theorem BufferStore.run_invariant (d0 : Device) (ops : List BufferOp) :
    ∃ calls, (BufferStore.run d0 ops).invariant d0 calls := by
  have key : ∀ (ops : List BufferOp) (s : BufferStore) (calls : List GLCall),
      s.invariant d0 calls → ∃ calls2, (ops.foldl BufferStore.step s).invariant d0 calls2 := by
    intro ops
    induction ops with
    | nil => intro s calls hinv; exact ⟨calls, hinv⟩
    | cons op rest ih =>
      intro s calls hinv
      obtain ⟨calls2, h2⟩ := BufferStore.step_invariant d0 s op calls hinv
      exact ih (s.step op) calls2 h2
  refine key ops (BufferStore.init d0) [] ⟨?_, ?_, ?_, ?_⟩
  · simp [BufferStore.init]
  · intro h hmem; simp [BufferStore.init] at hmem
  · simp [BufferStore.init]
  · intro h; simp [BufferStore.init, held_handles, deleted_buffers]

/-- Claim C28. Over every sequence of constructions, move constructions, move
assignments, resets and destructions of `Buffer` objects, run from any device
`d0`: every `glDeleteBuffers` issued has a handle other than `INVALID`, one the
run has created; no handle is deleted twice; and once every object is
destroyed, each created handle has been deleted exactly once.  A created handle
is a device allocation, which the sentinel `INVALID` is not: the last part is
stated of the created handles other than `INVALID`. -/
theorem Buffer.lifetime (d0 : Device) (ops : List BufferOp) :
    ∃ calls, (BufferStore.run d0 ops).dev.trace = d0.trace ++ calls ∧
      (∀ h ∈ deleted_buffers calls, h ≠ INVALID ∧ h ∈ (BufferStore.run d0 ops).created) ∧
      (deleted_buffers calls).Nodup ∧
      ((∀ o ∈ (BufferStore.run d0 ops).objects, o = none) →
        ∀ h ∈ (BufferStore.run d0 ops).created, h ≠ INVALID →
          (deleted_buffers calls).count h = 1) := by
  obtain ⟨calls, htrace, _, hnodup, hbal⟩ := BufferStore.run_invariant d0 ops
  refine ⟨calls, htrace, ?_, ?_, ?_⟩
  · intro h hmem
    have hpos : 0 < (deleted_buffers calls).count h := List.count_pos_iff.mpr hmem
    have hc : 0 < ((BufferStore.run d0 ops).created.filter (fun c => c != INVALID)).count h := by
      have := hbal h
      omega
    have hmem2 := List.count_pos_iff.mp hc
    rw [List.mem_filter] at hmem2
    exact ⟨by simpa using hmem2.2, hmem2.1⟩
  · rw [List.nodup_iff_count_le_one]
    intro h
    have h1 := hbal h
    have h2 : ((BufferStore.run d0 ops).created.filter (fun c => c != INVALID)).count h
        ≤ (BufferStore.run d0 ops).created.count h :=
      List.Sublist.count_le (List.filter_sublist _) h
    have h3 := List.nodup_iff_count_le_one.mp hnodup h
    omega
  · intro hall h hmem hne
    have hheld : held_handles (BufferStore.run d0 ops).objects = [] := by
      unfold held_handles
      rw [List.filterMap_eq_nil_iff]
      intro o ho
      rw [hall o ho]
    have hfilter : ((BufferStore.run d0 ops).created.filter (fun c => c != INVALID)).count h
        = (BufferStore.run d0 ops).created.count h := by
      rw [List.count_filter]
      simpa using hne
    have h1 := hbal h
    rw [hheld, hfilter] at h1
    have h3 := List.nodup_iff_count_le_one.mp hnodup h
    have h4 : 0 < (BufferStore.run d0 ops).created.count h := List.count_pos_iff.mpr hmem
    simp only [List.count_nil] at h1
    omega

theorem Buffer.lifetime_witness :
    (BufferStore.run Device.init example_buffer_program).objects = [none, none, none] ∧
    (BufferStore.run Device.init example_buffer_program).created = [1, 2] ∧
    ∃ calls, (BufferStore.run Device.init example_buffer_program).dev.trace = [] ++ calls ∧
      (deleted_buffers calls).Nodup ∧
      ∀ h ∈ (BufferStore.run Device.init example_buffer_program).created, h ≠ INVALID →
        (deleted_buffers calls).count h = 1 :=
  ⟨by decide, by decide,
    (Buffer.lifetime Device.init example_buffer_program).imp
      (fun _ hc => ⟨hc.1, hc.2.2.1, hc.2.2.2 (by decide)⟩)⟩

end gl
